import Mathlib

/-!
A verification development for the `channels` module of a Slack Web API client.
Every endpoint follows one pattern: build a parameter list, send it through an
injected transport, decode the returned body as JSON, then map the `ok`/`error`
fields of the decoded response to a typed result. The definitions below are a
shallow embedding of `src/mods/channels.rs`; external collaborators (the
transport trait, URL resolution, the crate-root payload types and the
serde_json decoder) are modelled from the specification at their interfaces.
-/

/-- A JSON value as decoded by serde_json. Numbers keep their raw lexeme: no
response decoder in this file inspects a numeric field, so nothing more is
needed. -/
inductive Json where
  | null : Json
  | bool (b : Bool) : Json
  | num (lexeme : String) : Json
  | str (s : String) : Json
  | arr (elems : List Json) : Json
  | obj (fields : List (String × Json)) : Json

/-- Left brace character, written via its code point. -/
def lbraceChar : Char := Char.ofNat 123

/-- Right brace character, written via its code point. -/
def rbraceChar : Char := Char.ofNat 125

/-- Drop leading JSON whitespace. -/
def skipWs : List Char → List Char
  | [] => []
  | c :: cs => if c = ' ' ∨ c = '\n' ∨ c = '\t' ∨ c = '\r' then skipWs cs else c :: cs

/-- Match an expected literal character sequence. -/
def parseLit : List Char → List Char → Option (List Char)
  | [], cs => some cs
  | l :: ls, c :: cs => if c = l then parseLit ls cs else none
  | _ :: _, [] => none

/-- Parse the remainder of a JSON string literal (the opening quote already
consumed), handling the single-character escapes. The model omits the `\u`
escape, which no input in this development contains. -/
def parseStr : List Char → Option (String × List Char)
  | [] => none
  | c :: cs =>
    if c = '"' then some ("", cs)
    else if c = '\\' then
      match cs with
      | e :: cs2 =>
        let esc : Option Char :=
          if e = 'n' then some '\n'
          else if e = 't' then some '\t'
          else if e = 'r' then some '\r'
          else if e = '"' then some '"'
          else if e = '\\' then some '\\'
          else if e = '/' then some '/'
          else none
        match esc with
        | some ch =>
          match parseStr cs2 with
          | some (s, rest) => some (⟨ch :: s.data⟩, rest)
          | none => none
        | none => none
      | [] => none
    else
      match parseStr cs with
      | some (s, rest) => some (⟨c :: s.data⟩, rest)
      | none => none

/-- Characters that may continue a JSON number lexeme. -/
def isNumChar (c : Char) : Bool :=
  c.isDigit ∨ c = '-' ∨ c = '+' ∨ c = '.' ∨ c = 'e' ∨ c = 'E'

/-- What a step of the JSON parser can produce: a single value, the members of
an object after its opening brace, or the elements of an array. -/
inductive ParseOut where
  | val (j : Json)
  | members (fields : List (String × Json))
  | elems (elems : List Json)

/-- Which production the JSON parser is currently reading. -/
inductive ParseMode where
  | val
  | members
  | elems

/-- Recursive-descent JSON parser, fuel-indexed so that it is structurally
recursive. Each recursive call consumes at least one input character, so fuel
equal to the input length suffices. -/
def parseCore : Nat → ParseMode → List Char → Option (ParseOut × List Char)
  | 0, _, _ => none
  | fuel + 1, .val, cs =>
    match skipWs cs with
    | [] => none
    | c :: cs1 =>
      if c = 'n' then (parseLit ['u', 'l', 'l'] cs1).map (fun r => (.val .null, r))
      else if c = 't' then (parseLit ['r', 'u', 'e'] cs1).map (fun r => (.val (.bool true), r))
      else if c = 'f' then (parseLit ['a', 'l', 's', 'e'] cs1).map (fun r => (.val (.bool false), r))
      else if c = '"' then (parseStr cs1).map (fun p => (.val (.str p.1), p.2))
      else if c = lbraceChar then
        match skipWs cs1 with
        | [] => none
        | d :: cs2 =>
          if d = rbraceChar then some (.val (.obj []), cs2)
          else
            match parseCore fuel .members (d :: cs2) with
            | some (.members fs, r) => some (.val (.obj fs), r)
            | _ => none
      else if c = '[' then
        match skipWs cs1 with
        | [] => none
        | d :: cs2 =>
          if d = ']' then some (.val (.arr []), cs2)
          else
            match parseCore fuel .elems (d :: cs2) with
            | some (.elems es, r) => some (.val (.arr es), r)
            | _ => none
      else if c.isDigit ∨ c = '-' then
        let lex := c :: cs1.takeWhile isNumChar
        some (.val (.num ⟨lex⟩), cs1.dropWhile isNumChar)
      else none
  | fuel + 1, .members, cs =>
    match skipWs cs with
    | [] => none
    | c :: cs1 =>
      if c = '"' then
        match parseStr cs1 with
        | none => none
        | some (k, r1) =>
          match skipWs r1 with
          | ':' :: r2 =>
            match parseCore fuel .val r2 with
            | some (.val v, r3) =>
              match skipWs r3 with
              | [] => none
              | d :: r4 =>
                if d = ',' then
                  match parseCore fuel .members r4 with
                  | some (.members fs, r5) => some (.members ((k, v) :: fs), r5)
                  | _ => none
                else if d = rbraceChar then some (.members [(k, v)], r4)
                else none
            | _ => none
          | _ => none
      else none
  | fuel + 1, .elems, cs =>
    match parseCore fuel .val cs with
    | some (.val v, r1) =>
      match skipWs r1 with
      | [] => none
      | d :: r2 =>
        if d = ',' then
          match parseCore fuel .elems r2 with
          | some (.elems es, r3) => some (.elems (v :: es), r3)
          | _ => none
        else if d = ']' then some (.elems [v], r2)
        else none
    | _ => none

/-- Parse a complete JSON document: one value followed only by whitespace. -/
def Json.parse (s : String) : Option Json :=
  match parseCore (s.length + 1) .val s.data with
  | some (.val j, rest) => if skipWs rest = [] then some j else none
  | _ => none

/-- First-match lookup of a key among the decoded fields of a JSON object. -/
def jsonLookup (fields : List (String × Json)) (key : String) : Option Json :=
  match fields with
  | [] => none
  | (k, v) :: rest => if k = key then some v else jsonLookup rest key

/-- Require a JSON object, as serde does for a struct. -/
def Json.expectObj : Json → Except String (List (String × Json))
  | .obj fields => .ok fields
  | _ => .error "invalid type: expected an object"

/-- serde decoding of an `Option<String>` field: absent and `null` are `none`. -/
def decodeOptString : Option Json → Except String (Option String)
  | none => .ok none
  | some .null => .ok none
  | some (.str s) => .ok (some s)
  | some _ => .error "invalid type: expected a string"

/-- serde decoding of a `#[serde(default)] ok: bool` field: absent is `false`. -/
def decodeBoolDefaultFalse : Option Json → Except String Bool
  | none => .ok false
  | some (.bool b) => .ok b
  | some _ => .error "invalid type: expected a boolean"

/-- serde decoding of an `Option<bool>` field. -/
def decodeOptBool : Option Json → Except String (Option Bool)
  | none => .ok none
  | some .null => .ok none
  | some (.bool b) => .ok (some b)
  | some _ => .error "invalid type: expected a boolean"

/-- Modelled from the spec: the crate-root payload types `::Channel`,
`::Message` and `::ThreadInfo` are not under src/ and no claim inspects them,
so an optional field of such a type keeps its raw JSON value. -/
def decodeOptRaw : Option Json → Except String (Option Json)
  | none => .ok none
  | some .null => .ok none
  | some j => .ok (some j)

/-- Modelled from the spec: an optional `Vec` of crate-root payload values,
kept as the raw list of JSON elements. -/
def decodeOptRawList : Option Json → Except String (Option (List Json))
  | none => .ok none
  | some .null => .ok none
  | some (.arr elems) => .ok (some elems)
  | some _ => .error "invalid type: expected an array"

/-- The `RenameResponseChannel` struct of channels.rs. Its `created` field is an
`Option<f32>`; floating point is outside this embedding, so the field keeps the
raw JSON number. -/
structure RenameResponseChannel where
  created : Option Json
  id : Option String
  is_channel : Option Bool
  name : Option String

/-- serde decoding of an `Option<f32>` field, kept as its raw JSON number. -/
def decodeOptNum : Option Json → Except String (Option Json)
  | none => .ok none
  | some .null => .ok none
  | some (.num lexeme) => .ok (some (.num lexeme))
  | some _ => .error "invalid type: expected a number"

/-- serde decoding of `RenameResponseChannel`. -/
def renameChannelFromJson (j : Json) : Except String RenameResponseChannel :=
  match Json.expectObj j with
  | .error e => .error e
  | .ok fields =>
    match decodeOptNum (jsonLookup fields "created") with
    | .error e => .error e
    | .ok created =>
      match decodeOptString (jsonLookup fields "id") with
      | .error e => .error e
      | .ok id =>
        match decodeOptBool (jsonLookup fields "is_channel") with
        | .error e => .error e
        | .ok is_channel =>
          match decodeOptString (jsonLookup fields "name") with
          | .error e => .error e
          | .ok name => .ok ⟨created, id, is_channel, name⟩

/-- serde decoding of an `Option<RenameResponseChannel>` field. -/
def decodeOptRenameChannel : Option Json → Except String (Option RenameResponseChannel)
  | none => .ok none
  | some .null => .ok none
  | some j =>
    match renameChannelFromJson j with
    | .error e => .error e
    | .ok c => .ok (some c)

/-- `serde_json::from_str`: parse the body, then decode the resulting value. -/
def serdeFromStr {α : Type} (fromJson : Json → Except String α) (s : String) :
    Except String α :=
  match Json.parse s with
  | none => .error "invalid JSON"
  | some j => fromJson j

/-- Modelled from the spec: URL resolution is a pure function from a method
name to the fully-qualified endpoint URL (`get_slack_url_for_method`, crate
root, not under src/). No claim inspects the produced text. -/
def get_slack_url_for_method (method : String) : String :=
  "https://slack.com/api/" ++ method

/-- Modelled from the spec: the Transport capability (`SlackWebRequestSender`,
declared outside src/) is one operation `send(url, params)` returning either a
raw body or a transport-level error of the caller-supplied type `E`. The model
keeps a log of the invocations of `send` so that call-count claims are
observable. -/
structure MockTransport (E : Type) where
  respond : String → List (String × String) → Except E String
  calls : List (String × List (String × String))

/-- One invocation of the transport: produce the response and log the call. -/
def MockTransport.send {E : Type} (t : MockTransport E) (url : String)
    (params : List (String × String)) : Except E String × MockTransport E :=
  (t.respond url params, ⟨t.respond, t.calls ++ [(url, params)]⟩)

/-- The `ArchiveRequest` struct of channels.rs: configuration for `channels.archive`. -/
structure ArchiveRequest where
  channel : String

/-- The `ArchiveResponse` struct of channels.rs (field order as declared). -/
structure ArchiveResponse where
  error : Option String
  ok : Bool

/-- The `ArchiveError<E>` enum of channels.rs, one constructor per variant;
`MalformedResponse` carries the decode-failure message and `Client` the
transport's own error value. -/
inductive ArchiveError (E : Type) where
  | ChannelNotFound
  | AlreadyArchived
  | CantArchiveGeneral
  | RestrictedAction
  | NotAuthed
  | InvalidAuth
  | AccountInactive
  | UserIsBot
  | UserIsRestricted
  | InvalidArgName
  | InvalidArrayArg
  | InvalidCharset
  | InvalidFormData
  | InvalidPostType
  | MissingPostType
  | TeamAddedToOrg
  | RequestTimeout
  | MalformedResponse (e : String)
  | Unknown (s : String)
  | Client (e : E)
deriving DecidableEq

/-- The `From<&str> for ArchiveError<E>` impl of channels.rs: sequential match on
the known wire codes, anything else falling through to `Unknown`. -/
def ArchiveError.fromStr {E : Type} (s : String) : ArchiveError E :=
  if s = "channel_not_found" then .ChannelNotFound
  else if s = "already_archived" then .AlreadyArchived
  else if s = "cant_archive_general" then .CantArchiveGeneral
  else if s = "restricted_action" then .RestrictedAction
  else if s = "not_authed" then .NotAuthed
  else if s = "invalid_auth" then .InvalidAuth
  else if s = "account_inactive" then .AccountInactive
  else if s = "user_is_bot" then .UserIsBot
  else if s = "user_is_restricted" then .UserIsRestricted
  else if s = "invalid_arg_name" then .InvalidArgName
  else if s = "invalid_array_arg" then .InvalidArrayArg
  else if s = "invalid_charset" then .InvalidCharset
  else if s = "invalid_form_data" then .InvalidFormData
  else if s = "invalid_post_type" then .InvalidPostType
  else if s = "missing_post_type" then .MissingPostType
  else if s = "team_added_to_org" then .TeamAddedToOrg
  else if s = "request_timeout" then .RequestTimeout
  else .Unknown s

/-- The `Error::description` impl for `ArchiveError<E>` in channels.rs; `descE` stands
for the `description` method of the transport error type `E`. -/
def ArchiveError.description {E : Type} (descE : E → String) : ArchiveError E → String
  | .ChannelNotFound => "channel_not_found: Value passed for channel was invalid."
  | .AlreadyArchived => "already_archived: Channel has already been archived."
  | .CantArchiveGeneral => "cant_archive_general: You cannot archive the general channel"
  | .RestrictedAction => "restricted_action: A team preference prevents the authenticated user from archiving."
  | .NotAuthed => "not_authed: No authentication token provided."
  | .InvalidAuth => "invalid_auth: Invalid authentication token."
  | .AccountInactive => "account_inactive: Authentication token is for a deleted user or team."
  | .UserIsBot => "user_is_bot: This method cannot be called by a bot user."
  | .UserIsRestricted => "user_is_restricted: This method cannot be called by a restricted user or single channel guest."
  | .InvalidArgName => "invalid_arg_name: The method was passed an argument whose name falls outside the bounds of common decency. This includes very long names and names with non-alphanumeric characters other than _. If you get this error, it is typically an indication that you have made a very malformed API call."
  | .InvalidArrayArg => "invalid_array_arg: The method was passed a PHP-style array argument (e.g. with a name like foo[7]). These are never valid with the Slack API."
  | .InvalidCharset => "invalid_charset: The method was called via a POST request, but the charset specified in the Content-Type header was invalid. Valid charset names are: utf-8 iso-8859-1."
  | .InvalidFormData => "invalid_form_data: The method was called via a POST request with Content-Type application/x-www-form-urlencoded or multipart/form-data, but the form data was either missing or syntactically invalid."
  | .InvalidPostType => "invalid_post_type: The method was called via a POST request, but the specified Content-Type was invalid. Valid types are: application/x-www-form-urlencoded multipart/form-data text/plain."
  | .MissingPostType => "missing_post_type: The method was called via a POST request and included a data payload, but the request did not include a Content-Type header."
  | .TeamAddedToOrg => "team_added_to_org: The team associated with your request is currently undergoing migration to an Enterprise Organization. Web API and other platform operations will be intermittently unavailable until the transition is complete."
  | .RequestTimeout => "request_timeout: The method was called via a POST request, but the POST data was either missing or truncated."
  | .MalformedResponse e => e
  | .Unknown s => s
  | .Client e => descE e

/-- The `fmt::Display` impl for `ArchiveError<E>` writes `self.description()`. -/
def ArchiveError.displayString {E : Type} (descE : E → String) (e : ArchiveError E) : String :=
  ArchiveError.description descE e

/-- The wire codes appearing in the `From<&str>` match of `ArchiveError`. -/
def archiveKnownCodes : List String :=
  ["channel_not_found", "already_archived", "cant_archive_general", "restricted_action", "not_authed", "invalid_auth", "account_inactive", "user_is_bot", "user_is_restricted", "invalid_arg_name", "invalid_array_arg", "invalid_charset", "invalid_form_data", "invalid_post_type", "missing_post_type", "team_added_to_org", "request_timeout"]

/-- Each domain-error match arm of `ArchiveError` together with its wire code and
the text that follows the code in its `description` string. -/
def archiveDescTable : List (ArchiveError Unit × String × String) :=
  [(ArchiveError.ChannelNotFound, "channel_not_found", "Value passed for channel was invalid."),
  (ArchiveError.AlreadyArchived, "already_archived", "Channel has already been archived."),
  (ArchiveError.CantArchiveGeneral, "cant_archive_general", "You cannot archive the general channel"),
  (ArchiveError.RestrictedAction, "restricted_action", "A team preference prevents the authenticated user from archiving."),
  (ArchiveError.NotAuthed, "not_authed", "No authentication token provided."),
  (ArchiveError.InvalidAuth, "invalid_auth", "Invalid authentication token."),
  (ArchiveError.AccountInactive, "account_inactive", "Authentication token is for a deleted user or team."),
  (ArchiveError.UserIsBot, "user_is_bot", "This method cannot be called by a bot user."),
  (ArchiveError.UserIsRestricted, "user_is_restricted", "This method cannot be called by a restricted user or single channel guest."),
  (ArchiveError.InvalidArgName, "invalid_arg_name", "The method was passed an argument whose name falls outside the bounds of common decency. This includes very long names and names with non-alphanumeric characters other than _. If you get this error, it is typically an indication that you have made a very malformed API call."),
  (ArchiveError.InvalidArrayArg, "invalid_array_arg", "The method was passed a PHP-style array argument (e.g. with a name like foo[7]). These are never valid with the Slack API."),
  (ArchiveError.InvalidCharset, "invalid_charset", "The method was called via a POST request, but the charset specified in the Content-Type header was invalid. Valid charset names are: utf-8 iso-8859-1."),
  (ArchiveError.InvalidFormData, "invalid_form_data", "The method was called via a POST request with Content-Type application/x-www-form-urlencoded or multipart/form-data, but the form data was either missing or syntactically invalid."),
  (ArchiveError.InvalidPostType, "invalid_post_type", "The method was called via a POST request, but the specified Content-Type was invalid. Valid types are: application/x-www-form-urlencoded multipart/form-data text/plain."),
  (ArchiveError.MissingPostType, "missing_post_type", "The method was called via a POST request and included a data payload, but the request did not include a Content-Type header."),
  (ArchiveError.TeamAddedToOrg, "team_added_to_org", "The team associated with your request is currently undergoing migration to an Enterprise Organization. Web API and other platform operations will be intermittently unavailable until the transition is complete."),
  (ArchiveError.RequestTimeout, "request_timeout", "The method was called via a POST request, but the POST data was either missing or truncated.")]

/-- serde_json decoding of `ArchiveResponse`: every field optional except `ok`,
which `#[serde(default)]` makes default to `false` when absent. -/
def ArchiveResponse.fromJson (j : Json) : Except String ArchiveResponse :=
  match Json.expectObj j with
  | .error e => .error e
  | .ok fields =>
    match decodeOptString (jsonLookup fields "error") with
    | .error e => .error e
    | .ok error =>
      match decodeBoolDefaultFalse (jsonLookup fields "ok") with
      | .error e => .error e
      | .ok ok =>
        .ok ⟨error, ok⟩

/-- `serde_json::from_str::<ArchiveResponse>`. -/
def ArchiveResponse.decode (s : String) : Except String ArchiveResponse :=
  serdeFromStr ArchiveResponse.fromJson s

/-- The `Into<Result<ArchiveResponse, ArchiveError<E>>>` impl of channels.rs: `ok = true`
returns the full response, otherwise the error string (absent mapped to "")
is resolved through the code table. -/
def ArchiveResponse.intoResult {E : Type} (self : ArchiveResponse) :
    Except (ArchiveError E) ArchiveResponse :=
  if self.ok then .ok self
  else .error (ArchiveError.fromStr (self.error.getD ""))

/-- The parameter list built by `archive` in channels.rs: a vector of optional
pairs run through `filter_map`. -/
def archiveParams (token : String) (request : ArchiveRequest) : List (String × String) :=
  ([some ("token", token),
    some ("channel", request.channel)] : List (Option (String × String))).filterMap id

/-- The body of `pub fn archive` in channels.rs, with the response decoder taken as
a parameter so that independence from the decoder is expressible. -/
def archiveWith {E : Type} (decode : String → Except String ArchiveResponse)
    (client : MockTransport E) (token : String) (request : ArchiveRequest) :
    Except (ArchiveError E) ArchiveResponse × MockTransport E :=
  let params := archiveParams token request
  let url := get_slack_url_for_method "channels.archive"
  let sent := client.send url params
  (((sent.1.mapError ArchiveError.Client).bind fun result =>
      ((decode result).mapError ArchiveError.MalformedResponse).bind fun o =>
        ArchiveResponse.intoResult o), sent.2)

/-- `pub fn archive` of channels.rs (channels.archive): build params, send once, decode,
then map the `ok`/`error` fields. -/
def archive {E : Type} (client : MockTransport E) (token : String)
    (request : ArchiveRequest) : Except (ArchiveError E) ArchiveResponse × MockTransport E :=
  archiveWith ArchiveResponse.decode client token request

/-- The `CreateRequest` struct of channels.rs: configuration for `channels.create`. -/
structure CreateRequest where
  name : String
  validate : Option Bool

/-- The `CreateResponse` struct of channels.rs (field order as declared). -/
structure CreateResponse where
  channel : Option Json
  error : Option String
  ok : Bool

/-- The `CreateError<E>` enum of channels.rs, one constructor per variant;
`MalformedResponse` carries the decode-failure message and `Client` the
transport's own error value. -/
inductive CreateError (E : Type) where
  | NameTaken
  | RestrictedAction
  | NoChannel
  | InvalidNameRequired
  | InvalidNamePunctuation
  | InvalidNameMaxlength
  | InvalidNameSpecials
  | InvalidName
  | NotAuthed
  | InvalidAuth
  | AccountInactive
  | UserIsBot
  | UserIsRestricted
  | InvalidArgName
  | InvalidArrayArg
  | InvalidCharset
  | InvalidFormData
  | InvalidPostType
  | MissingPostType
  | TeamAddedToOrg
  | RequestTimeout
  | MalformedResponse (e : String)
  | Unknown (s : String)
  | Client (e : E)
deriving DecidableEq

/-- The `From<&str> for CreateError<E>` impl of channels.rs: sequential match on
the known wire codes, anything else falling through to `Unknown`. -/
def CreateError.fromStr {E : Type} (s : String) : CreateError E :=
  if s = "name_taken" then .NameTaken
  else if s = "restricted_action" then .RestrictedAction
  else if s = "no_channel" then .NoChannel
  else if s = "invalid_name_required" then .InvalidNameRequired
  else if s = "invalid_name_punctuation" then .InvalidNamePunctuation
  else if s = "invalid_name_maxlength" then .InvalidNameMaxlength
  else if s = "invalid_name_specials" then .InvalidNameSpecials
  else if s = "invalid_name" then .InvalidName
  else if s = "not_authed" then .NotAuthed
  else if s = "invalid_auth" then .InvalidAuth
  else if s = "account_inactive" then .AccountInactive
  else if s = "user_is_bot" then .UserIsBot
  else if s = "user_is_restricted" then .UserIsRestricted
  else if s = "invalid_arg_name" then .InvalidArgName
  else if s = "invalid_array_arg" then .InvalidArrayArg
  else if s = "invalid_charset" then .InvalidCharset
  else if s = "invalid_form_data" then .InvalidFormData
  else if s = "invalid_post_type" then .InvalidPostType
  else if s = "missing_post_type" then .MissingPostType
  else if s = "team_added_to_org" then .TeamAddedToOrg
  else if s = "request_timeout" then .RequestTimeout
  else .Unknown s

/-- The `Error::description` impl for `CreateError<E>` in channels.rs; `descE` stands
for the `description` method of the transport error type `E`. -/
def CreateError.description {E : Type} (descE : E → String) : CreateError E → String
  | .NameTaken => "name_taken: A channel cannot be created with the given name."
  | .RestrictedAction => "restricted_action: A team preference prevents the authenticated user from creating channels."
  | .NoChannel => "no_channel: Value passed for name was empty."
  | .InvalidNameRequired => "invalid_name_required: Value passed for name was empty."
  | .InvalidNamePunctuation => "invalid_name_punctuation: Value passed for name contained only punctuation."
  | .InvalidNameMaxlength => "invalid_name_maxlength: Value passed for name exceeded max length."
  | .InvalidNameSpecials => "invalid_name_specials: Value passed for name contained unallowed special characters or upper case characters."
  | .InvalidName => "invalid_name: Value passed for name was invalid."
  | .NotAuthed => "not_authed: No authentication token provided."
  | .InvalidAuth => "invalid_auth: Invalid authentication token."
  | .AccountInactive => "account_inactive: Authentication token is for a deleted user or team."
  | .UserIsBot => "user_is_bot: This method cannot be called by a bot user."
  | .UserIsRestricted => "user_is_restricted: This method cannot be called by a restricted user or single channel guest."
  | .InvalidArgName => "invalid_arg_name: The method was passed an argument whose name falls outside the bounds of common decency. This includes very long names and names with non-alphanumeric characters other than _. If you get this error, it is typically an indication that you have made a very malformed API call."
  | .InvalidArrayArg => "invalid_array_arg: The method was passed a PHP-style array argument (e.g. with a name like foo[7]). These are never valid with the Slack API."
  | .InvalidCharset => "invalid_charset: The method was called via a POST request, but the charset specified in the Content-Type header was invalid. Valid charset names are: utf-8 iso-8859-1."
  | .InvalidFormData => "invalid_form_data: The method was called via a POST request with Content-Type application/x-www-form-urlencoded or multipart/form-data, but the form data was either missing or syntactically invalid."
  | .InvalidPostType => "invalid_post_type: The method was called via a POST request, but the specified Content-Type was invalid. Valid types are: application/x-www-form-urlencoded multipart/form-data text/plain."
  | .MissingPostType => "missing_post_type: The method was called via a POST request and included a data payload, but the request did not include a Content-Type header."
  | .TeamAddedToOrg => "team_added_to_org: The team associated with your request is currently undergoing migration to an Enterprise Organization. Web API and other platform operations will be intermittently unavailable until the transition is complete."
  | .RequestTimeout => "request_timeout: The method was called via a POST request, but the POST data was either missing or truncated."
  | .MalformedResponse e => e
  | .Unknown s => s
  | .Client e => descE e

/-- The `fmt::Display` impl for `CreateError<E>` writes `self.description()`. -/
def CreateError.displayString {E : Type} (descE : E → String) (e : CreateError E) : String :=
  CreateError.description descE e

/-- The wire codes appearing in the `From<&str>` match of `CreateError`. -/
def createKnownCodes : List String :=
  ["name_taken", "restricted_action", "no_channel", "invalid_name_required", "invalid_name_punctuation", "invalid_name_maxlength", "invalid_name_specials", "invalid_name", "not_authed", "invalid_auth", "account_inactive", "user_is_bot", "user_is_restricted", "invalid_arg_name", "invalid_array_arg", "invalid_charset", "invalid_form_data", "invalid_post_type", "missing_post_type", "team_added_to_org", "request_timeout"]

/-- Each domain-error match arm of `CreateError` together with its wire code and
the text that follows the code in its `description` string. -/
def createDescTable : List (CreateError Unit × String × String) :=
  [(CreateError.NameTaken, "name_taken", "A channel cannot be created with the given name."),
  (CreateError.RestrictedAction, "restricted_action", "A team preference prevents the authenticated user from creating channels."),
  (CreateError.NoChannel, "no_channel", "Value passed for name was empty."),
  (CreateError.InvalidNameRequired, "invalid_name_required", "Value passed for name was empty."),
  (CreateError.InvalidNamePunctuation, "invalid_name_punctuation", "Value passed for name contained only punctuation."),
  (CreateError.InvalidNameMaxlength, "invalid_name_maxlength", "Value passed for name exceeded max length."),
  (CreateError.InvalidNameSpecials, "invalid_name_specials", "Value passed for name contained unallowed special characters or upper case characters."),
  (CreateError.InvalidName, "invalid_name", "Value passed for name was invalid."),
  (CreateError.NotAuthed, "not_authed", "No authentication token provided."),
  (CreateError.InvalidAuth, "invalid_auth", "Invalid authentication token."),
  (CreateError.AccountInactive, "account_inactive", "Authentication token is for a deleted user or team."),
  (CreateError.UserIsBot, "user_is_bot", "This method cannot be called by a bot user."),
  (CreateError.UserIsRestricted, "user_is_restricted", "This method cannot be called by a restricted user or single channel guest."),
  (CreateError.InvalidArgName, "invalid_arg_name", "The method was passed an argument whose name falls outside the bounds of common decency. This includes very long names and names with non-alphanumeric characters other than _. If you get this error, it is typically an indication that you have made a very malformed API call."),
  (CreateError.InvalidArrayArg, "invalid_array_arg", "The method was passed a PHP-style array argument (e.g. with a name like foo[7]). These are never valid with the Slack API."),
  (CreateError.InvalidCharset, "invalid_charset", "The method was called via a POST request, but the charset specified in the Content-Type header was invalid. Valid charset names are: utf-8 iso-8859-1."),
  (CreateError.InvalidFormData, "invalid_form_data", "The method was called via a POST request with Content-Type application/x-www-form-urlencoded or multipart/form-data, but the form data was either missing or syntactically invalid."),
  (CreateError.InvalidPostType, "invalid_post_type", "The method was called via a POST request, but the specified Content-Type was invalid. Valid types are: application/x-www-form-urlencoded multipart/form-data text/plain."),
  (CreateError.MissingPostType, "missing_post_type", "The method was called via a POST request and included a data payload, but the request did not include a Content-Type header."),
  (CreateError.TeamAddedToOrg, "team_added_to_org", "The team associated with your request is currently undergoing migration to an Enterprise Organization. Web API and other platform operations will be intermittently unavailable until the transition is complete."),
  (CreateError.RequestTimeout, "request_timeout", "The method was called via a POST request, but the POST data was either missing or truncated.")]

/-- serde_json decoding of `CreateResponse`: every field optional except `ok`,
which `#[serde(default)]` makes default to `false` when absent. -/
def CreateResponse.fromJson (j : Json) : Except String CreateResponse :=
  match Json.expectObj j with
  | .error e => .error e
  | .ok fields =>
    match decodeOptRaw (jsonLookup fields "channel") with
    | .error e => .error e
    | .ok channel =>
      match decodeOptString (jsonLookup fields "error") with
      | .error e => .error e
      | .ok error =>
        match decodeBoolDefaultFalse (jsonLookup fields "ok") with
        | .error e => .error e
        | .ok ok =>
          .ok ⟨channel, error, ok⟩

/-- `serde_json::from_str::<CreateResponse>`. -/
def CreateResponse.decode (s : String) : Except String CreateResponse :=
  serdeFromStr CreateResponse.fromJson s

/-- The `Into<Result<CreateResponse, CreateError<E>>>` impl of channels.rs: `ok = true`
returns the full response, otherwise the error string (absent mapped to "")
is resolved through the code table. -/
def CreateResponse.intoResult {E : Type} (self : CreateResponse) :
    Except (CreateError E) CreateResponse :=
  if self.ok then .ok self
  else .error (CreateError.fromStr (self.error.getD ""))

/-- The parameter list built by `create` in channels.rs: a vector of optional
pairs run through `filter_map`. -/
def createParams (token : String) (request : CreateRequest) : List (String × String) :=
  ([some ("token", token),
    some ("name", request.name),
    request.validate.map (fun validate => ("validate", if validate then "1" else "0"))] : List (Option (String × String))).filterMap id

/-- The body of `pub fn create` in channels.rs, with the response decoder taken as
a parameter so that independence from the decoder is expressible. -/
def createWith {E : Type} (decode : String → Except String CreateResponse)
    (client : MockTransport E) (token : String) (request : CreateRequest) :
    Except (CreateError E) CreateResponse × MockTransport E :=
  let params := createParams token request
  let url := get_slack_url_for_method "channels.create"
  let sent := client.send url params
  (((sent.1.mapError CreateError.Client).bind fun result =>
      ((decode result).mapError CreateError.MalformedResponse).bind fun o =>
        CreateResponse.intoResult o), sent.2)

/-- `pub fn create` of channels.rs (channels.create): build params, send once, decode,
then map the `ok`/`error` fields. -/
def create {E : Type} (client : MockTransport E) (token : String)
    (request : CreateRequest) : Except (CreateError E) CreateResponse × MockTransport E :=
  createWith CreateResponse.decode client token request

/-- The `HistoryRequest` struct of channels.rs: configuration for `channels.history`. -/
structure HistoryRequest where
  channel : String
  latest : Option String
  oldest : Option String
  inclusive : Option Bool
  count : Option Nat
  unreads : Option Bool

/-- The `HistoryResponse` struct of channels.rs (field order as declared). -/
structure HistoryResponse where
  error : Option String
  has_more : Option Bool
  latest : Option String
  messages : Option (List Json)
  ok : Bool

/-- The `HistoryError<E>` enum of channels.rs, one constructor per variant;
`MalformedResponse` carries the decode-failure message and `Client` the
transport's own error value. -/
inductive HistoryError (E : Type) where
  | ChannelNotFound
  | InvalidTsLatest
  | InvalidTsOldest
  | NotAuthed
  | InvalidAuth
  | AccountInactive
  | InvalidArgName
  | InvalidArrayArg
  | InvalidCharset
  | InvalidFormData
  | InvalidPostType
  | MissingPostType
  | TeamAddedToOrg
  | RequestTimeout
  | MalformedResponse (e : String)
  | Unknown (s : String)
  | Client (e : E)
deriving DecidableEq

/-- The `From<&str> for HistoryError<E>` impl of channels.rs: sequential match on
the known wire codes, anything else falling through to `Unknown`. -/
def HistoryError.fromStr {E : Type} (s : String) : HistoryError E :=
  if s = "channel_not_found" then .ChannelNotFound
  else if s = "invalid_ts_latest" then .InvalidTsLatest
  else if s = "invalid_ts_oldest" then .InvalidTsOldest
  else if s = "not_authed" then .NotAuthed
  else if s = "invalid_auth" then .InvalidAuth
  else if s = "account_inactive" then .AccountInactive
  else if s = "invalid_arg_name" then .InvalidArgName
  else if s = "invalid_array_arg" then .InvalidArrayArg
  else if s = "invalid_charset" then .InvalidCharset
  else if s = "invalid_form_data" then .InvalidFormData
  else if s = "invalid_post_type" then .InvalidPostType
  else if s = "missing_post_type" then .MissingPostType
  else if s = "team_added_to_org" then .TeamAddedToOrg
  else if s = "request_timeout" then .RequestTimeout
  else .Unknown s

/-- The `Error::description` impl for `HistoryError<E>` in channels.rs; `descE` stands
for the `description` method of the transport error type `E`. -/
def HistoryError.description {E : Type} (descE : E → String) : HistoryError E → String
  | .ChannelNotFound => "channel_not_found: Value passed for channel was invalid."
  | .InvalidTsLatest => "invalid_ts_latest: Value passed for latest was invalid"
  | .InvalidTsOldest => "invalid_ts_oldest: Value passed for oldest was invalid"
  | .NotAuthed => "not_authed: No authentication token provided."
  | .InvalidAuth => "invalid_auth: Invalid authentication token."
  | .AccountInactive => "account_inactive: Authentication token is for a deleted user or team."
  | .InvalidArgName => "invalid_arg_name: The method was passed an argument whose name falls outside the bounds of common decency. This includes very long names and names with non-alphanumeric characters other than _. If you get this error, it is typically an indication that you have made a very malformed API call."
  | .InvalidArrayArg => "invalid_array_arg: The method was passed a PHP-style array argument (e.g. with a name like foo[7]). These are never valid with the Slack API."
  | .InvalidCharset => "invalid_charset: The method was called via a POST request, but the charset specified in the Content-Type header was invalid. Valid charset names are: utf-8 iso-8859-1."
  | .InvalidFormData => "invalid_form_data: The method was called via a POST request with Content-Type application/x-www-form-urlencoded or multipart/form-data, but the form data was either missing or syntactically invalid."
  | .InvalidPostType => "invalid_post_type: The method was called via a POST request, but the specified Content-Type was invalid. Valid types are: application/x-www-form-urlencoded multipart/form-data text/plain."
  | .MissingPostType => "missing_post_type: The method was called via a POST request and included a data payload, but the request did not include a Content-Type header."
  | .TeamAddedToOrg => "team_added_to_org: The team associated with your request is currently undergoing migration to an Enterprise Organization. Web API and other platform operations will be intermittently unavailable until the transition is complete."
  | .RequestTimeout => "request_timeout: The method was called via a POST request, but the POST data was either missing or truncated."
  | .MalformedResponse e => e
  | .Unknown s => s
  | .Client e => descE e

/-- The `fmt::Display` impl for `HistoryError<E>` writes `self.description()`. -/
def HistoryError.displayString {E : Type} (descE : E → String) (e : HistoryError E) : String :=
  HistoryError.description descE e

/-- The wire codes appearing in the `From<&str>` match of `HistoryError`. -/
def historyKnownCodes : List String :=
  ["channel_not_found", "invalid_ts_latest", "invalid_ts_oldest", "not_authed", "invalid_auth", "account_inactive", "invalid_arg_name", "invalid_array_arg", "invalid_charset", "invalid_form_data", "invalid_post_type", "missing_post_type", "team_added_to_org", "request_timeout"]

/-- Each domain-error match arm of `HistoryError` together with its wire code and
the text that follows the code in its `description` string. -/
def historyDescTable : List (HistoryError Unit × String × String) :=
  [(HistoryError.ChannelNotFound, "channel_not_found", "Value passed for channel was invalid."),
  (HistoryError.InvalidTsLatest, "invalid_ts_latest", "Value passed for latest was invalid"),
  (HistoryError.InvalidTsOldest, "invalid_ts_oldest", "Value passed for oldest was invalid"),
  (HistoryError.NotAuthed, "not_authed", "No authentication token provided."),
  (HistoryError.InvalidAuth, "invalid_auth", "Invalid authentication token."),
  (HistoryError.AccountInactive, "account_inactive", "Authentication token is for a deleted user or team."),
  (HistoryError.InvalidArgName, "invalid_arg_name", "The method was passed an argument whose name falls outside the bounds of common decency. This includes very long names and names with non-alphanumeric characters other than _. If you get this error, it is typically an indication that you have made a very malformed API call."),
  (HistoryError.InvalidArrayArg, "invalid_array_arg", "The method was passed a PHP-style array argument (e.g. with a name like foo[7]). These are never valid with the Slack API."),
  (HistoryError.InvalidCharset, "invalid_charset", "The method was called via a POST request, but the charset specified in the Content-Type header was invalid. Valid charset names are: utf-8 iso-8859-1."),
  (HistoryError.InvalidFormData, "invalid_form_data", "The method was called via a POST request with Content-Type application/x-www-form-urlencoded or multipart/form-data, but the form data was either missing or syntactically invalid."),
  (HistoryError.InvalidPostType, "invalid_post_type", "The method was called via a POST request, but the specified Content-Type was invalid. Valid types are: application/x-www-form-urlencoded multipart/form-data text/plain."),
  (HistoryError.MissingPostType, "missing_post_type", "The method was called via a POST request and included a data payload, but the request did not include a Content-Type header."),
  (HistoryError.TeamAddedToOrg, "team_added_to_org", "The team associated with your request is currently undergoing migration to an Enterprise Organization. Web API and other platform operations will be intermittently unavailable until the transition is complete."),
  (HistoryError.RequestTimeout, "request_timeout", "The method was called via a POST request, but the POST data was either missing or truncated.")]

/-- serde_json decoding of `HistoryResponse`: every field optional except `ok`,
which `#[serde(default)]` makes default to `false` when absent. -/
def HistoryResponse.fromJson (j : Json) : Except String HistoryResponse :=
  match Json.expectObj j with
  | .error e => .error e
  | .ok fields =>
    match decodeOptString (jsonLookup fields "error") with
    | .error e => .error e
    | .ok error =>
      match decodeOptBool (jsonLookup fields "has_more") with
      | .error e => .error e
      | .ok has_more =>
        match decodeOptString (jsonLookup fields "latest") with
        | .error e => .error e
        | .ok latest =>
          match decodeOptRawList (jsonLookup fields "messages") with
          | .error e => .error e
          | .ok messages =>
            match decodeBoolDefaultFalse (jsonLookup fields "ok") with
            | .error e => .error e
            | .ok ok =>
              .ok ⟨error, has_more, latest, messages, ok⟩

/-- `serde_json::from_str::<HistoryResponse>`. -/
def HistoryResponse.decode (s : String) : Except String HistoryResponse :=
  serdeFromStr HistoryResponse.fromJson s

/-- The `Into<Result<HistoryResponse, HistoryError<E>>>` impl of channels.rs: `ok = true`
returns the full response, otherwise the error string (absent mapped to "")
is resolved through the code table. -/
def HistoryResponse.intoResult {E : Type} (self : HistoryResponse) :
    Except (HistoryError E) HistoryResponse :=
  if self.ok then .ok self
  else .error (HistoryError.fromStr (self.error.getD ""))

/-- The parameter list built by `history` in channels.rs: a vector of optional
pairs run through `filter_map`. -/
def historyParams (token : String) (request : HistoryRequest) : List (String × String) :=
  let count := request.count.map (fun count => toString count)
  ([some ("token", token),
    some ("channel", request.channel),
    request.latest.map (fun latest => ("latest", latest)),
    request.oldest.map (fun oldest => ("oldest", oldest)),
    request.inclusive.map (fun inclusive => ("inclusive", if inclusive then "1" else "0")),
    count.map (fun count => ("count", count)),
    request.unreads.map (fun unreads => ("unreads", if unreads then "1" else "0"))] : List (Option (String × String))).filterMap id

/-- The body of `pub fn history` in channels.rs, with the response decoder taken as
a parameter so that independence from the decoder is expressible. -/
def historyWith {E : Type} (decode : String → Except String HistoryResponse)
    (client : MockTransport E) (token : String) (request : HistoryRequest) :
    Except (HistoryError E) HistoryResponse × MockTransport E :=
  let params := historyParams token request
  let url := get_slack_url_for_method "channels.history"
  let sent := client.send url params
  (((sent.1.mapError HistoryError.Client).bind fun result =>
      ((decode result).mapError HistoryError.MalformedResponse).bind fun o =>
        HistoryResponse.intoResult o), sent.2)

/-- `pub fn history` of channels.rs (channels.history): build params, send once, decode,
then map the `ok`/`error` fields. -/
def history {E : Type} (client : MockTransport E) (token : String)
    (request : HistoryRequest) : Except (HistoryError E) HistoryResponse × MockTransport E :=
  historyWith HistoryResponse.decode client token request

/-- The `InfoRequest` struct of channels.rs: configuration for `channels.info`. -/
structure InfoRequest where
  channel : String

/-- The `InfoResponse` struct of channels.rs (field order as declared). -/
structure InfoResponse where
  channel : Option Json
  error : Option String
  ok : Bool

/-- The `InfoError<E>` enum of channels.rs, one constructor per variant;
`MalformedResponse` carries the decode-failure message and `Client` the
transport's own error value. -/
inductive InfoError (E : Type) where
  | ChannelNotFound
  | NotAuthed
  | InvalidAuth
  | AccountInactive
  | InvalidArgName
  | InvalidArrayArg
  | InvalidCharset
  | InvalidFormData
  | InvalidPostType
  | MissingPostType
  | TeamAddedToOrg
  | RequestTimeout
  | MalformedResponse (e : String)
  | Unknown (s : String)
  | Client (e : E)
deriving DecidableEq

/-- The `From<&str> for InfoError<E>` impl of channels.rs: sequential match on
the known wire codes, anything else falling through to `Unknown`. -/
def InfoError.fromStr {E : Type} (s : String) : InfoError E :=
  if s = "channel_not_found" then .ChannelNotFound
  else if s = "not_authed" then .NotAuthed
  else if s = "invalid_auth" then .InvalidAuth
  else if s = "account_inactive" then .AccountInactive
  else if s = "invalid_arg_name" then .InvalidArgName
  else if s = "invalid_array_arg" then .InvalidArrayArg
  else if s = "invalid_charset" then .InvalidCharset
  else if s = "invalid_form_data" then .InvalidFormData
  else if s = "invalid_post_type" then .InvalidPostType
  else if s = "missing_post_type" then .MissingPostType
  else if s = "team_added_to_org" then .TeamAddedToOrg
  else if s = "request_timeout" then .RequestTimeout
  else .Unknown s

/-- The `Error::description` impl for `InfoError<E>` in channels.rs; `descE` stands
for the `description` method of the transport error type `E`. -/
def InfoError.description {E : Type} (descE : E → String) : InfoError E → String
  | .ChannelNotFound => "channel_not_found: Value passed for channel was invalid."
  | .NotAuthed => "not_authed: No authentication token provided."
  | .InvalidAuth => "invalid_auth: Invalid authentication token."
  | .AccountInactive => "account_inactive: Authentication token is for a deleted user or team."
  | .InvalidArgName => "invalid_arg_name: The method was passed an argument whose name falls outside the bounds of common decency. This includes very long names and names with non-alphanumeric characters other than _. If you get this error, it is typically an indication that you have made a very malformed API call."
  | .InvalidArrayArg => "invalid_array_arg: The method was passed a PHP-style array argument (e.g. with a name like foo[7]). These are never valid with the Slack API."
  | .InvalidCharset => "invalid_charset: The method was called via a POST request, but the charset specified in the Content-Type header was invalid. Valid charset names are: utf-8 iso-8859-1."
  | .InvalidFormData => "invalid_form_data: The method was called via a POST request with Content-Type application/x-www-form-urlencoded or multipart/form-data, but the form data was either missing or syntactically invalid."
  | .InvalidPostType => "invalid_post_type: The method was called via a POST request, but the specified Content-Type was invalid. Valid types are: application/x-www-form-urlencoded multipart/form-data text/plain."
  | .MissingPostType => "missing_post_type: The method was called via a POST request and included a data payload, but the request did not include a Content-Type header."
  | .TeamAddedToOrg => "team_added_to_org: The team associated with your request is currently undergoing migration to an Enterprise Organization. Web API and other platform operations will be intermittently unavailable until the transition is complete."
  | .RequestTimeout => "request_timeout: The method was called via a POST request, but the POST data was either missing or truncated."
  | .MalformedResponse e => e
  | .Unknown s => s
  | .Client e => descE e

/-- The `fmt::Display` impl for `InfoError<E>` writes `self.description()`. -/
def InfoError.displayString {E : Type} (descE : E → String) (e : InfoError E) : String :=
  InfoError.description descE e

/-- The wire codes appearing in the `From<&str>` match of `InfoError`. -/
def infoKnownCodes : List String :=
  ["channel_not_found", "not_authed", "invalid_auth", "account_inactive", "invalid_arg_name", "invalid_array_arg", "invalid_charset", "invalid_form_data", "invalid_post_type", "missing_post_type", "team_added_to_org", "request_timeout"]

/-- Each domain-error match arm of `InfoError` together with its wire code and
the text that follows the code in its `description` string. -/
def infoDescTable : List (InfoError Unit × String × String) :=
  [(InfoError.ChannelNotFound, "channel_not_found", "Value passed for channel was invalid."),
  (InfoError.NotAuthed, "not_authed", "No authentication token provided."),
  (InfoError.InvalidAuth, "invalid_auth", "Invalid authentication token."),
  (InfoError.AccountInactive, "account_inactive", "Authentication token is for a deleted user or team."),
  (InfoError.InvalidArgName, "invalid_arg_name", "The method was passed an argument whose name falls outside the bounds of common decency. This includes very long names and names with non-alphanumeric characters other than _. If you get this error, it is typically an indication that you have made a very malformed API call."),
  (InfoError.InvalidArrayArg, "invalid_array_arg", "The method was passed a PHP-style array argument (e.g. with a name like foo[7]). These are never valid with the Slack API."),
  (InfoError.InvalidCharset, "invalid_charset", "The method was called via a POST request, but the charset specified in the Content-Type header was invalid. Valid charset names are: utf-8 iso-8859-1."),
  (InfoError.InvalidFormData, "invalid_form_data", "The method was called via a POST request with Content-Type application/x-www-form-urlencoded or multipart/form-data, but the form data was either missing or syntactically invalid."),
  (InfoError.InvalidPostType, "invalid_post_type", "The method was called via a POST request, but the specified Content-Type was invalid. Valid types are: application/x-www-form-urlencoded multipart/form-data text/plain."),
  (InfoError.MissingPostType, "missing_post_type", "The method was called via a POST request and included a data payload, but the request did not include a Content-Type header."),
  (InfoError.TeamAddedToOrg, "team_added_to_org", "The team associated with your request is currently undergoing migration to an Enterprise Organization. Web API and other platform operations will be intermittently unavailable until the transition is complete."),
  (InfoError.RequestTimeout, "request_timeout", "The method was called via a POST request, but the POST data was either missing or truncated.")]

/-- serde_json decoding of `InfoResponse`: every field optional except `ok`,
which `#[serde(default)]` makes default to `false` when absent. -/
def InfoResponse.fromJson (j : Json) : Except String InfoResponse :=
  match Json.expectObj j with
  | .error e => .error e
  | .ok fields =>
    match decodeOptRaw (jsonLookup fields "channel") with
    | .error e => .error e
    | .ok channel =>
      match decodeOptString (jsonLookup fields "error") with
      | .error e => .error e
      | .ok error =>
        match decodeBoolDefaultFalse (jsonLookup fields "ok") with
        | .error e => .error e
        | .ok ok =>
          .ok ⟨channel, error, ok⟩

/-- `serde_json::from_str::<InfoResponse>`. -/
def InfoResponse.decode (s : String) : Except String InfoResponse :=
  serdeFromStr InfoResponse.fromJson s

/-- The `Into<Result<InfoResponse, InfoError<E>>>` impl of channels.rs: `ok = true`
returns the full response, otherwise the error string (absent mapped to "")
is resolved through the code table. -/
def InfoResponse.intoResult {E : Type} (self : InfoResponse) :
    Except (InfoError E) InfoResponse :=
  if self.ok then .ok self
  else .error (InfoError.fromStr (self.error.getD ""))

/-- The parameter list built by `info` in channels.rs: a vector of optional
pairs run through `filter_map`. -/
def infoParams (token : String) (request : InfoRequest) : List (String × String) :=
  ([some ("token", token),
    some ("channel", request.channel)] : List (Option (String × String))).filterMap id

/-- The body of `pub fn info` in channels.rs, with the response decoder taken as
a parameter so that independence from the decoder is expressible. -/
def infoWith {E : Type} (decode : String → Except String InfoResponse)
    (client : MockTransport E) (token : String) (request : InfoRequest) :
    Except (InfoError E) InfoResponse × MockTransport E :=
  let params := infoParams token request
  let url := get_slack_url_for_method "channels.info"
  let sent := client.send url params
  (((sent.1.mapError InfoError.Client).bind fun result =>
      ((decode result).mapError InfoError.MalformedResponse).bind fun o =>
        InfoResponse.intoResult o), sent.2)

/-- `pub fn info` of channels.rs (channels.info): build params, send once, decode,
then map the `ok`/`error` fields. -/
def info {E : Type} (client : MockTransport E) (token : String)
    (request : InfoRequest) : Except (InfoError E) InfoResponse × MockTransport E :=
  infoWith InfoResponse.decode client token request

/-- The `InviteRequest` struct of channels.rs: configuration for `channels.invite`. -/
structure InviteRequest where
  channel : String
  user : String

/-- The `InviteResponse` struct of channels.rs (field order as declared). -/
structure InviteResponse where
  channel : Option Json
  error : Option String
  ok : Bool

/-- The `InviteError<E>` enum of channels.rs, one constructor per variant;
`MalformedResponse` carries the decode-failure message and `Client` the
transport's own error value. -/
inductive InviteError (E : Type) where
  | ChannelNotFound
  | UserNotFound
  | CantInviteSelf
  | NotInChannel
  | AlreadyInChannel
  | IsArchived
  | CantInvite
  | UraMaxChannels
  | NotAuthed
  | InvalidAuth
  | AccountInactive
  | UserIsBot
  | UserIsUltraRestricted
  | InvalidArgName
  | InvalidArrayArg
  | InvalidCharset
  | InvalidFormData
  | InvalidPostType
  | MissingPostType
  | TeamAddedToOrg
  | RequestTimeout
  | MalformedResponse (e : String)
  | Unknown (s : String)
  | Client (e : E)
deriving DecidableEq

/-- The `From<&str> for InviteError<E>` impl of channels.rs: sequential match on
the known wire codes, anything else falling through to `Unknown`. -/
def InviteError.fromStr {E : Type} (s : String) : InviteError E :=
  if s = "channel_not_found" then .ChannelNotFound
  else if s = "user_not_found" then .UserNotFound
  else if s = "cant_invite_self" then .CantInviteSelf
  else if s = "not_in_channel" then .NotInChannel
  else if s = "already_in_channel" then .AlreadyInChannel
  else if s = "is_archived" then .IsArchived
  else if s = "cant_invite" then .CantInvite
  else if s = "ura_max_channels" then .UraMaxChannels
  else if s = "not_authed" then .NotAuthed
  else if s = "invalid_auth" then .InvalidAuth
  else if s = "account_inactive" then .AccountInactive
  else if s = "user_is_bot" then .UserIsBot
  else if s = "user_is_ultra_restricted" then .UserIsUltraRestricted
  else if s = "invalid_arg_name" then .InvalidArgName
  else if s = "invalid_array_arg" then .InvalidArrayArg
  else if s = "invalid_charset" then .InvalidCharset
  else if s = "invalid_form_data" then .InvalidFormData
  else if s = "invalid_post_type" then .InvalidPostType
  else if s = "missing_post_type" then .MissingPostType
  else if s = "team_added_to_org" then .TeamAddedToOrg
  else if s = "request_timeout" then .RequestTimeout
  else .Unknown s

/-- The `Error::description` impl for `InviteError<E>` in channels.rs; `descE` stands
for the `description` method of the transport error type `E`. -/
def InviteError.description {E : Type} (descE : E → String) : InviteError E → String
  | .ChannelNotFound => "channel_not_found: Value passed for channel was invalid."
  | .UserNotFound => "user_not_found: Value passed for user was invalid."
  | .CantInviteSelf => "cant_invite_self: Authenticated user cannot invite themselves to a channel."
  | .NotInChannel => "not_in_channel: Authenticated user is not in the channel."
  | .AlreadyInChannel => "already_in_channel: Invited user is already in the channel."
  | .IsArchived => "is_archived: Channel has been archived."
  | .CantInvite => "cant_invite: User cannot be invited to this channel."
  | .UraMaxChannels => "ura_max_channels: URA is already in the maximum number of channels."
  | .NotAuthed => "not_authed: No authentication token provided."
  | .InvalidAuth => "invalid_auth: Invalid authentication token."
  | .AccountInactive => "account_inactive: Authentication token is for a deleted user or team."
  | .UserIsBot => "user_is_bot: This method cannot be called by a bot user."
  | .UserIsUltraRestricted => "user_is_ultra_restricted: This method cannot be called by a single channel guest."
  | .InvalidArgName => "invalid_arg_name: The method was passed an argument whose name falls outside the bounds of common decency. This includes very long names and names with non-alphanumeric characters other than _. If you get this error, it is typically an indication that you have made a very malformed API call."
  | .InvalidArrayArg => "invalid_array_arg: The method was passed a PHP-style array argument (e.g. with a name like foo[7]). These are never valid with the Slack API."
  | .InvalidCharset => "invalid_charset: The method was called via a POST request, but the charset specified in the Content-Type header was invalid. Valid charset names are: utf-8 iso-8859-1."
  | .InvalidFormData => "invalid_form_data: The method was called via a POST request with Content-Type application/x-www-form-urlencoded or multipart/form-data, but the form data was either missing or syntactically invalid."
  | .InvalidPostType => "invalid_post_type: The method was called via a POST request, but the specified Content-Type was invalid. Valid types are: application/x-www-form-urlencoded multipart/form-data text/plain."
  | .MissingPostType => "missing_post_type: The method was called via a POST request and included a data payload, but the request did not include a Content-Type header."
  | .TeamAddedToOrg => "team_added_to_org: The team associated with your request is currently undergoing migration to an Enterprise Organization. Web API and other platform operations will be intermittently unavailable until the transition is complete."
  | .RequestTimeout => "request_timeout: The method was called via a POST request, but the POST data was either missing or truncated."
  | .MalformedResponse e => e
  | .Unknown s => s
  | .Client e => descE e

/-- The `fmt::Display` impl for `InviteError<E>` writes `self.description()`. -/
def InviteError.displayString {E : Type} (descE : E → String) (e : InviteError E) : String :=
  InviteError.description descE e

/-- The wire codes appearing in the `From<&str>` match of `InviteError`. -/
def inviteKnownCodes : List String :=
  ["channel_not_found", "user_not_found", "cant_invite_self", "not_in_channel", "already_in_channel", "is_archived", "cant_invite", "ura_max_channels", "not_authed", "invalid_auth", "account_inactive", "user_is_bot", "user_is_ultra_restricted", "invalid_arg_name", "invalid_array_arg", "invalid_charset", "invalid_form_data", "invalid_post_type", "missing_post_type", "team_added_to_org", "request_timeout"]

/-- Each domain-error match arm of `InviteError` together with its wire code and
the text that follows the code in its `description` string. -/
def inviteDescTable : List (InviteError Unit × String × String) :=
  [(InviteError.ChannelNotFound, "channel_not_found", "Value passed for channel was invalid."),
  (InviteError.UserNotFound, "user_not_found", "Value passed for user was invalid."),
  (InviteError.CantInviteSelf, "cant_invite_self", "Authenticated user cannot invite themselves to a channel."),
  (InviteError.NotInChannel, "not_in_channel", "Authenticated user is not in the channel."),
  (InviteError.AlreadyInChannel, "already_in_channel", "Invited user is already in the channel."),
  (InviteError.IsArchived, "is_archived", "Channel has been archived."),
  (InviteError.CantInvite, "cant_invite", "User cannot be invited to this channel."),
  (InviteError.UraMaxChannels, "ura_max_channels", "URA is already in the maximum number of channels."),
  (InviteError.NotAuthed, "not_authed", "No authentication token provided."),
  (InviteError.InvalidAuth, "invalid_auth", "Invalid authentication token."),
  (InviteError.AccountInactive, "account_inactive", "Authentication token is for a deleted user or team."),
  (InviteError.UserIsBot, "user_is_bot", "This method cannot be called by a bot user."),
  (InviteError.UserIsUltraRestricted, "user_is_ultra_restricted", "This method cannot be called by a single channel guest."),
  (InviteError.InvalidArgName, "invalid_arg_name", "The method was passed an argument whose name falls outside the bounds of common decency. This includes very long names and names with non-alphanumeric characters other than _. If you get this error, it is typically an indication that you have made a very malformed API call."),
  (InviteError.InvalidArrayArg, "invalid_array_arg", "The method was passed a PHP-style array argument (e.g. with a name like foo[7]). These are never valid with the Slack API."),
  (InviteError.InvalidCharset, "invalid_charset", "The method was called via a POST request, but the charset specified in the Content-Type header was invalid. Valid charset names are: utf-8 iso-8859-1."),
  (InviteError.InvalidFormData, "invalid_form_data", "The method was called via a POST request with Content-Type application/x-www-form-urlencoded or multipart/form-data, but the form data was either missing or syntactically invalid."),
  (InviteError.InvalidPostType, "invalid_post_type", "The method was called via a POST request, but the specified Content-Type was invalid. Valid types are: application/x-www-form-urlencoded multipart/form-data text/plain."),
  (InviteError.MissingPostType, "missing_post_type", "The method was called via a POST request and included a data payload, but the request did not include a Content-Type header."),
  (InviteError.TeamAddedToOrg, "team_added_to_org", "The team associated with your request is currently undergoing migration to an Enterprise Organization. Web API and other platform operations will be intermittently unavailable until the transition is complete."),
  (InviteError.RequestTimeout, "request_timeout", "The method was called via a POST request, but the POST data was either missing or truncated.")]

/-- serde_json decoding of `InviteResponse`: every field optional except `ok`,
which `#[serde(default)]` makes default to `false` when absent. -/
def InviteResponse.fromJson (j : Json) : Except String InviteResponse :=
  match Json.expectObj j with
  | .error e => .error e
  | .ok fields =>
    match decodeOptRaw (jsonLookup fields "channel") with
    | .error e => .error e
    | .ok channel =>
      match decodeOptString (jsonLookup fields "error") with
      | .error e => .error e
      | .ok error =>
        match decodeBoolDefaultFalse (jsonLookup fields "ok") with
        | .error e => .error e
        | .ok ok =>
          .ok ⟨channel, error, ok⟩

/-- `serde_json::from_str::<InviteResponse>`. -/
def InviteResponse.decode (s : String) : Except String InviteResponse :=
  serdeFromStr InviteResponse.fromJson s

/-- The `Into<Result<InviteResponse, InviteError<E>>>` impl of channels.rs: `ok = true`
returns the full response, otherwise the error string (absent mapped to "")
is resolved through the code table. -/
def InviteResponse.intoResult {E : Type} (self : InviteResponse) :
    Except (InviteError E) InviteResponse :=
  if self.ok then .ok self
  else .error (InviteError.fromStr (self.error.getD ""))

/-- The parameter list built by `invite` in channels.rs: a vector of optional
pairs run through `filter_map`. -/
def inviteParams (token : String) (request : InviteRequest) : List (String × String) :=
  ([some ("token", token),
    some ("channel", request.channel),
    some ("user", request.user)] : List (Option (String × String))).filterMap id

/-- The body of `pub fn invite` in channels.rs, with the response decoder taken as
a parameter so that independence from the decoder is expressible. -/
def inviteWith {E : Type} (decode : String → Except String InviteResponse)
    (client : MockTransport E) (token : String) (request : InviteRequest) :
    Except (InviteError E) InviteResponse × MockTransport E :=
  let params := inviteParams token request
  let url := get_slack_url_for_method "channels.invite"
  let sent := client.send url params
  (((sent.1.mapError InviteError.Client).bind fun result =>
      ((decode result).mapError InviteError.MalformedResponse).bind fun o =>
        InviteResponse.intoResult o), sent.2)

/-- `pub fn invite` of channels.rs (channels.invite): build params, send once, decode,
then map the `ok`/`error` fields. -/
def invite {E : Type} (client : MockTransport E) (token : String)
    (request : InviteRequest) : Except (InviteError E) InviteResponse × MockTransport E :=
  inviteWith InviteResponse.decode client token request

/-- The `JoinRequest` struct of channels.rs: configuration for `channels.join`. -/
structure JoinRequest where
  name : String
  validate : Option Bool

/-- The `JoinResponse` struct of channels.rs (field order as declared). -/
structure JoinResponse where
  channel : Option Json
  error : Option String
  ok : Bool

/-- The `JoinError<E>` enum of channels.rs, one constructor per variant;
`MalformedResponse` carries the decode-failure message and `Client` the
transport's own error value. -/
inductive JoinError (E : Type) where
  | ChannelNotFound
  | NameTaken
  | RestrictedAction
  | NoChannel
  | IsArchived
  | InvalidNameRequired
  | InvalidNamePunctuation
  | InvalidNameMaxlength
  | InvalidNameSpecials
  | InvalidName
  | NotAuthed
  | InvalidAuth
  | AccountInactive
  | UserIsBot
  | UserIsRestricted
  | InvalidArgName
  | InvalidArrayArg
  | InvalidCharset
  | InvalidFormData
  | InvalidPostType
  | MissingPostType
  | TeamAddedToOrg
  | RequestTimeout
  | MalformedResponse (e : String)
  | Unknown (s : String)
  | Client (e : E)
deriving DecidableEq

/-- The `From<&str> for JoinError<E>` impl of channels.rs: sequential match on
the known wire codes, anything else falling through to `Unknown`. -/
def JoinError.fromStr {E : Type} (s : String) : JoinError E :=
  if s = "channel_not_found" then .ChannelNotFound
  else if s = "name_taken" then .NameTaken
  else if s = "restricted_action" then .RestrictedAction
  else if s = "no_channel" then .NoChannel
  else if s = "is_archived" then .IsArchived
  else if s = "invalid_name_required" then .InvalidNameRequired
  else if s = "invalid_name_punctuation" then .InvalidNamePunctuation
  else if s = "invalid_name_maxlength" then .InvalidNameMaxlength
  else if s = "invalid_name_specials" then .InvalidNameSpecials
  else if s = "invalid_name" then .InvalidName
  else if s = "not_authed" then .NotAuthed
  else if s = "invalid_auth" then .InvalidAuth
  else if s = "account_inactive" then .AccountInactive
  else if s = "user_is_bot" then .UserIsBot
  else if s = "user_is_restricted" then .UserIsRestricted
  else if s = "invalid_arg_name" then .InvalidArgName
  else if s = "invalid_array_arg" then .InvalidArrayArg
  else if s = "invalid_charset" then .InvalidCharset
  else if s = "invalid_form_data" then .InvalidFormData
  else if s = "invalid_post_type" then .InvalidPostType
  else if s = "missing_post_type" then .MissingPostType
  else if s = "team_added_to_org" then .TeamAddedToOrg
  else if s = "request_timeout" then .RequestTimeout
  else .Unknown s

/-- The `Error::description` impl for `JoinError<E>` in channels.rs; `descE` stands
for the `description` method of the transport error type `E`. -/
def JoinError.description {E : Type} (descE : E → String) : JoinError E → String
  | .ChannelNotFound => "channel_not_found: Value passed for channel was invalid."
  | .NameTaken => "name_taken: A channel cannot be created with the given name."
  | .RestrictedAction => "restricted_action: A team preference prevents the authenticated user from creating channels."
  | .NoChannel => "no_channel: Value passed for name was empty."
  | .IsArchived => "is_archived: Channel has been archived."
  | .InvalidNameRequired => "invalid_name_required: Value passed for name was empty."
  | .InvalidNamePunctuation => "invalid_name_punctuation: Value passed for name contained only punctuation."
  | .InvalidNameMaxlength => "invalid_name_maxlength: Value passed for name exceeded max length."
  | .InvalidNameSpecials => "invalid_name_specials: Value passed for name contained unallowed special characters or upper case characters."
  | .InvalidName => "invalid_name: Value passed for name was invalid."
  | .NotAuthed => "not_authed: No authentication token provided."
  | .InvalidAuth => "invalid_auth: Invalid authentication token."
  | .AccountInactive => "account_inactive: Authentication token is for a deleted user or team."
  | .UserIsBot => "user_is_bot: This method cannot be called by a bot user."
  | .UserIsRestricted => "user_is_restricted: This method cannot be called by a restricted user or single channel guest."
  | .InvalidArgName => "invalid_arg_name: The method was passed an argument whose name falls outside the bounds of common decency. This includes very long names and names with non-alphanumeric characters other than _. If you get this error, it is typically an indication that you have made a very malformed API call."
  | .InvalidArrayArg => "invalid_array_arg: The method was passed a PHP-style array argument (e.g. with a name like foo[7]). These are never valid with the Slack API."
  | .InvalidCharset => "invalid_charset: The method was called via a POST request, but the charset specified in the Content-Type header was invalid. Valid charset names are: utf-8 iso-8859-1."
  | .InvalidFormData => "invalid_form_data: The method was called via a POST request with Content-Type application/x-www-form-urlencoded or multipart/form-data, but the form data was either missing or syntactically invalid."
  | .InvalidPostType => "invalid_post_type: The method was called via a POST request, but the specified Content-Type was invalid. Valid types are: application/x-www-form-urlencoded multipart/form-data text/plain."
  | .MissingPostType => "missing_post_type: The method was called via a POST request and included a data payload, but the request did not include a Content-Type header."
  | .TeamAddedToOrg => "team_added_to_org: The team associated with your request is currently undergoing migration to an Enterprise Organization. Web API and other platform operations will be intermittently unavailable until the transition is complete."
  | .RequestTimeout => "request_timeout: The method was called via a POST request, but the POST data was either missing or truncated."
  | .MalformedResponse e => e
  | .Unknown s => s
  | .Client e => descE e

/-- The `fmt::Display` impl for `JoinError<E>` writes `self.description()`. -/
def JoinError.displayString {E : Type} (descE : E → String) (e : JoinError E) : String :=
  JoinError.description descE e

/-- The wire codes appearing in the `From<&str>` match of `JoinError`. -/
def joinKnownCodes : List String :=
  ["channel_not_found", "name_taken", "restricted_action", "no_channel", "is_archived", "invalid_name_required", "invalid_name_punctuation", "invalid_name_maxlength", "invalid_name_specials", "invalid_name", "not_authed", "invalid_auth", "account_inactive", "user_is_bot", "user_is_restricted", "invalid_arg_name", "invalid_array_arg", "invalid_charset", "invalid_form_data", "invalid_post_type", "missing_post_type", "team_added_to_org", "request_timeout"]

/-- Each domain-error match arm of `JoinError` together with its wire code and
the text that follows the code in its `description` string. -/
def joinDescTable : List (JoinError Unit × String × String) :=
  [(JoinError.ChannelNotFound, "channel_not_found", "Value passed for channel was invalid."),
  (JoinError.NameTaken, "name_taken", "A channel cannot be created with the given name."),
  (JoinError.RestrictedAction, "restricted_action", "A team preference prevents the authenticated user from creating channels."),
  (JoinError.NoChannel, "no_channel", "Value passed for name was empty."),
  (JoinError.IsArchived, "is_archived", "Channel has been archived."),
  (JoinError.InvalidNameRequired, "invalid_name_required", "Value passed for name was empty."),
  (JoinError.InvalidNamePunctuation, "invalid_name_punctuation", "Value passed for name contained only punctuation."),
  (JoinError.InvalidNameMaxlength, "invalid_name_maxlength", "Value passed for name exceeded max length."),
  (JoinError.InvalidNameSpecials, "invalid_name_specials", "Value passed for name contained unallowed special characters or upper case characters."),
  (JoinError.InvalidName, "invalid_name", "Value passed for name was invalid."),
  (JoinError.NotAuthed, "not_authed", "No authentication token provided."),
  (JoinError.InvalidAuth, "invalid_auth", "Invalid authentication token."),
  (JoinError.AccountInactive, "account_inactive", "Authentication token is for a deleted user or team."),
  (JoinError.UserIsBot, "user_is_bot", "This method cannot be called by a bot user."),
  (JoinError.UserIsRestricted, "user_is_restricted", "This method cannot be called by a restricted user or single channel guest."),
  (JoinError.InvalidArgName, "invalid_arg_name", "The method was passed an argument whose name falls outside the bounds of common decency. This includes very long names and names with non-alphanumeric characters other than _. If you get this error, it is typically an indication that you have made a very malformed API call."),
  (JoinError.InvalidArrayArg, "invalid_array_arg", "The method was passed a PHP-style array argument (e.g. with a name like foo[7]). These are never valid with the Slack API."),
  (JoinError.InvalidCharset, "invalid_charset", "The method was called via a POST request, but the charset specified in the Content-Type header was invalid. Valid charset names are: utf-8 iso-8859-1."),
  (JoinError.InvalidFormData, "invalid_form_data", "The method was called via a POST request with Content-Type application/x-www-form-urlencoded or multipart/form-data, but the form data was either missing or syntactically invalid."),
  (JoinError.InvalidPostType, "invalid_post_type", "The method was called via a POST request, but the specified Content-Type was invalid. Valid types are: application/x-www-form-urlencoded multipart/form-data text/plain."),
  (JoinError.MissingPostType, "missing_post_type", "The method was called via a POST request and included a data payload, but the request did not include a Content-Type header."),
  (JoinError.TeamAddedToOrg, "team_added_to_org", "The team associated with your request is currently undergoing migration to an Enterprise Organization. Web API and other platform operations will be intermittently unavailable until the transition is complete."),
  (JoinError.RequestTimeout, "request_timeout", "The method was called via a POST request, but the POST data was either missing or truncated.")]

/-- serde_json decoding of `JoinResponse`: every field optional except `ok`,
which `#[serde(default)]` makes default to `false` when absent. -/
def JoinResponse.fromJson (j : Json) : Except String JoinResponse :=
  match Json.expectObj j with
  | .error e => .error e
  | .ok fields =>
    match decodeOptRaw (jsonLookup fields "channel") with
    | .error e => .error e
    | .ok channel =>
      match decodeOptString (jsonLookup fields "error") with
      | .error e => .error e
      | .ok error =>
        match decodeBoolDefaultFalse (jsonLookup fields "ok") with
        | .error e => .error e
        | .ok ok =>
          .ok ⟨channel, error, ok⟩

/-- `serde_json::from_str::<JoinResponse>`. -/
def JoinResponse.decode (s : String) : Except String JoinResponse :=
  serdeFromStr JoinResponse.fromJson s

/-- The `Into<Result<JoinResponse, JoinError<E>>>` impl of channels.rs: `ok = true`
returns the full response, otherwise the error string (absent mapped to "")
is resolved through the code table. -/
def JoinResponse.intoResult {E : Type} (self : JoinResponse) :
    Except (JoinError E) JoinResponse :=
  if self.ok then .ok self
  else .error (JoinError.fromStr (self.error.getD ""))

/-- The parameter list built by `join` in channels.rs: a vector of optional
pairs run through `filter_map`. -/
def joinParams (token : String) (request : JoinRequest) : List (String × String) :=
  ([some ("token", token),
    some ("name", request.name),
    request.validate.map (fun validate => ("validate", if validate then "1" else "0"))] : List (Option (String × String))).filterMap id

/-- The body of `pub fn join` in channels.rs, with the response decoder taken as
a parameter so that independence from the decoder is expressible. -/
def joinWith {E : Type} (decode : String → Except String JoinResponse)
    (client : MockTransport E) (token : String) (request : JoinRequest) :
    Except (JoinError E) JoinResponse × MockTransport E :=
  let params := joinParams token request
  let url := get_slack_url_for_method "channels.join"
  let sent := client.send url params
  (((sent.1.mapError JoinError.Client).bind fun result =>
      ((decode result).mapError JoinError.MalformedResponse).bind fun o =>
        JoinResponse.intoResult o), sent.2)

/-- `pub fn join` of channels.rs (channels.join): build params, send once, decode,
then map the `ok`/`error` fields. -/
def join {E : Type} (client : MockTransport E) (token : String)
    (request : JoinRequest) : Except (JoinError E) JoinResponse × MockTransport E :=
  joinWith JoinResponse.decode client token request

/-- The `KickRequest` struct of channels.rs: configuration for `channels.kick`. -/
structure KickRequest where
  channel : String
  user : String

/-- The `KickResponse` struct of channels.rs (field order as declared). -/
structure KickResponse where
  error : Option String
  ok : Bool

/-- The `KickError<E>` enum of channels.rs, one constructor per variant;
`MalformedResponse` carries the decode-failure message and `Client` the
transport's own error value. -/
inductive KickError (E : Type) where
  | ChannelNotFound
  | UserNotFound
  | CantKickSelf
  | NotInChannel
  | CantKickFromGeneral
  | RestrictedAction
  | NotAuthed
  | InvalidAuth
  | AccountInactive
  | UserIsBot
  | UserIsRestricted
  | InvalidArgName
  | InvalidArrayArg
  | InvalidCharset
  | InvalidFormData
  | InvalidPostType
  | MissingPostType
  | TeamAddedToOrg
  | RequestTimeout
  | MalformedResponse (e : String)
  | Unknown (s : String)
  | Client (e : E)
deriving DecidableEq

/-- The `From<&str> for KickError<E>` impl of channels.rs: sequential match on
the known wire codes, anything else falling through to `Unknown`. -/
def KickError.fromStr {E : Type} (s : String) : KickError E :=
  if s = "channel_not_found" then .ChannelNotFound
  else if s = "user_not_found" then .UserNotFound
  else if s = "cant_kick_self" then .CantKickSelf
  else if s = "not_in_channel" then .NotInChannel
  else if s = "cant_kick_from_general" then .CantKickFromGeneral
  else if s = "restricted_action" then .RestrictedAction
  else if s = "not_authed" then .NotAuthed
  else if s = "invalid_auth" then .InvalidAuth
  else if s = "account_inactive" then .AccountInactive
  else if s = "user_is_bot" then .UserIsBot
  else if s = "user_is_restricted" then .UserIsRestricted
  else if s = "invalid_arg_name" then .InvalidArgName
  else if s = "invalid_array_arg" then .InvalidArrayArg
  else if s = "invalid_charset" then .InvalidCharset
  else if s = "invalid_form_data" then .InvalidFormData
  else if s = "invalid_post_type" then .InvalidPostType
  else if s = "missing_post_type" then .MissingPostType
  else if s = "team_added_to_org" then .TeamAddedToOrg
  else if s = "request_timeout" then .RequestTimeout
  else .Unknown s

/-- The `Error::description` impl for `KickError<E>` in channels.rs; `descE` stands
for the `description` method of the transport error type `E`. -/
def KickError.description {E : Type} (descE : E → String) : KickError E → String
  | .ChannelNotFound => "channel_not_found: Value passed for channel was invalid."
  | .UserNotFound => "user_not_found: Value passed for user was invalid."
  | .CantKickSelf => "cant_kick_self: Authenticated user can\x27t kick themselves from a channel."
  | .NotInChannel => "not_in_channel: User was not in the channel."
  | .CantKickFromGeneral => "cant_kick_from_general: User cannot be removed from #general."
  | .RestrictedAction => "restricted_action: A team preference prevents the authenticated user from kicking."
  | .NotAuthed => "not_authed: No authentication token provided."
  | .InvalidAuth => "invalid_auth: Invalid authentication token."
  | .AccountInactive => "account_inactive: Authentication token is for a deleted user or team."
  | .UserIsBot => "user_is_bot: This method cannot be called by a bot user."
  | .UserIsRestricted => "user_is_restricted: This method cannot be called by a restricted user or single channel guest."
  | .InvalidArgName => "invalid_arg_name: The method was passed an argument whose name falls outside the bounds of common decency. This includes very long names and names with non-alphanumeric characters other than _. If you get this error, it is typically an indication that you have made a very malformed API call."
  | .InvalidArrayArg => "invalid_array_arg: The method was passed a PHP-style array argument (e.g. with a name like foo[7]). These are never valid with the Slack API."
  | .InvalidCharset => "invalid_charset: The method was called via a POST request, but the charset specified in the Content-Type header was invalid. Valid charset names are: utf-8 iso-8859-1."
  | .InvalidFormData => "invalid_form_data: The method was called via a POST request with Content-Type application/x-www-form-urlencoded or multipart/form-data, but the form data was either missing or syntactically invalid."
  | .InvalidPostType => "invalid_post_type: The method was called via a POST request, but the specified Content-Type was invalid. Valid types are: application/x-www-form-urlencoded multipart/form-data text/plain."
  | .MissingPostType => "missing_post_type: The method was called via a POST request and included a data payload, but the request did not include a Content-Type header."
  | .TeamAddedToOrg => "team_added_to_org: The team associated with your request is currently undergoing migration to an Enterprise Organization. Web API and other platform operations will be intermittently unavailable until the transition is complete."
  | .RequestTimeout => "request_timeout: The method was called via a POST request, but the POST data was either missing or truncated."
  | .MalformedResponse e => e
  | .Unknown s => s
  | .Client e => descE e

/-- The `fmt::Display` impl for `KickError<E>` writes `self.description()`. -/
def KickError.displayString {E : Type} (descE : E → String) (e : KickError E) : String :=
  KickError.description descE e

/-- The wire codes appearing in the `From<&str>` match of `KickError`. -/
def kickKnownCodes : List String :=
  ["channel_not_found", "user_not_found", "cant_kick_self", "not_in_channel", "cant_kick_from_general", "restricted_action", "not_authed", "invalid_auth", "account_inactive", "user_is_bot", "user_is_restricted", "invalid_arg_name", "invalid_array_arg", "invalid_charset", "invalid_form_data", "invalid_post_type", "missing_post_type", "team_added_to_org", "request_timeout"]

/-- Each domain-error match arm of `KickError` together with its wire code and
the text that follows the code in its `description` string. -/
def kickDescTable : List (KickError Unit × String × String) :=
  [(KickError.ChannelNotFound, "channel_not_found", "Value passed for channel was invalid."),
  (KickError.UserNotFound, "user_not_found", "Value passed for user was invalid."),
  (KickError.CantKickSelf, "cant_kick_self", "Authenticated user can\x27t kick themselves from a channel."),
  (KickError.NotInChannel, "not_in_channel", "User was not in the channel."),
  (KickError.CantKickFromGeneral, "cant_kick_from_general", "User cannot be removed from #general."),
  (KickError.RestrictedAction, "restricted_action", "A team preference prevents the authenticated user from kicking."),
  (KickError.NotAuthed, "not_authed", "No authentication token provided."),
  (KickError.InvalidAuth, "invalid_auth", "Invalid authentication token."),
  (KickError.AccountInactive, "account_inactive", "Authentication token is for a deleted user or team."),
  (KickError.UserIsBot, "user_is_bot", "This method cannot be called by a bot user."),
  (KickError.UserIsRestricted, "user_is_restricted", "This method cannot be called by a restricted user or single channel guest."),
  (KickError.InvalidArgName, "invalid_arg_name", "The method was passed an argument whose name falls outside the bounds of common decency. This includes very long names and names with non-alphanumeric characters other than _. If you get this error, it is typically an indication that you have made a very malformed API call."),
  (KickError.InvalidArrayArg, "invalid_array_arg", "The method was passed a PHP-style array argument (e.g. with a name like foo[7]). These are never valid with the Slack API."),
  (KickError.InvalidCharset, "invalid_charset", "The method was called via a POST request, but the charset specified in the Content-Type header was invalid. Valid charset names are: utf-8 iso-8859-1."),
  (KickError.InvalidFormData, "invalid_form_data", "The method was called via a POST request with Content-Type application/x-www-form-urlencoded or multipart/form-data, but the form data was either missing or syntactically invalid."),
  (KickError.InvalidPostType, "invalid_post_type", "The method was called via a POST request, but the specified Content-Type was invalid. Valid types are: application/x-www-form-urlencoded multipart/form-data text/plain."),
  (KickError.MissingPostType, "missing_post_type", "The method was called via a POST request and included a data payload, but the request did not include a Content-Type header."),
  (KickError.TeamAddedToOrg, "team_added_to_org", "The team associated with your request is currently undergoing migration to an Enterprise Organization. Web API and other platform operations will be intermittently unavailable until the transition is complete."),
  (KickError.RequestTimeout, "request_timeout", "The method was called via a POST request, but the POST data was either missing or truncated.")]

/-- serde_json decoding of `KickResponse`: every field optional except `ok`,
which `#[serde(default)]` makes default to `false` when absent. -/
def KickResponse.fromJson (j : Json) : Except String KickResponse :=
  match Json.expectObj j with
  | .error e => .error e
  | .ok fields =>
    match decodeOptString (jsonLookup fields "error") with
    | .error e => .error e
    | .ok error =>
      match decodeBoolDefaultFalse (jsonLookup fields "ok") with
      | .error e => .error e
      | .ok ok =>
        .ok ⟨error, ok⟩

/-- `serde_json::from_str::<KickResponse>`. -/
def KickResponse.decode (s : String) : Except String KickResponse :=
  serdeFromStr KickResponse.fromJson s

/-- The `Into<Result<KickResponse, KickError<E>>>` impl of channels.rs: `ok = true`
returns the full response, otherwise the error string (absent mapped to "")
is resolved through the code table. -/
def KickResponse.intoResult {E : Type} (self : KickResponse) :
    Except (KickError E) KickResponse :=
  if self.ok then .ok self
  else .error (KickError.fromStr (self.error.getD ""))

/-- The parameter list built by `kick` in channels.rs: a vector of optional
pairs run through `filter_map`. -/
def kickParams (token : String) (request : KickRequest) : List (String × String) :=
  ([some ("token", token),
    some ("channel", request.channel),
    some ("user", request.user)] : List (Option (String × String))).filterMap id

/-- The body of `pub fn kick` in channels.rs, with the response decoder taken as
a parameter so that independence from the decoder is expressible. -/
def kickWith {E : Type} (decode : String → Except String KickResponse)
    (client : MockTransport E) (token : String) (request : KickRequest) :
    Except (KickError E) KickResponse × MockTransport E :=
  let params := kickParams token request
  let url := get_slack_url_for_method "channels.kick"
  let sent := client.send url params
  (((sent.1.mapError KickError.Client).bind fun result =>
      ((decode result).mapError KickError.MalformedResponse).bind fun o =>
        KickResponse.intoResult o), sent.2)

/-- `pub fn kick` of channels.rs (channels.kick): build params, send once, decode,
then map the `ok`/`error` fields. -/
def kick {E : Type} (client : MockTransport E) (token : String)
    (request : KickRequest) : Except (KickError E) KickResponse × MockTransport E :=
  kickWith KickResponse.decode client token request

/-- The `LeaveRequest` struct of channels.rs: configuration for `channels.leave`. -/
structure LeaveRequest where
  channel : String

/-- The `LeaveResponse` struct of channels.rs (field order as declared). -/
structure LeaveResponse where
  error : Option String
  ok : Bool

/-- The `LeaveError<E>` enum of channels.rs, one constructor per variant;
`MalformedResponse` carries the decode-failure message and `Client` the
transport's own error value. -/
inductive LeaveError (E : Type) where
  | ChannelNotFound
  | IsArchived
  | CantLeaveGeneral
  | NotAuthed
  | InvalidAuth
  | AccountInactive
  | UserIsBot
  | UserIsRestricted
  | InvalidArgName
  | InvalidArrayArg
  | InvalidCharset
  | InvalidFormData
  | InvalidPostType
  | MissingPostType
  | TeamAddedToOrg
  | RequestTimeout
  | MalformedResponse (e : String)
  | Unknown (s : String)
  | Client (e : E)
deriving DecidableEq

/-- The `From<&str> for LeaveError<E>` impl of channels.rs: sequential match on
the known wire codes, anything else falling through to `Unknown`. -/
def LeaveError.fromStr {E : Type} (s : String) : LeaveError E :=
  if s = "channel_not_found" then .ChannelNotFound
  else if s = "is_archived" then .IsArchived
  else if s = "cant_leave_general" then .CantLeaveGeneral
  else if s = "not_authed" then .NotAuthed
  else if s = "invalid_auth" then .InvalidAuth
  else if s = "account_inactive" then .AccountInactive
  else if s = "user_is_bot" then .UserIsBot
  else if s = "user_is_restricted" then .UserIsRestricted
  else if s = "invalid_arg_name" then .InvalidArgName
  else if s = "invalid_array_arg" then .InvalidArrayArg
  else if s = "invalid_charset" then .InvalidCharset
  else if s = "invalid_form_data" then .InvalidFormData
  else if s = "invalid_post_type" then .InvalidPostType
  else if s = "missing_post_type" then .MissingPostType
  else if s = "team_added_to_org" then .TeamAddedToOrg
  else if s = "request_timeout" then .RequestTimeout
  else .Unknown s

/-- The `Error::description` impl for `LeaveError<E>` in channels.rs; `descE` stands
for the `description` method of the transport error type `E`. -/
def LeaveError.description {E : Type} (descE : E → String) : LeaveError E → String
  | .ChannelNotFound => "channel_not_found: Value passed for channel was invalid."
  | .IsArchived => "is_archived: Channel has been archived."
  | .CantLeaveGeneral => "cant_leave_general: Authenticated user cannot leave the general channel"
  | .NotAuthed => "not_authed: No authentication token provided."
  | .InvalidAuth => "invalid_auth: Invalid authentication token."
  | .AccountInactive => "account_inactive: Authentication token is for a deleted user or team."
  | .UserIsBot => "user_is_bot: This method cannot be called by a bot user."
  | .UserIsRestricted => "user_is_restricted: This method cannot be called by a restricted user or single channel guest."
  | .InvalidArgName => "invalid_arg_name: The method was passed an argument whose name falls outside the bounds of common decency. This includes very long names and names with non-alphanumeric characters other than _. If you get this error, it is typically an indication that you have made a very malformed API call."
  | .InvalidArrayArg => "invalid_array_arg: The method was passed a PHP-style array argument (e.g. with a name like foo[7]). These are never valid with the Slack API."
  | .InvalidCharset => "invalid_charset: The method was called via a POST request, but the charset specified in the Content-Type header was invalid. Valid charset names are: utf-8 iso-8859-1."
  | .InvalidFormData => "invalid_form_data: The method was called via a POST request with Content-Type application/x-www-form-urlencoded or multipart/form-data, but the form data was either missing or syntactically invalid."
  | .InvalidPostType => "invalid_post_type: The method was called via a POST request, but the specified Content-Type was invalid. Valid types are: application/x-www-form-urlencoded multipart/form-data text/plain."
  | .MissingPostType => "missing_post_type: The method was called via a POST request and included a data payload, but the request did not include a Content-Type header."
  | .TeamAddedToOrg => "team_added_to_org: The team associated with your request is currently undergoing migration to an Enterprise Organization. Web API and other platform operations will be intermittently unavailable until the transition is complete."
  | .RequestTimeout => "request_timeout: The method was called via a POST request, but the POST data was either missing or truncated."
  | .MalformedResponse e => e
  | .Unknown s => s
  | .Client e => descE e

/-- The `fmt::Display` impl for `LeaveError<E>` writes `self.description()`. -/
def LeaveError.displayString {E : Type} (descE : E → String) (e : LeaveError E) : String :=
  LeaveError.description descE e

/-- The wire codes appearing in the `From<&str>` match of `LeaveError`. -/
def leaveKnownCodes : List String :=
  ["channel_not_found", "is_archived", "cant_leave_general", "not_authed", "invalid_auth", "account_inactive", "user_is_bot", "user_is_restricted", "invalid_arg_name", "invalid_array_arg", "invalid_charset", "invalid_form_data", "invalid_post_type", "missing_post_type", "team_added_to_org", "request_timeout"]

/-- Each domain-error match arm of `LeaveError` together with its wire code and
the text that follows the code in its `description` string. -/
def leaveDescTable : List (LeaveError Unit × String × String) :=
  [(LeaveError.ChannelNotFound, "channel_not_found", "Value passed for channel was invalid."),
  (LeaveError.IsArchived, "is_archived", "Channel has been archived."),
  (LeaveError.CantLeaveGeneral, "cant_leave_general", "Authenticated user cannot leave the general channel"),
  (LeaveError.NotAuthed, "not_authed", "No authentication token provided."),
  (LeaveError.InvalidAuth, "invalid_auth", "Invalid authentication token."),
  (LeaveError.AccountInactive, "account_inactive", "Authentication token is for a deleted user or team."),
  (LeaveError.UserIsBot, "user_is_bot", "This method cannot be called by a bot user."),
  (LeaveError.UserIsRestricted, "user_is_restricted", "This method cannot be called by a restricted user or single channel guest."),
  (LeaveError.InvalidArgName, "invalid_arg_name", "The method was passed an argument whose name falls outside the bounds of common decency. This includes very long names and names with non-alphanumeric characters other than _. If you get this error, it is typically an indication that you have made a very malformed API call."),
  (LeaveError.InvalidArrayArg, "invalid_array_arg", "The method was passed a PHP-style array argument (e.g. with a name like foo[7]). These are never valid with the Slack API."),
  (LeaveError.InvalidCharset, "invalid_charset", "The method was called via a POST request, but the charset specified in the Content-Type header was invalid. Valid charset names are: utf-8 iso-8859-1."),
  (LeaveError.InvalidFormData, "invalid_form_data", "The method was called via a POST request with Content-Type application/x-www-form-urlencoded or multipart/form-data, but the form data was either missing or syntactically invalid."),
  (LeaveError.InvalidPostType, "invalid_post_type", "The method was called via a POST request, but the specified Content-Type was invalid. Valid types are: application/x-www-form-urlencoded multipart/form-data text/plain."),
  (LeaveError.MissingPostType, "missing_post_type", "The method was called via a POST request and included a data payload, but the request did not include a Content-Type header."),
  (LeaveError.TeamAddedToOrg, "team_added_to_org", "The team associated with your request is currently undergoing migration to an Enterprise Organization. Web API and other platform operations will be intermittently unavailable until the transition is complete."),
  (LeaveError.RequestTimeout, "request_timeout", "The method was called via a POST request, but the POST data was either missing or truncated.")]

/-- serde_json decoding of `LeaveResponse`: every field optional except `ok`,
which `#[serde(default)]` makes default to `false` when absent. -/
def LeaveResponse.fromJson (j : Json) : Except String LeaveResponse :=
  match Json.expectObj j with
  | .error e => .error e
  | .ok fields =>
    match decodeOptString (jsonLookup fields "error") with
    | .error e => .error e
    | .ok error =>
      match decodeBoolDefaultFalse (jsonLookup fields "ok") with
      | .error e => .error e
      | .ok ok =>
        .ok ⟨error, ok⟩

/-- `serde_json::from_str::<LeaveResponse>`. -/
def LeaveResponse.decode (s : String) : Except String LeaveResponse :=
  serdeFromStr LeaveResponse.fromJson s

/-- The `Into<Result<LeaveResponse, LeaveError<E>>>` impl of channels.rs: `ok = true`
returns the full response, otherwise the error string (absent mapped to "")
is resolved through the code table. -/
def LeaveResponse.intoResult {E : Type} (self : LeaveResponse) :
    Except (LeaveError E) LeaveResponse :=
  if self.ok then .ok self
  else .error (LeaveError.fromStr (self.error.getD ""))

/-- The parameter list built by `leave` in channels.rs: a vector of optional
pairs run through `filter_map`. -/
def leaveParams (token : String) (request : LeaveRequest) : List (String × String) :=
  ([some ("token", token),
    some ("channel", request.channel)] : List (Option (String × String))).filterMap id

/-- The body of `pub fn leave` in channels.rs, with the response decoder taken as
a parameter so that independence from the decoder is expressible. -/
def leaveWith {E : Type} (decode : String → Except String LeaveResponse)
    (client : MockTransport E) (token : String) (request : LeaveRequest) :
    Except (LeaveError E) LeaveResponse × MockTransport E :=
  let params := leaveParams token request
  let url := get_slack_url_for_method "channels.leave"
  let sent := client.send url params
  (((sent.1.mapError LeaveError.Client).bind fun result =>
      ((decode result).mapError LeaveError.MalformedResponse).bind fun o =>
        LeaveResponse.intoResult o), sent.2)

/-- `pub fn leave` of channels.rs (channels.leave): build params, send once, decode,
then map the `ok`/`error` fields. -/
def leave {E : Type} (client : MockTransport E) (token : String)
    (request : LeaveRequest) : Except (LeaveError E) LeaveResponse × MockTransport E :=
  leaveWith LeaveResponse.decode client token request

/-- The `ListRequest` struct of channels.rs: configuration for `channels.list`. -/
structure ListRequest where
  exclude_archived : Option Bool
  exclude_members : Option Bool

/-- The `ListResponse` struct of channels.rs (field order as declared). -/
structure ListResponse where
  channels : Option (List Json)
  error : Option String
  ok : Bool

/-- The `ListError<E>` enum of channels.rs, one constructor per variant;
`MalformedResponse` carries the decode-failure message and `Client` the
transport's own error value. -/
inductive ListError (E : Type) where
  | NotAuthed
  | InvalidAuth
  | AccountInactive
  | InvalidArgName
  | InvalidArrayArg
  | InvalidCharset
  | InvalidFormData
  | InvalidPostType
  | MissingPostType
  | TeamAddedToOrg
  | RequestTimeout
  | MalformedResponse (e : String)
  | Unknown (s : String)
  | Client (e : E)
deriving DecidableEq

/-- The `From<&str> for ListError<E>` impl of channels.rs: sequential match on
the known wire codes, anything else falling through to `Unknown`. -/
def ListError.fromStr {E : Type} (s : String) : ListError E :=
  if s = "not_authed" then .NotAuthed
  else if s = "invalid_auth" then .InvalidAuth
  else if s = "account_inactive" then .AccountInactive
  else if s = "invalid_arg_name" then .InvalidArgName
  else if s = "invalid_array_arg" then .InvalidArrayArg
  else if s = "invalid_charset" then .InvalidCharset
  else if s = "invalid_form_data" then .InvalidFormData
  else if s = "invalid_post_type" then .InvalidPostType
  else if s = "missing_post_type" then .MissingPostType
  else if s = "team_added_to_org" then .TeamAddedToOrg
  else if s = "request_timeout" then .RequestTimeout
  else .Unknown s

/-- The `Error::description` impl for `ListError<E>` in channels.rs; `descE` stands
for the `description` method of the transport error type `E`. -/
def ListError.description {E : Type} (descE : E → String) : ListError E → String
  | .NotAuthed => "not_authed: No authentication token provided."
  | .InvalidAuth => "invalid_auth: Invalid authentication token."
  | .AccountInactive => "account_inactive: Authentication token is for a deleted user or team."
  | .InvalidArgName => "invalid_arg_name: The method was passed an argument whose name falls outside the bounds of common decency. This includes very long names and names with non-alphanumeric characters other than _. If you get this error, it is typically an indication that you have made a very malformed API call."
  | .InvalidArrayArg => "invalid_array_arg: The method was passed a PHP-style array argument (e.g. with a name like foo[7]). These are never valid with the Slack API."
  | .InvalidCharset => "invalid_charset: The method was called via a POST request, but the charset specified in the Content-Type header was invalid. Valid charset names are: utf-8 iso-8859-1."
  | .InvalidFormData => "invalid_form_data: The method was called via a POST request with Content-Type application/x-www-form-urlencoded or multipart/form-data, but the form data was either missing or syntactically invalid."
  | .InvalidPostType => "invalid_post_type: The method was called via a POST request, but the specified Content-Type was invalid. Valid types are: application/x-www-form-urlencoded multipart/form-data text/plain."
  | .MissingPostType => "missing_post_type: The method was called via a POST request and included a data payload, but the request did not include a Content-Type header."
  | .TeamAddedToOrg => "team_added_to_org: The team associated with your request is currently undergoing migration to an Enterprise Organization. Web API and other platform operations will be intermittently unavailable until the transition is complete."
  | .RequestTimeout => "request_timeout: The method was called via a POST request, but the POST data was either missing or truncated."
  | .MalformedResponse e => e
  | .Unknown s => s
  | .Client e => descE e

/-- The `fmt::Display` impl for `ListError<E>` writes `self.description()`. -/
def ListError.displayString {E : Type} (descE : E → String) (e : ListError E) : String :=
  ListError.description descE e

/-- The wire codes appearing in the `From<&str>` match of `ListError`. -/
def listKnownCodes : List String :=
  ["not_authed", "invalid_auth", "account_inactive", "invalid_arg_name", "invalid_array_arg", "invalid_charset", "invalid_form_data", "invalid_post_type", "missing_post_type", "team_added_to_org", "request_timeout"]

/-- Each domain-error match arm of `ListError` together with its wire code and
the text that follows the code in its `description` string. -/
def listDescTable : List (ListError Unit × String × String) :=
  [(ListError.NotAuthed, "not_authed", "No authentication token provided."),
  (ListError.InvalidAuth, "invalid_auth", "Invalid authentication token."),
  (ListError.AccountInactive, "account_inactive", "Authentication token is for a deleted user or team."),
  (ListError.InvalidArgName, "invalid_arg_name", "The method was passed an argument whose name falls outside the bounds of common decency. This includes very long names and names with non-alphanumeric characters other than _. If you get this error, it is typically an indication that you have made a very malformed API call."),
  (ListError.InvalidArrayArg, "invalid_array_arg", "The method was passed a PHP-style array argument (e.g. with a name like foo[7]). These are never valid with the Slack API."),
  (ListError.InvalidCharset, "invalid_charset", "The method was called via a POST request, but the charset specified in the Content-Type header was invalid. Valid charset names are: utf-8 iso-8859-1."),
  (ListError.InvalidFormData, "invalid_form_data", "The method was called via a POST request with Content-Type application/x-www-form-urlencoded or multipart/form-data, but the form data was either missing or syntactically invalid."),
  (ListError.InvalidPostType, "invalid_post_type", "The method was called via a POST request, but the specified Content-Type was invalid. Valid types are: application/x-www-form-urlencoded multipart/form-data text/plain."),
  (ListError.MissingPostType, "missing_post_type", "The method was called via a POST request and included a data payload, but the request did not include a Content-Type header."),
  (ListError.TeamAddedToOrg, "team_added_to_org", "The team associated with your request is currently undergoing migration to an Enterprise Organization. Web API and other platform operations will be intermittently unavailable until the transition is complete."),
  (ListError.RequestTimeout, "request_timeout", "The method was called via a POST request, but the POST data was either missing or truncated.")]

/-- serde_json decoding of `ListResponse`: every field optional except `ok`,
which `#[serde(default)]` makes default to `false` when absent. -/
def ListResponse.fromJson (j : Json) : Except String ListResponse :=
  match Json.expectObj j with
  | .error e => .error e
  | .ok fields =>
    match decodeOptRawList (jsonLookup fields "channels") with
    | .error e => .error e
    | .ok channels =>
      match decodeOptString (jsonLookup fields "error") with
      | .error e => .error e
      | .ok error =>
        match decodeBoolDefaultFalse (jsonLookup fields "ok") with
        | .error e => .error e
        | .ok ok =>
          .ok ⟨channels, error, ok⟩

/-- `serde_json::from_str::<ListResponse>`. -/
def ListResponse.decode (s : String) : Except String ListResponse :=
  serdeFromStr ListResponse.fromJson s

/-- The `Into<Result<ListResponse, ListError<E>>>` impl of channels.rs: `ok = true`
returns the full response, otherwise the error string (absent mapped to "")
is resolved through the code table. -/
def ListResponse.intoResult {E : Type} (self : ListResponse) :
    Except (ListError E) ListResponse :=
  if self.ok then .ok self
  else .error (ListError.fromStr (self.error.getD ""))

/-- The parameter list built by `list` in channels.rs: a vector of optional
pairs run through `filter_map`. -/
def listParams (token : String) (request : ListRequest) : List (String × String) :=
  ([some ("token", token),
    request.exclude_archived.map (fun exclude_archived => ("exclude_archived", if exclude_archived then "1" else "0")),
    request.exclude_members.map (fun exclude_members => ("exclude_members", if exclude_members then "1" else "0"))] : List (Option (String × String))).filterMap id

/-- The body of `pub fn list` in channels.rs, with the response decoder taken as
a parameter so that independence from the decoder is expressible. -/
def listWith {E : Type} (decode : String → Except String ListResponse)
    (client : MockTransport E) (token : String) (request : ListRequest) :
    Except (ListError E) ListResponse × MockTransport E :=
  let params := listParams token request
  let url := get_slack_url_for_method "channels.list"
  let sent := client.send url params
  (((sent.1.mapError ListError.Client).bind fun result =>
      ((decode result).mapError ListError.MalformedResponse).bind fun o =>
        ListResponse.intoResult o), sent.2)

/-- `pub fn list` of channels.rs (channels.list): build params, send once, decode,
then map the `ok`/`error` fields. -/
def list {E : Type} (client : MockTransport E) (token : String)
    (request : ListRequest) : Except (ListError E) ListResponse × MockTransport E :=
  listWith ListResponse.decode client token request

/-- The `MarkRequest` struct of channels.rs: configuration for `channels.mark`. -/
structure MarkRequest where
  channel : String
  ts : String

/-- The `MarkResponse` struct of channels.rs (field order as declared). -/
structure MarkResponse where
  error : Option String
  ok : Bool

/-- The `MarkError<E>` enum of channels.rs, one constructor per variant;
`MalformedResponse` carries the decode-failure message and `Client` the
transport's own error value. -/
inductive MarkError (E : Type) where
  | ChannelNotFound
  | InvalidTimestamp
  | NotInChannel
  | NotAuthed
  | InvalidAuth
  | AccountInactive
  | InvalidArgName
  | InvalidArrayArg
  | InvalidCharset
  | InvalidFormData
  | InvalidPostType
  | MissingPostType
  | TeamAddedToOrg
  | RequestTimeout
  | MalformedResponse (e : String)
  | Unknown (s : String)
  | Client (e : E)
deriving DecidableEq

/-- The `From<&str> for MarkError<E>` impl of channels.rs: sequential match on
the known wire codes, anything else falling through to `Unknown`. -/
def MarkError.fromStr {E : Type} (s : String) : MarkError E :=
  if s = "channel_not_found" then .ChannelNotFound
  else if s = "invalid_timestamp" then .InvalidTimestamp
  else if s = "not_in_channel" then .NotInChannel
  else if s = "not_authed" then .NotAuthed
  else if s = "invalid_auth" then .InvalidAuth
  else if s = "account_inactive" then .AccountInactive
  else if s = "invalid_arg_name" then .InvalidArgName
  else if s = "invalid_array_arg" then .InvalidArrayArg
  else if s = "invalid_charset" then .InvalidCharset
  else if s = "invalid_form_data" then .InvalidFormData
  else if s = "invalid_post_type" then .InvalidPostType
  else if s = "missing_post_type" then .MissingPostType
  else if s = "team_added_to_org" then .TeamAddedToOrg
  else if s = "request_timeout" then .RequestTimeout
  else .Unknown s

/-- The `Error::description` impl for `MarkError<E>` in channels.rs; `descE` stands
for the `description` method of the transport error type `E`. -/
def MarkError.description {E : Type} (descE : E → String) : MarkError E → String
  | .ChannelNotFound => "channel_not_found: Value passed for channel was invalid."
  | .InvalidTimestamp => "invalid_timestamp: Value passed for timestamp was invalid."
  | .NotInChannel => "not_in_channel: Caller is not a member of the channel."
  | .NotAuthed => "not_authed: No authentication token provided."
  | .InvalidAuth => "invalid_auth: Invalid authentication token."
  | .AccountInactive => "account_inactive: Authentication token is for a deleted user or team."
  | .InvalidArgName => "invalid_arg_name: The method was passed an argument whose name falls outside the bounds of common decency. This includes very long names and names with non-alphanumeric characters other than _. If you get this error, it is typically an indication that you have made a very malformed API call."
  | .InvalidArrayArg => "invalid_array_arg: The method was passed a PHP-style array argument (e.g. with a name like foo[7]). These are never valid with the Slack API."
  | .InvalidCharset => "invalid_charset: The method was called via a POST request, but the charset specified in the Content-Type header was invalid. Valid charset names are: utf-8 iso-8859-1."
  | .InvalidFormData => "invalid_form_data: The method was called via a POST request with Content-Type application/x-www-form-urlencoded or multipart/form-data, but the form data was either missing or syntactically invalid."
  | .InvalidPostType => "invalid_post_type: The method was called via a POST request, but the specified Content-Type was invalid. Valid types are: application/x-www-form-urlencoded multipart/form-data text/plain."
  | .MissingPostType => "missing_post_type: The method was called via a POST request and included a data payload, but the request did not include a Content-Type header."
  | .TeamAddedToOrg => "team_added_to_org: The team associated with your request is currently undergoing migration to an Enterprise Organization. Web API and other platform operations will be intermittently unavailable until the transition is complete."
  | .RequestTimeout => "request_timeout: The method was called via a POST request, but the POST data was either missing or truncated."
  | .MalformedResponse e => e
  | .Unknown s => s
  | .Client e => descE e

/-- The `fmt::Display` impl for `MarkError<E>` writes `self.description()`. -/
def MarkError.displayString {E : Type} (descE : E → String) (e : MarkError E) : String :=
  MarkError.description descE e

/-- The wire codes appearing in the `From<&str>` match of `MarkError`. -/
def markKnownCodes : List String :=
  ["channel_not_found", "invalid_timestamp", "not_in_channel", "not_authed", "invalid_auth", "account_inactive", "invalid_arg_name", "invalid_array_arg", "invalid_charset", "invalid_form_data", "invalid_post_type", "missing_post_type", "team_added_to_org", "request_timeout"]

/-- Each domain-error match arm of `MarkError` together with its wire code and
the text that follows the code in its `description` string. -/
def markDescTable : List (MarkError Unit × String × String) :=
  [(MarkError.ChannelNotFound, "channel_not_found", "Value passed for channel was invalid."),
  (MarkError.InvalidTimestamp, "invalid_timestamp", "Value passed for timestamp was invalid."),
  (MarkError.NotInChannel, "not_in_channel", "Caller is not a member of the channel."),
  (MarkError.NotAuthed, "not_authed", "No authentication token provided."),
  (MarkError.InvalidAuth, "invalid_auth", "Invalid authentication token."),
  (MarkError.AccountInactive, "account_inactive", "Authentication token is for a deleted user or team."),
  (MarkError.InvalidArgName, "invalid_arg_name", "The method was passed an argument whose name falls outside the bounds of common decency. This includes very long names and names with non-alphanumeric characters other than _. If you get this error, it is typically an indication that you have made a very malformed API call."),
  (MarkError.InvalidArrayArg, "invalid_array_arg", "The method was passed a PHP-style array argument (e.g. with a name like foo[7]). These are never valid with the Slack API."),
  (MarkError.InvalidCharset, "invalid_charset", "The method was called via a POST request, but the charset specified in the Content-Type header was invalid. Valid charset names are: utf-8 iso-8859-1."),
  (MarkError.InvalidFormData, "invalid_form_data", "The method was called via a POST request with Content-Type application/x-www-form-urlencoded or multipart/form-data, but the form data was either missing or syntactically invalid."),
  (MarkError.InvalidPostType, "invalid_post_type", "The method was called via a POST request, but the specified Content-Type was invalid. Valid types are: application/x-www-form-urlencoded multipart/form-data text/plain."),
  (MarkError.MissingPostType, "missing_post_type", "The method was called via a POST request and included a data payload, but the request did not include a Content-Type header."),
  (MarkError.TeamAddedToOrg, "team_added_to_org", "The team associated with your request is currently undergoing migration to an Enterprise Organization. Web API and other platform operations will be intermittently unavailable until the transition is complete."),
  (MarkError.RequestTimeout, "request_timeout", "The method was called via a POST request, but the POST data was either missing or truncated.")]

/-- serde_json decoding of `MarkResponse`: every field optional except `ok`,
which `#[serde(default)]` makes default to `false` when absent. -/
def MarkResponse.fromJson (j : Json) : Except String MarkResponse :=
  match Json.expectObj j with
  | .error e => .error e
  | .ok fields =>
    match decodeOptString (jsonLookup fields "error") with
    | .error e => .error e
    | .ok error =>
      match decodeBoolDefaultFalse (jsonLookup fields "ok") with
      | .error e => .error e
      | .ok ok =>
        .ok ⟨error, ok⟩

/-- `serde_json::from_str::<MarkResponse>`. -/
def MarkResponse.decode (s : String) : Except String MarkResponse :=
  serdeFromStr MarkResponse.fromJson s

/-- The `Into<Result<MarkResponse, MarkError<E>>>` impl of channels.rs: `ok = true`
returns the full response, otherwise the error string (absent mapped to "")
is resolved through the code table. -/
def MarkResponse.intoResult {E : Type} (self : MarkResponse) :
    Except (MarkError E) MarkResponse :=
  if self.ok then .ok self
  else .error (MarkError.fromStr (self.error.getD ""))

/-- The parameter list built by `mark` in channels.rs: a vector of optional
pairs run through `filter_map`. -/
def markParams (token : String) (request : MarkRequest) : List (String × String) :=
  ([some ("token", token),
    some ("channel", request.channel),
    some ("ts", request.ts)] : List (Option (String × String))).filterMap id

/-- The body of `pub fn mark` in channels.rs, with the response decoder taken as
a parameter so that independence from the decoder is expressible. -/
def markWith {E : Type} (decode : String → Except String MarkResponse)
    (client : MockTransport E) (token : String) (request : MarkRequest) :
    Except (MarkError E) MarkResponse × MockTransport E :=
  let params := markParams token request
  let url := get_slack_url_for_method "channels.mark"
  let sent := client.send url params
  (((sent.1.mapError MarkError.Client).bind fun result =>
      ((decode result).mapError MarkError.MalformedResponse).bind fun o =>
        MarkResponse.intoResult o), sent.2)

/-- `pub fn mark` of channels.rs (channels.mark): build params, send once, decode,
then map the `ok`/`error` fields. -/
def mark {E : Type} (client : MockTransport E) (token : String)
    (request : MarkRequest) : Except (MarkError E) MarkResponse × MockTransport E :=
  markWith MarkResponse.decode client token request

/-- The `RenameRequest` struct of channels.rs: configuration for `channels.rename`. -/
structure RenameRequest where
  channel : String
  name : String
  validate : Option Bool

/-- The `RenameResponse` struct of channels.rs (field order as declared). -/
structure RenameResponse where
  channel : Option RenameResponseChannel
  error : Option String
  ok : Bool

/-- The `RenameError<E>` enum of channels.rs, one constructor per variant;
`MalformedResponse` carries the decode-failure message and `Client` the
transport's own error value. -/
inductive RenameError (E : Type) where
  | ChannelNotFound
  | NotInChannel
  | NotAuthorized
  | InvalidName
  | NameTaken
  | InvalidNameRequired
  | InvalidNamePunctuation
  | InvalidNameMaxlength
  | InvalidNameSpecials
  | NotAuthed
  | InvalidAuth
  | AccountInactive
  | UserIsBot
  | UserIsRestricted
  | InvalidArgName
  | InvalidArrayArg
  | InvalidCharset
  | InvalidFormData
  | InvalidPostType
  | MissingPostType
  | TeamAddedToOrg
  | RequestTimeout
  | MalformedResponse (e : String)
  | Unknown (s : String)
  | Client (e : E)
deriving DecidableEq

/-- The `From<&str> for RenameError<E>` impl of channels.rs: sequential match on
the known wire codes, anything else falling through to `Unknown`. -/
def RenameError.fromStr {E : Type} (s : String) : RenameError E :=
  if s = "channel_not_found" then .ChannelNotFound
  else if s = "not_in_channel" then .NotInChannel
  else if s = "not_authorized" then .NotAuthorized
  else if s = "invalid_name" then .InvalidName
  else if s = "name_taken" then .NameTaken
  else if s = "invalid_name_required" then .InvalidNameRequired
  else if s = "invalid_name_punctuation" then .InvalidNamePunctuation
  else if s = "invalid_name_maxlength" then .InvalidNameMaxlength
  else if s = "invalid_name_specials" then .InvalidNameSpecials
  else if s = "not_authed" then .NotAuthed
  else if s = "invalid_auth" then .InvalidAuth
  else if s = "account_inactive" then .AccountInactive
  else if s = "user_is_bot" then .UserIsBot
  else if s = "user_is_restricted" then .UserIsRestricted
  else if s = "invalid_arg_name" then .InvalidArgName
  else if s = "invalid_array_arg" then .InvalidArrayArg
  else if s = "invalid_charset" then .InvalidCharset
  else if s = "invalid_form_data" then .InvalidFormData
  else if s = "invalid_post_type" then .InvalidPostType
  else if s = "missing_post_type" then .MissingPostType
  else if s = "team_added_to_org" then .TeamAddedToOrg
  else if s = "request_timeout" then .RequestTimeout
  else .Unknown s

/-- The `Error::description` impl for `RenameError<E>` in channels.rs; `descE` stands
for the `description` method of the transport error type `E`. -/
def RenameError.description {E : Type} (descE : E → String) : RenameError E → String
  | .ChannelNotFound => "channel_not_found: Value passed for channel was invalid."
  | .NotInChannel => "not_in_channel: Caller is not a member of the channel."
  | .NotAuthorized => "not_authorized: Caller cannot rename this channel"
  | .InvalidName => "invalid_name: Value passed for name was invalid."
  | .NameTaken => "name_taken: New channel name is taken"
  | .InvalidNameRequired => "invalid_name_required: Value passed for name was empty."
  | .InvalidNamePunctuation => "invalid_name_punctuation: Value passed for name contained only punctuation."
  | .InvalidNameMaxlength => "invalid_name_maxlength: Value passed for name exceeded max length."
  | .InvalidNameSpecials => "invalid_name_specials: Value passed for name contained unallowed special characters or upper case characters."
  | .NotAuthed => "not_authed: No authentication token provided."
  | .InvalidAuth => "invalid_auth: Invalid authentication token."
  | .AccountInactive => "account_inactive: Authentication token is for a deleted user or team."
  | .UserIsBot => "user_is_bot: This method cannot be called by a bot user."
  | .UserIsRestricted => "user_is_restricted: This method cannot be called by a restricted user or single channel guest."
  | .InvalidArgName => "invalid_arg_name: The method was passed an argument whose name falls outside the bounds of common decency. This includes very long names and names with non-alphanumeric characters other than _. If you get this error, it is typically an indication that you have made a very malformed API call."
  | .InvalidArrayArg => "invalid_array_arg: The method was passed a PHP-style array argument (e.g. with a name like foo[7]). These are never valid with the Slack API."
  | .InvalidCharset => "invalid_charset: The method was called via a POST request, but the charset specified in the Content-Type header was invalid. Valid charset names are: utf-8 iso-8859-1."
  | .InvalidFormData => "invalid_form_data: The method was called via a POST request with Content-Type application/x-www-form-urlencoded or multipart/form-data, but the form data was either missing or syntactically invalid."
  | .InvalidPostType => "invalid_post_type: The method was called via a POST request, but the specified Content-Type was invalid. Valid types are: application/x-www-form-urlencoded multipart/form-data text/plain."
  | .MissingPostType => "missing_post_type: The method was called via a POST request and included a data payload, but the request did not include a Content-Type header."
  | .TeamAddedToOrg => "team_added_to_org: The team associated with your request is currently undergoing migration to an Enterprise Organization. Web API and other platform operations will be intermittently unavailable until the transition is complete."
  | .RequestTimeout => "request_timeout: The method was called via a POST request, but the POST data was either missing or truncated."
  | .MalformedResponse e => e
  | .Unknown s => s
  | .Client e => descE e

/-- The `fmt::Display` impl for `RenameError<E>` writes `self.description()`. -/
def RenameError.displayString {E : Type} (descE : E → String) (e : RenameError E) : String :=
  RenameError.description descE e

/-- The wire codes appearing in the `From<&str>` match of `RenameError`. -/
def renameKnownCodes : List String :=
  ["channel_not_found", "not_in_channel", "not_authorized", "invalid_name", "name_taken", "invalid_name_required", "invalid_name_punctuation", "invalid_name_maxlength", "invalid_name_specials", "not_authed", "invalid_auth", "account_inactive", "user_is_bot", "user_is_restricted", "invalid_arg_name", "invalid_array_arg", "invalid_charset", "invalid_form_data", "invalid_post_type", "missing_post_type", "team_added_to_org", "request_timeout"]

/-- Each domain-error match arm of `RenameError` together with its wire code and
the text that follows the code in its `description` string. -/
def renameDescTable : List (RenameError Unit × String × String) :=
  [(RenameError.ChannelNotFound, "channel_not_found", "Value passed for channel was invalid."),
  (RenameError.NotInChannel, "not_in_channel", "Caller is not a member of the channel."),
  (RenameError.NotAuthorized, "not_authorized", "Caller cannot rename this channel"),
  (RenameError.InvalidName, "invalid_name", "Value passed for name was invalid."),
  (RenameError.NameTaken, "name_taken", "New channel name is taken"),
  (RenameError.InvalidNameRequired, "invalid_name_required", "Value passed for name was empty."),
  (RenameError.InvalidNamePunctuation, "invalid_name_punctuation", "Value passed for name contained only punctuation."),
  (RenameError.InvalidNameMaxlength, "invalid_name_maxlength", "Value passed for name exceeded max length."),
  (RenameError.InvalidNameSpecials, "invalid_name_specials", "Value passed for name contained unallowed special characters or upper case characters."),
  (RenameError.NotAuthed, "not_authed", "No authentication token provided."),
  (RenameError.InvalidAuth, "invalid_auth", "Invalid authentication token."),
  (RenameError.AccountInactive, "account_inactive", "Authentication token is for a deleted user or team."),
  (RenameError.UserIsBot, "user_is_bot", "This method cannot be called by a bot user."),
  (RenameError.UserIsRestricted, "user_is_restricted", "This method cannot be called by a restricted user or single channel guest."),
  (RenameError.InvalidArgName, "invalid_arg_name", "The method was passed an argument whose name falls outside the bounds of common decency. This includes very long names and names with non-alphanumeric characters other than _. If you get this error, it is typically an indication that you have made a very malformed API call."),
  (RenameError.InvalidArrayArg, "invalid_array_arg", "The method was passed a PHP-style array argument (e.g. with a name like foo[7]). These are never valid with the Slack API."),
  (RenameError.InvalidCharset, "invalid_charset", "The method was called via a POST request, but the charset specified in the Content-Type header was invalid. Valid charset names are: utf-8 iso-8859-1."),
  (RenameError.InvalidFormData, "invalid_form_data", "The method was called via a POST request with Content-Type application/x-www-form-urlencoded or multipart/form-data, but the form data was either missing or syntactically invalid."),
  (RenameError.InvalidPostType, "invalid_post_type", "The method was called via a POST request, but the specified Content-Type was invalid. Valid types are: application/x-www-form-urlencoded multipart/form-data text/plain."),
  (RenameError.MissingPostType, "missing_post_type", "The method was called via a POST request and included a data payload, but the request did not include a Content-Type header."),
  (RenameError.TeamAddedToOrg, "team_added_to_org", "The team associated with your request is currently undergoing migration to an Enterprise Organization. Web API and other platform operations will be intermittently unavailable until the transition is complete."),
  (RenameError.RequestTimeout, "request_timeout", "The method was called via a POST request, but the POST data was either missing or truncated.")]

/-- serde_json decoding of `RenameResponse`: every field optional except `ok`,
which `#[serde(default)]` makes default to `false` when absent. -/
def RenameResponse.fromJson (j : Json) : Except String RenameResponse :=
  match Json.expectObj j with
  | .error e => .error e
  | .ok fields =>
    match decodeOptRenameChannel (jsonLookup fields "channel") with
    | .error e => .error e
    | .ok channel =>
      match decodeOptString (jsonLookup fields "error") with
      | .error e => .error e
      | .ok error =>
        match decodeBoolDefaultFalse (jsonLookup fields "ok") with
        | .error e => .error e
        | .ok ok =>
          .ok ⟨channel, error, ok⟩

/-- `serde_json::from_str::<RenameResponse>`. -/
def RenameResponse.decode (s : String) : Except String RenameResponse :=
  serdeFromStr RenameResponse.fromJson s

/-- The `Into<Result<RenameResponse, RenameError<E>>>` impl of channels.rs: `ok = true`
returns the full response, otherwise the error string (absent mapped to "")
is resolved through the code table. -/
def RenameResponse.intoResult {E : Type} (self : RenameResponse) :
    Except (RenameError E) RenameResponse :=
  if self.ok then .ok self
  else .error (RenameError.fromStr (self.error.getD ""))

/-- The parameter list built by `rename` in channels.rs: a vector of optional
pairs run through `filter_map`. -/
def renameParams (token : String) (request : RenameRequest) : List (String × String) :=
  ([some ("token", token),
    some ("channel", request.channel),
    some ("name", request.name),
    request.validate.map (fun validate => ("validate", if validate then "1" else "0"))] : List (Option (String × String))).filterMap id

/-- The body of `pub fn rename` in channels.rs, with the response decoder taken as
a parameter so that independence from the decoder is expressible. -/
def renameWith {E : Type} (decode : String → Except String RenameResponse)
    (client : MockTransport E) (token : String) (request : RenameRequest) :
    Except (RenameError E) RenameResponse × MockTransport E :=
  let params := renameParams token request
  let url := get_slack_url_for_method "channels.rename"
  let sent := client.send url params
  (((sent.1.mapError RenameError.Client).bind fun result =>
      ((decode result).mapError RenameError.MalformedResponse).bind fun o =>
        RenameResponse.intoResult o), sent.2)

/-- `pub fn rename` of channels.rs (channels.rename): build params, send once, decode,
then map the `ok`/`error` fields. -/
def rename {E : Type} (client : MockTransport E) (token : String)
    (request : RenameRequest) : Except (RenameError E) RenameResponse × MockTransport E :=
  renameWith RenameResponse.decode client token request

/-- The `RepliesRequest` struct of channels.rs: configuration for `channels.replies`. -/
structure RepliesRequest where
  channel : String
  thread_ts : String

/-- The `RepliesResponse` struct of channels.rs (field order as declared). -/
structure RepliesResponse where
  error : Option String
  messages : Option (List Json)
  ok : Bool
  thread_info : Option Json

/-- The `RepliesError<E>` enum of channels.rs, one constructor per variant;
`MalformedResponse` carries the decode-failure message and `Client` the
transport's own error value. -/
inductive RepliesError (E : Type) where
  | ChannelNotFound
  | ThreadNotFound
  | NotAuthed
  | InvalidAuth
  | AccountInactive
  | InvalidArgName
  | InvalidArrayArg
  | InvalidCharset
  | InvalidFormData
  | InvalidPostType
  | MissingPostType
  | TeamAddedToOrg
  | RequestTimeout
  | MalformedResponse (e : String)
  | Unknown (s : String)
  | Client (e : E)
deriving DecidableEq

/-- The `From<&str> for RepliesError<E>` impl of channels.rs: sequential match on
the known wire codes, anything else falling through to `Unknown`. -/
def RepliesError.fromStr {E : Type} (s : String) : RepliesError E :=
  if s = "channel_not_found" then .ChannelNotFound
  else if s = "thread_not_found" then .ThreadNotFound
  else if s = "not_authed" then .NotAuthed
  else if s = "invalid_auth" then .InvalidAuth
  else if s = "account_inactive" then .AccountInactive
  else if s = "invalid_arg_name" then .InvalidArgName
  else if s = "invalid_array_arg" then .InvalidArrayArg
  else if s = "invalid_charset" then .InvalidCharset
  else if s = "invalid_form_data" then .InvalidFormData
  else if s = "invalid_post_type" then .InvalidPostType
  else if s = "missing_post_type" then .MissingPostType
  else if s = "team_added_to_org" then .TeamAddedToOrg
  else if s = "request_timeout" then .RequestTimeout
  else .Unknown s

/-- The `Error::description` impl for `RepliesError<E>` in channels.rs; `descE` stands
for the `description` method of the transport error type `E`. -/
def RepliesError.description {E : Type} (descE : E → String) : RepliesError E → String
  | .ChannelNotFound => "channel_not_found: Value for channel was missing or invalid."
  | .ThreadNotFound => "thread_not_found: Value for thread_ts was missing or invalid."
  | .NotAuthed => "not_authed: No authentication token provided."
  | .InvalidAuth => "invalid_auth: Invalid authentication token."
  | .AccountInactive => "account_inactive: Authentication token is for a deleted user or team."
  | .InvalidArgName => "invalid_arg_name: The method was passed an argument whose name falls outside the bounds of common decency. This includes very long names and names with non-alphanumeric characters other than _. If you get this error, it is typically an indication that you have made a very malformed API call."
  | .InvalidArrayArg => "invalid_array_arg: The method was passed a PHP-style array argument (e.g. with a name like foo[7]). These are never valid with the Slack API."
  | .InvalidCharset => "invalid_charset: The method was called via a POST request, but the charset specified in the Content-Type header was invalid. Valid charset names are: utf-8 iso-8859-1."
  | .InvalidFormData => "invalid_form_data: The method was called via a POST request with Content-Type application/x-www-form-urlencoded or multipart/form-data, but the form data was either missing or syntactically invalid."
  | .InvalidPostType => "invalid_post_type: The method was called via a POST request, but the specified Content-Type was invalid. Valid types are: application/x-www-form-urlencoded multipart/form-data text/plain."
  | .MissingPostType => "missing_post_type: The method was called via a POST request and included a data payload, but the request did not include a Content-Type header."
  | .TeamAddedToOrg => "team_added_to_org: The team associated with your request is currently undergoing migration to an Enterprise Organization. Web API and other platform operations will be intermittently unavailable until the transition is complete."
  | .RequestTimeout => "request_timeout: The method was called via a POST request, but the POST data was either missing or truncated."
  | .MalformedResponse e => e
  | .Unknown s => s
  | .Client e => descE e

/-- The `fmt::Display` impl for `RepliesError<E>` writes `self.description()`. -/
def RepliesError.displayString {E : Type} (descE : E → String) (e : RepliesError E) : String :=
  RepliesError.description descE e

/-- The wire codes appearing in the `From<&str>` match of `RepliesError`. -/
def repliesKnownCodes : List String :=
  ["channel_not_found", "thread_not_found", "not_authed", "invalid_auth", "account_inactive", "invalid_arg_name", "invalid_array_arg", "invalid_charset", "invalid_form_data", "invalid_post_type", "missing_post_type", "team_added_to_org", "request_timeout"]

/-- Each domain-error match arm of `RepliesError` together with its wire code and
the text that follows the code in its `description` string. -/
def repliesDescTable : List (RepliesError Unit × String × String) :=
  [(RepliesError.ChannelNotFound, "channel_not_found", "Value for channel was missing or invalid."),
  (RepliesError.ThreadNotFound, "thread_not_found", "Value for thread_ts was missing or invalid."),
  (RepliesError.NotAuthed, "not_authed", "No authentication token provided."),
  (RepliesError.InvalidAuth, "invalid_auth", "Invalid authentication token."),
  (RepliesError.AccountInactive, "account_inactive", "Authentication token is for a deleted user or team."),
  (RepliesError.InvalidArgName, "invalid_arg_name", "The method was passed an argument whose name falls outside the bounds of common decency. This includes very long names and names with non-alphanumeric characters other than _. If you get this error, it is typically an indication that you have made a very malformed API call."),
  (RepliesError.InvalidArrayArg, "invalid_array_arg", "The method was passed a PHP-style array argument (e.g. with a name like foo[7]). These are never valid with the Slack API."),
  (RepliesError.InvalidCharset, "invalid_charset", "The method was called via a POST request, but the charset specified in the Content-Type header was invalid. Valid charset names are: utf-8 iso-8859-1."),
  (RepliesError.InvalidFormData, "invalid_form_data", "The method was called via a POST request with Content-Type application/x-www-form-urlencoded or multipart/form-data, but the form data was either missing or syntactically invalid."),
  (RepliesError.InvalidPostType, "invalid_post_type", "The method was called via a POST request, but the specified Content-Type was invalid. Valid types are: application/x-www-form-urlencoded multipart/form-data text/plain."),
  (RepliesError.MissingPostType, "missing_post_type", "The method was called via a POST request and included a data payload, but the request did not include a Content-Type header."),
  (RepliesError.TeamAddedToOrg, "team_added_to_org", "The team associated with your request is currently undergoing migration to an Enterprise Organization. Web API and other platform operations will be intermittently unavailable until the transition is complete."),
  (RepliesError.RequestTimeout, "request_timeout", "The method was called via a POST request, but the POST data was either missing or truncated.")]

/-- serde_json decoding of `RepliesResponse`: every field optional except `ok`,
which `#[serde(default)]` makes default to `false` when absent. -/
def RepliesResponse.fromJson (j : Json) : Except String RepliesResponse :=
  match Json.expectObj j with
  | .error e => .error e
  | .ok fields =>
    match decodeOptString (jsonLookup fields "error") with
    | .error e => .error e
    | .ok error =>
      match decodeOptRawList (jsonLookup fields "messages") with
      | .error e => .error e
      | .ok messages =>
        match decodeBoolDefaultFalse (jsonLookup fields "ok") with
        | .error e => .error e
        | .ok ok =>
          match decodeOptRaw (jsonLookup fields "thread_info") with
          | .error e => .error e
          | .ok thread_info =>
            .ok ⟨error, messages, ok, thread_info⟩

/-- `serde_json::from_str::<RepliesResponse>`. -/
def RepliesResponse.decode (s : String) : Except String RepliesResponse :=
  serdeFromStr RepliesResponse.fromJson s

/-- The `Into<Result<RepliesResponse, RepliesError<E>>>` impl of channels.rs: `ok = true`
returns the full response, otherwise the error string (absent mapped to "")
is resolved through the code table. -/
def RepliesResponse.intoResult {E : Type} (self : RepliesResponse) :
    Except (RepliesError E) RepliesResponse :=
  if self.ok then .ok self
  else .error (RepliesError.fromStr (self.error.getD ""))

/-- The parameter list built by `replies` in channels.rs: a vector of optional
pairs run through `filter_map`. -/
def repliesParams (token : String) (request : RepliesRequest) : List (String × String) :=
  ([some ("token", token),
    some ("channel", request.channel),
    some ("thread_ts", request.thread_ts)] : List (Option (String × String))).filterMap id

/-- The body of `pub fn replies` in channels.rs, with the response decoder taken as
a parameter so that independence from the decoder is expressible. -/
def repliesWith {E : Type} (decode : String → Except String RepliesResponse)
    (client : MockTransport E) (token : String) (request : RepliesRequest) :
    Except (RepliesError E) RepliesResponse × MockTransport E :=
  let params := repliesParams token request
  let url := get_slack_url_for_method "channels.replies"
  let sent := client.send url params
  (((sent.1.mapError RepliesError.Client).bind fun result =>
      ((decode result).mapError RepliesError.MalformedResponse).bind fun o =>
        RepliesResponse.intoResult o), sent.2)

/-- `pub fn replies` of channels.rs (channels.replies): build params, send once, decode,
then map the `ok`/`error` fields. -/
def replies {E : Type} (client : MockTransport E) (token : String)
    (request : RepliesRequest) : Except (RepliesError E) RepliesResponse × MockTransport E :=
  repliesWith RepliesResponse.decode client token request

/-- The `SetPurposeRequest` struct of channels.rs: configuration for `channels.setPurpose`. -/
structure SetPurposeRequest where
  channel : String
  purpose : String

/-- The `SetPurposeResponse` struct of channels.rs (field order as declared). -/
structure SetPurposeResponse where
  error : Option String
  ok : Bool
  purpose : Option String

/-- The `SetPurposeError<E>` enum of channels.rs, one constructor per variant;
`MalformedResponse` carries the decode-failure message and `Client` the
transport's own error value. -/
inductive SetPurposeError (E : Type) where
  | ChannelNotFound
  | NotInChannel
  | IsArchived
  | TooLong
  | UserIsRestricted
  | NotAuthed
  | InvalidAuth
  | AccountInactive
  | InvalidArgName
  | InvalidArrayArg
  | InvalidCharset
  | InvalidFormData
  | InvalidPostType
  | MissingPostType
  | TeamAddedToOrg
  | RequestTimeout
  | MalformedResponse (e : String)
  | Unknown (s : String)
  | Client (e : E)
deriving DecidableEq

/-- The `From<&str> for SetPurposeError<E>` impl of channels.rs: sequential match on
the known wire codes, anything else falling through to `Unknown`. -/
def SetPurposeError.fromStr {E : Type} (s : String) : SetPurposeError E :=
  if s = "channel_not_found" then .ChannelNotFound
  else if s = "not_in_channel" then .NotInChannel
  else if s = "is_archived" then .IsArchived
  else if s = "too_long" then .TooLong
  else if s = "user_is_restricted" then .UserIsRestricted
  else if s = "not_authed" then .NotAuthed
  else if s = "invalid_auth" then .InvalidAuth
  else if s = "account_inactive" then .AccountInactive
  else if s = "invalid_arg_name" then .InvalidArgName
  else if s = "invalid_array_arg" then .InvalidArrayArg
  else if s = "invalid_charset" then .InvalidCharset
  else if s = "invalid_form_data" then .InvalidFormData
  else if s = "invalid_post_type" then .InvalidPostType
  else if s = "missing_post_type" then .MissingPostType
  else if s = "team_added_to_org" then .TeamAddedToOrg
  else if s = "request_timeout" then .RequestTimeout
  else .Unknown s

/-- The `Error::description` impl for `SetPurposeError<E>` in channels.rs; `descE` stands
for the `description` method of the transport error type `E`. -/
def SetPurposeError.description {E : Type} (descE : E → String) : SetPurposeError E → String
  | .ChannelNotFound => "channel_not_found: Value passed for channel was invalid."
  | .NotInChannel => "not_in_channel: Authenticated user is not in the channel."
  | .IsArchived => "is_archived: Channel has been archived."
  | .TooLong => "too_long: Purpose was longer than 250 characters."
  | .UserIsRestricted => "user_is_restricted: This method cannot be called by a restricted user or single channel guest."
  | .NotAuthed => "not_authed: No authentication token provided."
  | .InvalidAuth => "invalid_auth: Invalid authentication token."
  | .AccountInactive => "account_inactive: Authentication token is for a deleted user or team."
  | .InvalidArgName => "invalid_arg_name: The method was passed an argument whose name falls outside the bounds of common decency. This includes very long names and names with non-alphanumeric characters other than _. If you get this error, it is typically an indication that you have made a very malformed API call."
  | .InvalidArrayArg => "invalid_array_arg: The method was passed a PHP-style array argument (e.g. with a name like foo[7]). These are never valid with the Slack API."
  | .InvalidCharset => "invalid_charset: The method was called via a POST request, but the charset specified in the Content-Type header was invalid. Valid charset names are: utf-8 iso-8859-1."
  | .InvalidFormData => "invalid_form_data: The method was called via a POST request with Content-Type application/x-www-form-urlencoded or multipart/form-data, but the form data was either missing or syntactically invalid."
  | .InvalidPostType => "invalid_post_type: The method was called via a POST request, but the specified Content-Type was invalid. Valid types are: application/x-www-form-urlencoded multipart/form-data text/plain."
  | .MissingPostType => "missing_post_type: The method was called via a POST request and included a data payload, but the request did not include a Content-Type header."
  | .TeamAddedToOrg => "team_added_to_org: The team associated with your request is currently undergoing migration to an Enterprise Organization. Web API and other platform operations will be intermittently unavailable until the transition is complete."
  | .RequestTimeout => "request_timeout: The method was called via a POST request, but the POST data was either missing or truncated."
  | .MalformedResponse e => e
  | .Unknown s => s
  | .Client e => descE e

/-- The `fmt::Display` impl for `SetPurposeError<E>` writes `self.description()`. -/
def SetPurposeError.displayString {E : Type} (descE : E → String) (e : SetPurposeError E) : String :=
  SetPurposeError.description descE e

/-- The wire codes appearing in the `From<&str>` match of `SetPurposeError`. -/
def set_purposeKnownCodes : List String :=
  ["channel_not_found", "not_in_channel", "is_archived", "too_long", "user_is_restricted", "not_authed", "invalid_auth", "account_inactive", "invalid_arg_name", "invalid_array_arg", "invalid_charset", "invalid_form_data", "invalid_post_type", "missing_post_type", "team_added_to_org", "request_timeout"]

/-- Each domain-error match arm of `SetPurposeError` together with its wire code and
the text that follows the code in its `description` string. -/
def set_purposeDescTable : List (SetPurposeError Unit × String × String) :=
  [(SetPurposeError.ChannelNotFound, "channel_not_found", "Value passed for channel was invalid."),
  (SetPurposeError.NotInChannel, "not_in_channel", "Authenticated user is not in the channel."),
  (SetPurposeError.IsArchived, "is_archived", "Channel has been archived."),
  (SetPurposeError.TooLong, "too_long", "Purpose was longer than 250 characters."),
  (SetPurposeError.UserIsRestricted, "user_is_restricted", "This method cannot be called by a restricted user or single channel guest."),
  (SetPurposeError.NotAuthed, "not_authed", "No authentication token provided."),
  (SetPurposeError.InvalidAuth, "invalid_auth", "Invalid authentication token."),
  (SetPurposeError.AccountInactive, "account_inactive", "Authentication token is for a deleted user or team."),
  (SetPurposeError.InvalidArgName, "invalid_arg_name", "The method was passed an argument whose name falls outside the bounds of common decency. This includes very long names and names with non-alphanumeric characters other than _. If you get this error, it is typically an indication that you have made a very malformed API call."),
  (SetPurposeError.InvalidArrayArg, "invalid_array_arg", "The method was passed a PHP-style array argument (e.g. with a name like foo[7]). These are never valid with the Slack API."),
  (SetPurposeError.InvalidCharset, "invalid_charset", "The method was called via a POST request, but the charset specified in the Content-Type header was invalid. Valid charset names are: utf-8 iso-8859-1."),
  (SetPurposeError.InvalidFormData, "invalid_form_data", "The method was called via a POST request with Content-Type application/x-www-form-urlencoded or multipart/form-data, but the form data was either missing or syntactically invalid."),
  (SetPurposeError.InvalidPostType, "invalid_post_type", "The method was called via a POST request, but the specified Content-Type was invalid. Valid types are: application/x-www-form-urlencoded multipart/form-data text/plain."),
  (SetPurposeError.MissingPostType, "missing_post_type", "The method was called via a POST request and included a data payload, but the request did not include a Content-Type header."),
  (SetPurposeError.TeamAddedToOrg, "team_added_to_org", "The team associated with your request is currently undergoing migration to an Enterprise Organization. Web API and other platform operations will be intermittently unavailable until the transition is complete."),
  (SetPurposeError.RequestTimeout, "request_timeout", "The method was called via a POST request, but the POST data was either missing or truncated.")]

/-- serde_json decoding of `SetPurposeResponse`: every field optional except `ok`,
which `#[serde(default)]` makes default to `false` when absent. -/
def SetPurposeResponse.fromJson (j : Json) : Except String SetPurposeResponse :=
  match Json.expectObj j with
  | .error e => .error e
  | .ok fields =>
    match decodeOptString (jsonLookup fields "error") with
    | .error e => .error e
    | .ok error =>
      match decodeBoolDefaultFalse (jsonLookup fields "ok") with
      | .error e => .error e
      | .ok ok =>
        match decodeOptString (jsonLookup fields "purpose") with
        | .error e => .error e
        | .ok purpose =>
          .ok ⟨error, ok, purpose⟩

/-- `serde_json::from_str::<SetPurposeResponse>`. -/
def SetPurposeResponse.decode (s : String) : Except String SetPurposeResponse :=
  serdeFromStr SetPurposeResponse.fromJson s

/-- The `Into<Result<SetPurposeResponse, SetPurposeError<E>>>` impl of channels.rs: `ok = true`
returns the full response, otherwise the error string (absent mapped to "")
is resolved through the code table. -/
def SetPurposeResponse.intoResult {E : Type} (self : SetPurposeResponse) :
    Except (SetPurposeError E) SetPurposeResponse :=
  if self.ok then .ok self
  else .error (SetPurposeError.fromStr (self.error.getD ""))

/-- The parameter list built by `set_purpose` in channels.rs: a vector of optional
pairs run through `filter_map`. -/
def set_purposeParams (token : String) (request : SetPurposeRequest) : List (String × String) :=
  ([some ("token", token),
    some ("channel", request.channel),
    some ("purpose", request.purpose)] : List (Option (String × String))).filterMap id

/-- The body of `pub fn set_purpose` in channels.rs, with the response decoder taken as
a parameter so that independence from the decoder is expressible. -/
def set_purposeWith {E : Type} (decode : String → Except String SetPurposeResponse)
    (client : MockTransport E) (token : String) (request : SetPurposeRequest) :
    Except (SetPurposeError E) SetPurposeResponse × MockTransport E :=
  let params := set_purposeParams token request
  let url := get_slack_url_for_method "channels.setPurpose"
  let sent := client.send url params
  (((sent.1.mapError SetPurposeError.Client).bind fun result =>
      ((decode result).mapError SetPurposeError.MalformedResponse).bind fun o =>
        SetPurposeResponse.intoResult o), sent.2)

/-- `pub fn set_purpose` of channels.rs (channels.setPurpose): build params, send once, decode,
then map the `ok`/`error` fields. -/
def set_purpose {E : Type} (client : MockTransport E) (token : String)
    (request : SetPurposeRequest) : Except (SetPurposeError E) SetPurposeResponse × MockTransport E :=
  set_purposeWith SetPurposeResponse.decode client token request

/-- The `SetTopicRequest` struct of channels.rs: configuration for `channels.setTopic`. -/
structure SetTopicRequest where
  channel : String
  topic : String

/-- The `SetTopicResponse` struct of channels.rs (field order as declared). -/
structure SetTopicResponse where
  error : Option String
  ok : Bool
  topic : Option String

/-- The `SetTopicError<E>` enum of channels.rs, one constructor per variant;
`MalformedResponse` carries the decode-failure message and `Client` the
transport's own error value. -/
inductive SetTopicError (E : Type) where
  | ChannelNotFound
  | NotInChannel
  | IsArchived
  | TooLong
  | UserIsRestricted
  | NotAuthed
  | InvalidAuth
  | AccountInactive
  | InvalidArgName
  | InvalidArrayArg
  | InvalidCharset
  | InvalidFormData
  | InvalidPostType
  | MissingPostType
  | TeamAddedToOrg
  | RequestTimeout
  | MalformedResponse (e : String)
  | Unknown (s : String)
  | Client (e : E)
deriving DecidableEq

/-- The `From<&str> for SetTopicError<E>` impl of channels.rs: sequential match on
the known wire codes, anything else falling through to `Unknown`. -/
def SetTopicError.fromStr {E : Type} (s : String) : SetTopicError E :=
  if s = "channel_not_found" then .ChannelNotFound
  else if s = "not_in_channel" then .NotInChannel
  else if s = "is_archived" then .IsArchived
  else if s = "too_long" then .TooLong
  else if s = "user_is_restricted" then .UserIsRestricted
  else if s = "not_authed" then .NotAuthed
  else if s = "invalid_auth" then .InvalidAuth
  else if s = "account_inactive" then .AccountInactive
  else if s = "invalid_arg_name" then .InvalidArgName
  else if s = "invalid_array_arg" then .InvalidArrayArg
  else if s = "invalid_charset" then .InvalidCharset
  else if s = "invalid_form_data" then .InvalidFormData
  else if s = "invalid_post_type" then .InvalidPostType
  else if s = "missing_post_type" then .MissingPostType
  else if s = "team_added_to_org" then .TeamAddedToOrg
  else if s = "request_timeout" then .RequestTimeout
  else .Unknown s

/-- The `Error::description` impl for `SetTopicError<E>` in channels.rs; `descE` stands
for the `description` method of the transport error type `E`. -/
def SetTopicError.description {E : Type} (descE : E → String) : SetTopicError E → String
  | .ChannelNotFound => "channel_not_found: Value passed for channel was invalid."
  | .NotInChannel => "not_in_channel: Authenticated user is not in the channel."
  | .IsArchived => "is_archived: Channel has been archived."
  | .TooLong => "too_long: Topic was longer than 250 characters."
  | .UserIsRestricted => "user_is_restricted: This method cannot be called by a restricted user or single channel guest."
  | .NotAuthed => "not_authed: No authentication token provided."
  | .InvalidAuth => "invalid_auth: Invalid authentication token."
  | .AccountInactive => "account_inactive: Authentication token is for a deleted user or team."
  | .InvalidArgName => "invalid_arg_name: The method was passed an argument whose name falls outside the bounds of common decency. This includes very long names and names with non-alphanumeric characters other than _. If you get this error, it is typically an indication that you have made a very malformed API call."
  | .InvalidArrayArg => "invalid_array_arg: The method was passed a PHP-style array argument (e.g. with a name like foo[7]). These are never valid with the Slack API."
  | .InvalidCharset => "invalid_charset: The method was called via a POST request, but the charset specified in the Content-Type header was invalid. Valid charset names are: utf-8 iso-8859-1."
  | .InvalidFormData => "invalid_form_data: The method was called via a POST request with Content-Type application/x-www-form-urlencoded or multipart/form-data, but the form data was either missing or syntactically invalid."
  | .InvalidPostType => "invalid_post_type: The method was called via a POST request, but the specified Content-Type was invalid. Valid types are: application/x-www-form-urlencoded multipart/form-data text/plain."
  | .MissingPostType => "missing_post_type: The method was called via a POST request and included a data payload, but the request did not include a Content-Type header."
  | .TeamAddedToOrg => "team_added_to_org: The team associated with your request is currently undergoing migration to an Enterprise Organization. Web API and other platform operations will be intermittently unavailable until the transition is complete."
  | .RequestTimeout => "request_timeout: The method was called via a POST request, but the POST data was either missing or truncated."
  | .MalformedResponse e => e
  | .Unknown s => s
  | .Client e => descE e

/-- The `fmt::Display` impl for `SetTopicError<E>` writes `self.description()`. -/
def SetTopicError.displayString {E : Type} (descE : E → String) (e : SetTopicError E) : String :=
  SetTopicError.description descE e

/-- The wire codes appearing in the `From<&str>` match of `SetTopicError`. -/
def set_topicKnownCodes : List String :=
  ["channel_not_found", "not_in_channel", "is_archived", "too_long", "user_is_restricted", "not_authed", "invalid_auth", "account_inactive", "invalid_arg_name", "invalid_array_arg", "invalid_charset", "invalid_form_data", "invalid_post_type", "missing_post_type", "team_added_to_org", "request_timeout"]

/-- Each domain-error match arm of `SetTopicError` together with its wire code and
the text that follows the code in its `description` string. -/
def set_topicDescTable : List (SetTopicError Unit × String × String) :=
  [(SetTopicError.ChannelNotFound, "channel_not_found", "Value passed for channel was invalid."),
  (SetTopicError.NotInChannel, "not_in_channel", "Authenticated user is not in the channel."),
  (SetTopicError.IsArchived, "is_archived", "Channel has been archived."),
  (SetTopicError.TooLong, "too_long", "Topic was longer than 250 characters."),
  (SetTopicError.UserIsRestricted, "user_is_restricted", "This method cannot be called by a restricted user or single channel guest."),
  (SetTopicError.NotAuthed, "not_authed", "No authentication token provided."),
  (SetTopicError.InvalidAuth, "invalid_auth", "Invalid authentication token."),
  (SetTopicError.AccountInactive, "account_inactive", "Authentication token is for a deleted user or team."),
  (SetTopicError.InvalidArgName, "invalid_arg_name", "The method was passed an argument whose name falls outside the bounds of common decency. This includes very long names and names with non-alphanumeric characters other than _. If you get this error, it is typically an indication that you have made a very malformed API call."),
  (SetTopicError.InvalidArrayArg, "invalid_array_arg", "The method was passed a PHP-style array argument (e.g. with a name like foo[7]). These are never valid with the Slack API."),
  (SetTopicError.InvalidCharset, "invalid_charset", "The method was called via a POST request, but the charset specified in the Content-Type header was invalid. Valid charset names are: utf-8 iso-8859-1."),
  (SetTopicError.InvalidFormData, "invalid_form_data", "The method was called via a POST request with Content-Type application/x-www-form-urlencoded or multipart/form-data, but the form data was either missing or syntactically invalid."),
  (SetTopicError.InvalidPostType, "invalid_post_type", "The method was called via a POST request, but the specified Content-Type was invalid. Valid types are: application/x-www-form-urlencoded multipart/form-data text/plain."),
  (SetTopicError.MissingPostType, "missing_post_type", "The method was called via a POST request and included a data payload, but the request did not include a Content-Type header."),
  (SetTopicError.TeamAddedToOrg, "team_added_to_org", "The team associated with your request is currently undergoing migration to an Enterprise Organization. Web API and other platform operations will be intermittently unavailable until the transition is complete."),
  (SetTopicError.RequestTimeout, "request_timeout", "The method was called via a POST request, but the POST data was either missing or truncated.")]

/-- serde_json decoding of `SetTopicResponse`: every field optional except `ok`,
which `#[serde(default)]` makes default to `false` when absent. -/
def SetTopicResponse.fromJson (j : Json) : Except String SetTopicResponse :=
  match Json.expectObj j with
  | .error e => .error e
  | .ok fields =>
    match decodeOptString (jsonLookup fields "error") with
    | .error e => .error e
    | .ok error =>
      match decodeBoolDefaultFalse (jsonLookup fields "ok") with
      | .error e => .error e
      | .ok ok =>
        match decodeOptString (jsonLookup fields "topic") with
        | .error e => .error e
        | .ok topic =>
          .ok ⟨error, ok, topic⟩

/-- `serde_json::from_str::<SetTopicResponse>`. -/
def SetTopicResponse.decode (s : String) : Except String SetTopicResponse :=
  serdeFromStr SetTopicResponse.fromJson s

/-- The `Into<Result<SetTopicResponse, SetTopicError<E>>>` impl of channels.rs: `ok = true`
returns the full response, otherwise the error string (absent mapped to "")
is resolved through the code table. -/
def SetTopicResponse.intoResult {E : Type} (self : SetTopicResponse) :
    Except (SetTopicError E) SetTopicResponse :=
  if self.ok then .ok self
  else .error (SetTopicError.fromStr (self.error.getD ""))

/-- The parameter list built by `set_topic` in channels.rs: a vector of optional
pairs run through `filter_map`. -/
def set_topicParams (token : String) (request : SetTopicRequest) : List (String × String) :=
  ([some ("token", token),
    some ("channel", request.channel),
    some ("topic", request.topic)] : List (Option (String × String))).filterMap id

/-- The body of `pub fn set_topic` in channels.rs, with the response decoder taken as
a parameter so that independence from the decoder is expressible. -/
def set_topicWith {E : Type} (decode : String → Except String SetTopicResponse)
    (client : MockTransport E) (token : String) (request : SetTopicRequest) :
    Except (SetTopicError E) SetTopicResponse × MockTransport E :=
  let params := set_topicParams token request
  let url := get_slack_url_for_method "channels.setTopic"
  let sent := client.send url params
  (((sent.1.mapError SetTopicError.Client).bind fun result =>
      ((decode result).mapError SetTopicError.MalformedResponse).bind fun o =>
        SetTopicResponse.intoResult o), sent.2)

/-- `pub fn set_topic` of channels.rs (channels.setTopic): build params, send once, decode,
then map the `ok`/`error` fields. -/
def set_topic {E : Type} (client : MockTransport E) (token : String)
    (request : SetTopicRequest) : Except (SetTopicError E) SetTopicResponse × MockTransport E :=
  set_topicWith SetTopicResponse.decode client token request

/-- The `UnarchiveRequest` struct of channels.rs: configuration for `channels.unarchive`. -/
structure UnarchiveRequest where
  channel : String

/-- The `UnarchiveResponse` struct of channels.rs (field order as declared). -/
structure UnarchiveResponse where
  error : Option String
  ok : Bool

/-- The `UnarchiveError<E>` enum of channels.rs, one constructor per variant;
`MalformedResponse` carries the decode-failure message and `Client` the
transport's own error value. -/
inductive UnarchiveError (E : Type) where
  | ChannelNotFound
  | NotArchived
  | NotAuthed
  | InvalidAuth
  | AccountInactive
  | UserIsBot
  | UserIsRestricted
  | InvalidArgName
  | InvalidArrayArg
  | InvalidCharset
  | InvalidFormData
  | InvalidPostType
  | MissingPostType
  | TeamAddedToOrg
  | RequestTimeout
  | MalformedResponse (e : String)
  | Unknown (s : String)
  | Client (e : E)
deriving DecidableEq

/-- The `From<&str> for UnarchiveError<E>` impl of channels.rs: sequential match on
the known wire codes, anything else falling through to `Unknown`. -/
def UnarchiveError.fromStr {E : Type} (s : String) : UnarchiveError E :=
  if s = "channel_not_found" then .ChannelNotFound
  else if s = "not_archived" then .NotArchived
  else if s = "not_authed" then .NotAuthed
  else if s = "invalid_auth" then .InvalidAuth
  else if s = "account_inactive" then .AccountInactive
  else if s = "user_is_bot" then .UserIsBot
  else if s = "user_is_restricted" then .UserIsRestricted
  else if s = "invalid_arg_name" then .InvalidArgName
  else if s = "invalid_array_arg" then .InvalidArrayArg
  else if s = "invalid_charset" then .InvalidCharset
  else if s = "invalid_form_data" then .InvalidFormData
  else if s = "invalid_post_type" then .InvalidPostType
  else if s = "missing_post_type" then .MissingPostType
  else if s = "team_added_to_org" then .TeamAddedToOrg
  else if s = "request_timeout" then .RequestTimeout
  else .Unknown s

/-- The `Error::description` impl for `UnarchiveError<E>` in channels.rs; `descE` stands
for the `description` method of the transport error type `E`. -/
def UnarchiveError.description {E : Type} (descE : E → String) : UnarchiveError E → String
  | .ChannelNotFound => "channel_not_found: Value passed for channel was invalid."
  | .NotArchived => "not_archived: Channel is not archived."
  | .NotAuthed => "not_authed: No authentication token provided."
  | .InvalidAuth => "invalid_auth: Invalid authentication token."
  | .AccountInactive => "account_inactive: Authentication token is for a deleted user or team."
  | .UserIsBot => "user_is_bot: This method cannot be called by a bot user."
  | .UserIsRestricted => "user_is_restricted: This method cannot be called by a restricted user or single channel guest."
  | .InvalidArgName => "invalid_arg_name: The method was passed an argument whose name falls outside the bounds of common decency. This includes very long names and names with non-alphanumeric characters other than _. If you get this error, it is typically an indication that you have made a very malformed API call."
  | .InvalidArrayArg => "invalid_array_arg: The method was passed a PHP-style array argument (e.g. with a name like foo[7]). These are never valid with the Slack API."
  | .InvalidCharset => "invalid_charset: The method was called via a POST request, but the charset specified in the Content-Type header was invalid. Valid charset names are: utf-8 iso-8859-1."
  | .InvalidFormData => "invalid_form_data: The method was called via a POST request with Content-Type application/x-www-form-urlencoded or multipart/form-data, but the form data was either missing or syntactically invalid."
  | .InvalidPostType => "invalid_post_type: The method was called via a POST request, but the specified Content-Type was invalid. Valid types are: application/x-www-form-urlencoded multipart/form-data text/plain."
  | .MissingPostType => "missing_post_type: The method was called via a POST request and included a data payload, but the request did not include a Content-Type header."
  | .TeamAddedToOrg => "team_added_to_org: The team associated with your request is currently undergoing migration to an Enterprise Organization. Web API and other platform operations will be intermittently unavailable until the transition is complete."
  | .RequestTimeout => "request_timeout: The method was called via a POST request, but the POST data was either missing or truncated."
  | .MalformedResponse e => e
  | .Unknown s => s
  | .Client e => descE e

/-- The `fmt::Display` impl for `UnarchiveError<E>` writes `self.description()`. -/
def UnarchiveError.displayString {E : Type} (descE : E → String) (e : UnarchiveError E) : String :=
  UnarchiveError.description descE e

/-- The wire codes appearing in the `From<&str>` match of `UnarchiveError`. -/
def unarchiveKnownCodes : List String :=
  ["channel_not_found", "not_archived", "not_authed", "invalid_auth", "account_inactive", "user_is_bot", "user_is_restricted", "invalid_arg_name", "invalid_array_arg", "invalid_charset", "invalid_form_data", "invalid_post_type", "missing_post_type", "team_added_to_org", "request_timeout"]

/-- Each domain-error match arm of `UnarchiveError` together with its wire code and
the text that follows the code in its `description` string. -/
def unarchiveDescTable : List (UnarchiveError Unit × String × String) :=
  [(UnarchiveError.ChannelNotFound, "channel_not_found", "Value passed for channel was invalid."),
  (UnarchiveError.NotArchived, "not_archived", "Channel is not archived."),
  (UnarchiveError.NotAuthed, "not_authed", "No authentication token provided."),
  (UnarchiveError.InvalidAuth, "invalid_auth", "Invalid authentication token."),
  (UnarchiveError.AccountInactive, "account_inactive", "Authentication token is for a deleted user or team."),
  (UnarchiveError.UserIsBot, "user_is_bot", "This method cannot be called by a bot user."),
  (UnarchiveError.UserIsRestricted, "user_is_restricted", "This method cannot be called by a restricted user or single channel guest."),
  (UnarchiveError.InvalidArgName, "invalid_arg_name", "The method was passed an argument whose name falls outside the bounds of common decency. This includes very long names and names with non-alphanumeric characters other than _. If you get this error, it is typically an indication that you have made a very malformed API call."),
  (UnarchiveError.InvalidArrayArg, "invalid_array_arg", "The method was passed a PHP-style array argument (e.g. with a name like foo[7]). These are never valid with the Slack API."),
  (UnarchiveError.InvalidCharset, "invalid_charset", "The method was called via a POST request, but the charset specified in the Content-Type header was invalid. Valid charset names are: utf-8 iso-8859-1."),
  (UnarchiveError.InvalidFormData, "invalid_form_data", "The method was called via a POST request with Content-Type application/x-www-form-urlencoded or multipart/form-data, but the form data was either missing or syntactically invalid."),
  (UnarchiveError.InvalidPostType, "invalid_post_type", "The method was called via a POST request, but the specified Content-Type was invalid. Valid types are: application/x-www-form-urlencoded multipart/form-data text/plain."),
  (UnarchiveError.MissingPostType, "missing_post_type", "The method was called via a POST request and included a data payload, but the request did not include a Content-Type header."),
  (UnarchiveError.TeamAddedToOrg, "team_added_to_org", "The team associated with your request is currently undergoing migration to an Enterprise Organization. Web API and other platform operations will be intermittently unavailable until the transition is complete."),
  (UnarchiveError.RequestTimeout, "request_timeout", "The method was called via a POST request, but the POST data was either missing or truncated.")]

/-- serde_json decoding of `UnarchiveResponse`: every field optional except `ok`,
which `#[serde(default)]` makes default to `false` when absent. -/
def UnarchiveResponse.fromJson (j : Json) : Except String UnarchiveResponse :=
  match Json.expectObj j with
  | .error e => .error e
  | .ok fields =>
    match decodeOptString (jsonLookup fields "error") with
    | .error e => .error e
    | .ok error =>
      match decodeBoolDefaultFalse (jsonLookup fields "ok") with
      | .error e => .error e
      | .ok ok =>
        .ok ⟨error, ok⟩

/-- `serde_json::from_str::<UnarchiveResponse>`. -/
def UnarchiveResponse.decode (s : String) : Except String UnarchiveResponse :=
  serdeFromStr UnarchiveResponse.fromJson s

/-- The `Into<Result<UnarchiveResponse, UnarchiveError<E>>>` impl of channels.rs: `ok = true`
returns the full response, otherwise the error string (absent mapped to "")
is resolved through the code table. -/
def UnarchiveResponse.intoResult {E : Type} (self : UnarchiveResponse) :
    Except (UnarchiveError E) UnarchiveResponse :=
  if self.ok then .ok self
  else .error (UnarchiveError.fromStr (self.error.getD ""))

/-- The parameter list built by `unarchive` in channels.rs: a vector of optional
pairs run through `filter_map`. -/
def unarchiveParams (token : String) (request : UnarchiveRequest) : List (String × String) :=
  ([some ("token", token),
    some ("channel", request.channel)] : List (Option (String × String))).filterMap id

/-- The body of `pub fn unarchive` in channels.rs, with the response decoder taken as
a parameter so that independence from the decoder is expressible. -/
def unarchiveWith {E : Type} (decode : String → Except String UnarchiveResponse)
    (client : MockTransport E) (token : String) (request : UnarchiveRequest) :
    Except (UnarchiveError E) UnarchiveResponse × MockTransport E :=
  let params := unarchiveParams token request
  let url := get_slack_url_for_method "channels.unarchive"
  let sent := client.send url params
  (((sent.1.mapError UnarchiveError.Client).bind fun result =>
      ((decode result).mapError UnarchiveError.MalformedResponse).bind fun o =>
        UnarchiveResponse.intoResult o), sent.2)

/-- `pub fn unarchive` of channels.rs (channels.unarchive): build params, send once, decode,
then map the `ok`/`error` fields. -/
def unarchive {E : Type} (client : MockTransport E) (token : String)
    (request : UnarchiveRequest) : Except (UnarchiveError E) UnarchiveResponse × MockTransport E :=
  unarchiveWith UnarchiveResponse.decode client token request

/-- A response body whose only field is `"ok": true`. -/
def jsonOkTrueBody : String := "\x7b\"ok\":true\x7d"

/-- A response body reporting the `already_in_channel` failure. -/
def alreadyInChannelBody : String :=
  "\x7b\"ok\":false,\"error\":\"already_in_channel\"\x7d"

/-- A transport body that is not JSON at all. -/
def htmlBody : String := "<html>error</html>"

/-- A transport whose every response is the `already_in_channel` failure body. -/
def inviteScenarioClient : MockTransport Unit :=
  ⟨fun _ _ => Except.ok alreadyInChannelBody, []⟩

/-- Claim C1: for every endpoint, a decoded response with `ok = true` is returned
whole as success, whether or not an error string is present, and the error path
is taken exactly when `ok = false`. -/
theorem claim_C1 :
    (∀ r : ArchiveResponse,
      (r.ok = true → (ArchiveResponse.intoResult r : Except (ArchiveError Unit) ArchiveResponse) = Except.ok r) ∧
      ((∃ err, (ArchiveResponse.intoResult r : Except (ArchiveError Unit) ArchiveResponse) = Except.error err) ↔ r.ok = false)) ∧
    (∀ r : CreateResponse,
      (r.ok = true → (CreateResponse.intoResult r : Except (CreateError Unit) CreateResponse) = Except.ok r) ∧
      ((∃ err, (CreateResponse.intoResult r : Except (CreateError Unit) CreateResponse) = Except.error err) ↔ r.ok = false)) ∧
    (∀ r : HistoryResponse,
      (r.ok = true → (HistoryResponse.intoResult r : Except (HistoryError Unit) HistoryResponse) = Except.ok r) ∧
      ((∃ err, (HistoryResponse.intoResult r : Except (HistoryError Unit) HistoryResponse) = Except.error err) ↔ r.ok = false)) ∧
    (∀ r : InfoResponse,
      (r.ok = true → (InfoResponse.intoResult r : Except (InfoError Unit) InfoResponse) = Except.ok r) ∧
      ((∃ err, (InfoResponse.intoResult r : Except (InfoError Unit) InfoResponse) = Except.error err) ↔ r.ok = false)) ∧
    (∀ r : InviteResponse,
      (r.ok = true → (InviteResponse.intoResult r : Except (InviteError Unit) InviteResponse) = Except.ok r) ∧
      ((∃ err, (InviteResponse.intoResult r : Except (InviteError Unit) InviteResponse) = Except.error err) ↔ r.ok = false)) ∧
    (∀ r : JoinResponse,
      (r.ok = true → (JoinResponse.intoResult r : Except (JoinError Unit) JoinResponse) = Except.ok r) ∧
      ((∃ err, (JoinResponse.intoResult r : Except (JoinError Unit) JoinResponse) = Except.error err) ↔ r.ok = false)) ∧
    (∀ r : KickResponse,
      (r.ok = true → (KickResponse.intoResult r : Except (KickError Unit) KickResponse) = Except.ok r) ∧
      ((∃ err, (KickResponse.intoResult r : Except (KickError Unit) KickResponse) = Except.error err) ↔ r.ok = false)) ∧
    (∀ r : LeaveResponse,
      (r.ok = true → (LeaveResponse.intoResult r : Except (LeaveError Unit) LeaveResponse) = Except.ok r) ∧
      ((∃ err, (LeaveResponse.intoResult r : Except (LeaveError Unit) LeaveResponse) = Except.error err) ↔ r.ok = false)) ∧
    (∀ r : ListResponse,
      (r.ok = true → (ListResponse.intoResult r : Except (ListError Unit) ListResponse) = Except.ok r) ∧
      ((∃ err, (ListResponse.intoResult r : Except (ListError Unit) ListResponse) = Except.error err) ↔ r.ok = false)) ∧
    (∀ r : MarkResponse,
      (r.ok = true → (MarkResponse.intoResult r : Except (MarkError Unit) MarkResponse) = Except.ok r) ∧
      ((∃ err, (MarkResponse.intoResult r : Except (MarkError Unit) MarkResponse) = Except.error err) ↔ r.ok = false)) ∧
    (∀ r : RenameResponse,
      (r.ok = true → (RenameResponse.intoResult r : Except (RenameError Unit) RenameResponse) = Except.ok r) ∧
      ((∃ err, (RenameResponse.intoResult r : Except (RenameError Unit) RenameResponse) = Except.error err) ↔ r.ok = false)) ∧
    (∀ r : RepliesResponse,
      (r.ok = true → (RepliesResponse.intoResult r : Except (RepliesError Unit) RepliesResponse) = Except.ok r) ∧
      ((∃ err, (RepliesResponse.intoResult r : Except (RepliesError Unit) RepliesResponse) = Except.error err) ↔ r.ok = false)) ∧
    (∀ r : SetPurposeResponse,
      (r.ok = true → (SetPurposeResponse.intoResult r : Except (SetPurposeError Unit) SetPurposeResponse) = Except.ok r) ∧
      ((∃ err, (SetPurposeResponse.intoResult r : Except (SetPurposeError Unit) SetPurposeResponse) = Except.error err) ↔ r.ok = false)) ∧
    (∀ r : SetTopicResponse,
      (r.ok = true → (SetTopicResponse.intoResult r : Except (SetTopicError Unit) SetTopicResponse) = Except.ok r) ∧
      ((∃ err, (SetTopicResponse.intoResult r : Except (SetTopicError Unit) SetTopicResponse) = Except.error err) ↔ r.ok = false)) ∧
    (∀ r : UnarchiveResponse,
      (r.ok = true → (UnarchiveResponse.intoResult r : Except (UnarchiveError Unit) UnarchiveResponse) = Except.ok r) ∧
      ((∃ err, (UnarchiveResponse.intoResult r : Except (UnarchiveError Unit) UnarchiveResponse) = Except.error err) ↔ r.ok = false)) :=
  ⟨fun r =>
    ⟨fun h => by simp [ArchiveResponse.intoResult, h],
     by cases hok : r.ok <;> simp [ArchiveResponse.intoResult, hok]⟩,
   fun r =>
    ⟨fun h => by simp [CreateResponse.intoResult, h],
     by cases hok : r.ok <;> simp [CreateResponse.intoResult, hok]⟩,
   fun r =>
    ⟨fun h => by simp [HistoryResponse.intoResult, h],
     by cases hok : r.ok <;> simp [HistoryResponse.intoResult, hok]⟩,
   fun r =>
    ⟨fun h => by simp [InfoResponse.intoResult, h],
     by cases hok : r.ok <;> simp [InfoResponse.intoResult, hok]⟩,
   fun r =>
    ⟨fun h => by simp [InviteResponse.intoResult, h],
     by cases hok : r.ok <;> simp [InviteResponse.intoResult, hok]⟩,
   fun r =>
    ⟨fun h => by simp [JoinResponse.intoResult, h],
     by cases hok : r.ok <;> simp [JoinResponse.intoResult, hok]⟩,
   fun r =>
    ⟨fun h => by simp [KickResponse.intoResult, h],
     by cases hok : r.ok <;> simp [KickResponse.intoResult, hok]⟩,
   fun r =>
    ⟨fun h => by simp [LeaveResponse.intoResult, h],
     by cases hok : r.ok <;> simp [LeaveResponse.intoResult, hok]⟩,
   fun r =>
    ⟨fun h => by simp [ListResponse.intoResult, h],
     by cases hok : r.ok <;> simp [ListResponse.intoResult, hok]⟩,
   fun r =>
    ⟨fun h => by simp [MarkResponse.intoResult, h],
     by cases hok : r.ok <;> simp [MarkResponse.intoResult, hok]⟩,
   fun r =>
    ⟨fun h => by simp [RenameResponse.intoResult, h],
     by cases hok : r.ok <;> simp [RenameResponse.intoResult, hok]⟩,
   fun r =>
    ⟨fun h => by simp [RepliesResponse.intoResult, h],
     by cases hok : r.ok <;> simp [RepliesResponse.intoResult, hok]⟩,
   fun r =>
    ⟨fun h => by simp [SetPurposeResponse.intoResult, h],
     by cases hok : r.ok <;> simp [SetPurposeResponse.intoResult, hok]⟩,
   fun r =>
    ⟨fun h => by simp [SetTopicResponse.intoResult, h],
     by cases hok : r.ok <;> simp [SetTopicResponse.intoResult, hok]⟩,
   fun r =>
    ⟨fun h => by simp [UnarchiveResponse.intoResult, h],
     by cases hok : r.ok <;> simp [UnarchiveResponse.intoResult, hok]⟩⟩

/-- Witness for C1: a response carrying both `ok = true` and an error string is
still returned as success. -/
theorem claim_C1_witness :
    (ArchiveResponse.intoResult ⟨some "already_archived", true⟩ :
        Except (ArchiveError Unit) ArchiveResponse) =
      Except.ok ⟨some "already_archived", true⟩ :=
  (claim_C1.1 ⟨some "already_archived", true⟩).1 rfl

/-- Claim C2: for every endpoint, a code outside the known table resolves to
`Unknown` carrying the original string; an absent or empty error field is
looked up as the empty string and so resolves to `Unknown ""`. -/
theorem claim_C2 :
    (∀ s : String, s ∉ archiveKnownCodes → (ArchiveError.fromStr s : ArchiveError Unit) = ArchiveError.Unknown s) ∧
    (∀ s : String, s ∉ createKnownCodes → (CreateError.fromStr s : CreateError Unit) = CreateError.Unknown s) ∧
    (∀ s : String, s ∉ historyKnownCodes → (HistoryError.fromStr s : HistoryError Unit) = HistoryError.Unknown s) ∧
    (∀ s : String, s ∉ infoKnownCodes → (InfoError.fromStr s : InfoError Unit) = InfoError.Unknown s) ∧
    (∀ s : String, s ∉ inviteKnownCodes → (InviteError.fromStr s : InviteError Unit) = InviteError.Unknown s) ∧
    (∀ s : String, s ∉ joinKnownCodes → (JoinError.fromStr s : JoinError Unit) = JoinError.Unknown s) ∧
    (∀ s : String, s ∉ kickKnownCodes → (KickError.fromStr s : KickError Unit) = KickError.Unknown s) ∧
    (∀ s : String, s ∉ leaveKnownCodes → (LeaveError.fromStr s : LeaveError Unit) = LeaveError.Unknown s) ∧
    (∀ s : String, s ∉ listKnownCodes → (ListError.fromStr s : ListError Unit) = ListError.Unknown s) ∧
    (∀ s : String, s ∉ markKnownCodes → (MarkError.fromStr s : MarkError Unit) = MarkError.Unknown s) ∧
    (∀ s : String, s ∉ renameKnownCodes → (RenameError.fromStr s : RenameError Unit) = RenameError.Unknown s) ∧
    (∀ s : String, s ∉ repliesKnownCodes → (RepliesError.fromStr s : RepliesError Unit) = RepliesError.Unknown s) ∧
    (∀ s : String, s ∉ set_purposeKnownCodes → (SetPurposeError.fromStr s : SetPurposeError Unit) = SetPurposeError.Unknown s) ∧
    (∀ s : String, s ∉ set_topicKnownCodes → (SetTopicError.fromStr s : SetTopicError Unit) = SetTopicError.Unknown s) ∧
    (∀ s : String, s ∉ unarchiveKnownCodes → (UnarchiveError.fromStr s : UnarchiveError Unit) = UnarchiveError.Unknown s) ∧
    (∀ r : ArchiveResponse, r.ok = false → r.error = none ∨ r.error = some "" →
      (ArchiveResponse.intoResult r : Except (ArchiveError Unit) ArchiveResponse) = Except.error (ArchiveError.Unknown "")) ∧
    (∀ r : CreateResponse, r.ok = false → r.error = none ∨ r.error = some "" →
      (CreateResponse.intoResult r : Except (CreateError Unit) CreateResponse) = Except.error (CreateError.Unknown "")) ∧
    (∀ r : HistoryResponse, r.ok = false → r.error = none ∨ r.error = some "" →
      (HistoryResponse.intoResult r : Except (HistoryError Unit) HistoryResponse) = Except.error (HistoryError.Unknown "")) ∧
    (∀ r : InfoResponse, r.ok = false → r.error = none ∨ r.error = some "" →
      (InfoResponse.intoResult r : Except (InfoError Unit) InfoResponse) = Except.error (InfoError.Unknown "")) ∧
    (∀ r : InviteResponse, r.ok = false → r.error = none ∨ r.error = some "" →
      (InviteResponse.intoResult r : Except (InviteError Unit) InviteResponse) = Except.error (InviteError.Unknown "")) ∧
    (∀ r : JoinResponse, r.ok = false → r.error = none ∨ r.error = some "" →
      (JoinResponse.intoResult r : Except (JoinError Unit) JoinResponse) = Except.error (JoinError.Unknown "")) ∧
    (∀ r : KickResponse, r.ok = false → r.error = none ∨ r.error = some "" →
      (KickResponse.intoResult r : Except (KickError Unit) KickResponse) = Except.error (KickError.Unknown "")) ∧
    (∀ r : LeaveResponse, r.ok = false → r.error = none ∨ r.error = some "" →
      (LeaveResponse.intoResult r : Except (LeaveError Unit) LeaveResponse) = Except.error (LeaveError.Unknown "")) ∧
    (∀ r : ListResponse, r.ok = false → r.error = none ∨ r.error = some "" →
      (ListResponse.intoResult r : Except (ListError Unit) ListResponse) = Except.error (ListError.Unknown "")) ∧
    (∀ r : MarkResponse, r.ok = false → r.error = none ∨ r.error = some "" →
      (MarkResponse.intoResult r : Except (MarkError Unit) MarkResponse) = Except.error (MarkError.Unknown "")) ∧
    (∀ r : RenameResponse, r.ok = false → r.error = none ∨ r.error = some "" →
      (RenameResponse.intoResult r : Except (RenameError Unit) RenameResponse) = Except.error (RenameError.Unknown "")) ∧
    (∀ r : RepliesResponse, r.ok = false → r.error = none ∨ r.error = some "" →
      (RepliesResponse.intoResult r : Except (RepliesError Unit) RepliesResponse) = Except.error (RepliesError.Unknown "")) ∧
    (∀ r : SetPurposeResponse, r.ok = false → r.error = none ∨ r.error = some "" →
      (SetPurposeResponse.intoResult r : Except (SetPurposeError Unit) SetPurposeResponse) = Except.error (SetPurposeError.Unknown "")) ∧
    (∀ r : SetTopicResponse, r.ok = false → r.error = none ∨ r.error = some "" →
      (SetTopicResponse.intoResult r : Except (SetTopicError Unit) SetTopicResponse) = Except.error (SetTopicError.Unknown "")) ∧
    (∀ r : UnarchiveResponse, r.ok = false → r.error = none ∨ r.error = some "" →
      (UnarchiveResponse.intoResult r : Except (UnarchiveError Unit) UnarchiveResponse) = Except.error (UnarchiveError.Unknown "")) :=
  ⟨fun s hs => by
    simp only [archiveKnownCodes, not_or, List.not_mem_nil,
      List.mem_cons, or_false] at hs
    obtain ⟨k_channel_not_found, k_already_archived, k_cant_archive_general, k_restricted_action, k_not_authed, k_invalid_auth, k_account_inactive, k_user_is_bot, k_user_is_restricted, k_invalid_arg_name, k_invalid_array_arg, k_invalid_charset, k_invalid_form_data, k_invalid_post_type, k_missing_post_type, k_team_added_to_org, k_request_timeout⟩ := hs
    simp [ArchiveError.fromStr, k_channel_not_found, k_already_archived, k_cant_archive_general, k_restricted_action, k_not_authed, k_invalid_auth, k_account_inactive, k_user_is_bot, k_user_is_restricted, k_invalid_arg_name, k_invalid_array_arg, k_invalid_charset, k_invalid_form_data, k_invalid_post_type, k_missing_post_type, k_team_added_to_org, k_request_timeout],
   fun s hs => by
    simp only [createKnownCodes, not_or, List.not_mem_nil,
      List.mem_cons, or_false] at hs
    obtain ⟨k_name_taken, k_restricted_action, k_no_channel, k_invalid_name_required, k_invalid_name_punctuation, k_invalid_name_maxlength, k_invalid_name_specials, k_invalid_name, k_not_authed, k_invalid_auth, k_account_inactive, k_user_is_bot, k_user_is_restricted, k_invalid_arg_name, k_invalid_array_arg, k_invalid_charset, k_invalid_form_data, k_invalid_post_type, k_missing_post_type, k_team_added_to_org, k_request_timeout⟩ := hs
    simp [CreateError.fromStr, k_name_taken, k_restricted_action, k_no_channel, k_invalid_name_required, k_invalid_name_punctuation, k_invalid_name_maxlength, k_invalid_name_specials, k_invalid_name, k_not_authed, k_invalid_auth, k_account_inactive, k_user_is_bot, k_user_is_restricted, k_invalid_arg_name, k_invalid_array_arg, k_invalid_charset, k_invalid_form_data, k_invalid_post_type, k_missing_post_type, k_team_added_to_org, k_request_timeout],
   fun s hs => by
    simp only [historyKnownCodes, not_or, List.not_mem_nil,
      List.mem_cons, or_false] at hs
    obtain ⟨k_channel_not_found, k_invalid_ts_latest, k_invalid_ts_oldest, k_not_authed, k_invalid_auth, k_account_inactive, k_invalid_arg_name, k_invalid_array_arg, k_invalid_charset, k_invalid_form_data, k_invalid_post_type, k_missing_post_type, k_team_added_to_org, k_request_timeout⟩ := hs
    simp [HistoryError.fromStr, k_channel_not_found, k_invalid_ts_latest, k_invalid_ts_oldest, k_not_authed, k_invalid_auth, k_account_inactive, k_invalid_arg_name, k_invalid_array_arg, k_invalid_charset, k_invalid_form_data, k_invalid_post_type, k_missing_post_type, k_team_added_to_org, k_request_timeout],
   fun s hs => by
    simp only [infoKnownCodes, not_or, List.not_mem_nil,
      List.mem_cons, or_false] at hs
    obtain ⟨k_channel_not_found, k_not_authed, k_invalid_auth, k_account_inactive, k_invalid_arg_name, k_invalid_array_arg, k_invalid_charset, k_invalid_form_data, k_invalid_post_type, k_missing_post_type, k_team_added_to_org, k_request_timeout⟩ := hs
    simp [InfoError.fromStr, k_channel_not_found, k_not_authed, k_invalid_auth, k_account_inactive, k_invalid_arg_name, k_invalid_array_arg, k_invalid_charset, k_invalid_form_data, k_invalid_post_type, k_missing_post_type, k_team_added_to_org, k_request_timeout],
   fun s hs => by
    simp only [inviteKnownCodes, not_or, List.not_mem_nil,
      List.mem_cons, or_false] at hs
    obtain ⟨k_channel_not_found, k_user_not_found, k_cant_invite_self, k_not_in_channel, k_already_in_channel, k_is_archived, k_cant_invite, k_ura_max_channels, k_not_authed, k_invalid_auth, k_account_inactive, k_user_is_bot, k_user_is_ultra_restricted, k_invalid_arg_name, k_invalid_array_arg, k_invalid_charset, k_invalid_form_data, k_invalid_post_type, k_missing_post_type, k_team_added_to_org, k_request_timeout⟩ := hs
    simp [InviteError.fromStr, k_channel_not_found, k_user_not_found, k_cant_invite_self, k_not_in_channel, k_already_in_channel, k_is_archived, k_cant_invite, k_ura_max_channels, k_not_authed, k_invalid_auth, k_account_inactive, k_user_is_bot, k_user_is_ultra_restricted, k_invalid_arg_name, k_invalid_array_arg, k_invalid_charset, k_invalid_form_data, k_invalid_post_type, k_missing_post_type, k_team_added_to_org, k_request_timeout],
   fun s hs => by
    simp only [joinKnownCodes, not_or, List.not_mem_nil,
      List.mem_cons, or_false] at hs
    obtain ⟨k_channel_not_found, k_name_taken, k_restricted_action, k_no_channel, k_is_archived, k_invalid_name_required, k_invalid_name_punctuation, k_invalid_name_maxlength, k_invalid_name_specials, k_invalid_name, k_not_authed, k_invalid_auth, k_account_inactive, k_user_is_bot, k_user_is_restricted, k_invalid_arg_name, k_invalid_array_arg, k_invalid_charset, k_invalid_form_data, k_invalid_post_type, k_missing_post_type, k_team_added_to_org, k_request_timeout⟩ := hs
    simp [JoinError.fromStr, k_channel_not_found, k_name_taken, k_restricted_action, k_no_channel, k_is_archived, k_invalid_name_required, k_invalid_name_punctuation, k_invalid_name_maxlength, k_invalid_name_specials, k_invalid_name, k_not_authed, k_invalid_auth, k_account_inactive, k_user_is_bot, k_user_is_restricted, k_invalid_arg_name, k_invalid_array_arg, k_invalid_charset, k_invalid_form_data, k_invalid_post_type, k_missing_post_type, k_team_added_to_org, k_request_timeout],
   fun s hs => by
    simp only [kickKnownCodes, not_or, List.not_mem_nil,
      List.mem_cons, or_false] at hs
    obtain ⟨k_channel_not_found, k_user_not_found, k_cant_kick_self, k_not_in_channel, k_cant_kick_from_general, k_restricted_action, k_not_authed, k_invalid_auth, k_account_inactive, k_user_is_bot, k_user_is_restricted, k_invalid_arg_name, k_invalid_array_arg, k_invalid_charset, k_invalid_form_data, k_invalid_post_type, k_missing_post_type, k_team_added_to_org, k_request_timeout⟩ := hs
    simp [KickError.fromStr, k_channel_not_found, k_user_not_found, k_cant_kick_self, k_not_in_channel, k_cant_kick_from_general, k_restricted_action, k_not_authed, k_invalid_auth, k_account_inactive, k_user_is_bot, k_user_is_restricted, k_invalid_arg_name, k_invalid_array_arg, k_invalid_charset, k_invalid_form_data, k_invalid_post_type, k_missing_post_type, k_team_added_to_org, k_request_timeout],
   fun s hs => by
    simp only [leaveKnownCodes, not_or, List.not_mem_nil,
      List.mem_cons, or_false] at hs
    obtain ⟨k_channel_not_found, k_is_archived, k_cant_leave_general, k_not_authed, k_invalid_auth, k_account_inactive, k_user_is_bot, k_user_is_restricted, k_invalid_arg_name, k_invalid_array_arg, k_invalid_charset, k_invalid_form_data, k_invalid_post_type, k_missing_post_type, k_team_added_to_org, k_request_timeout⟩ := hs
    simp [LeaveError.fromStr, k_channel_not_found, k_is_archived, k_cant_leave_general, k_not_authed, k_invalid_auth, k_account_inactive, k_user_is_bot, k_user_is_restricted, k_invalid_arg_name, k_invalid_array_arg, k_invalid_charset, k_invalid_form_data, k_invalid_post_type, k_missing_post_type, k_team_added_to_org, k_request_timeout],
   fun s hs => by
    simp only [listKnownCodes, not_or, List.not_mem_nil,
      List.mem_cons, or_false] at hs
    obtain ⟨k_not_authed, k_invalid_auth, k_account_inactive, k_invalid_arg_name, k_invalid_array_arg, k_invalid_charset, k_invalid_form_data, k_invalid_post_type, k_missing_post_type, k_team_added_to_org, k_request_timeout⟩ := hs
    simp [ListError.fromStr, k_not_authed, k_invalid_auth, k_account_inactive, k_invalid_arg_name, k_invalid_array_arg, k_invalid_charset, k_invalid_form_data, k_invalid_post_type, k_missing_post_type, k_team_added_to_org, k_request_timeout],
   fun s hs => by
    simp only [markKnownCodes, not_or, List.not_mem_nil,
      List.mem_cons, or_false] at hs
    obtain ⟨k_channel_not_found, k_invalid_timestamp, k_not_in_channel, k_not_authed, k_invalid_auth, k_account_inactive, k_invalid_arg_name, k_invalid_array_arg, k_invalid_charset, k_invalid_form_data, k_invalid_post_type, k_missing_post_type, k_team_added_to_org, k_request_timeout⟩ := hs
    simp [MarkError.fromStr, k_channel_not_found, k_invalid_timestamp, k_not_in_channel, k_not_authed, k_invalid_auth, k_account_inactive, k_invalid_arg_name, k_invalid_array_arg, k_invalid_charset, k_invalid_form_data, k_invalid_post_type, k_missing_post_type, k_team_added_to_org, k_request_timeout],
   fun s hs => by
    simp only [renameKnownCodes, not_or, List.not_mem_nil,
      List.mem_cons, or_false] at hs
    obtain ⟨k_channel_not_found, k_not_in_channel, k_not_authorized, k_invalid_name, k_name_taken, k_invalid_name_required, k_invalid_name_punctuation, k_invalid_name_maxlength, k_invalid_name_specials, k_not_authed, k_invalid_auth, k_account_inactive, k_user_is_bot, k_user_is_restricted, k_invalid_arg_name, k_invalid_array_arg, k_invalid_charset, k_invalid_form_data, k_invalid_post_type, k_missing_post_type, k_team_added_to_org, k_request_timeout⟩ := hs
    simp [RenameError.fromStr, k_channel_not_found, k_not_in_channel, k_not_authorized, k_invalid_name, k_name_taken, k_invalid_name_required, k_invalid_name_punctuation, k_invalid_name_maxlength, k_invalid_name_specials, k_not_authed, k_invalid_auth, k_account_inactive, k_user_is_bot, k_user_is_restricted, k_invalid_arg_name, k_invalid_array_arg, k_invalid_charset, k_invalid_form_data, k_invalid_post_type, k_missing_post_type, k_team_added_to_org, k_request_timeout],
   fun s hs => by
    simp only [repliesKnownCodes, not_or, List.not_mem_nil,
      List.mem_cons, or_false] at hs
    obtain ⟨k_channel_not_found, k_thread_not_found, k_not_authed, k_invalid_auth, k_account_inactive, k_invalid_arg_name, k_invalid_array_arg, k_invalid_charset, k_invalid_form_data, k_invalid_post_type, k_missing_post_type, k_team_added_to_org, k_request_timeout⟩ := hs
    simp [RepliesError.fromStr, k_channel_not_found, k_thread_not_found, k_not_authed, k_invalid_auth, k_account_inactive, k_invalid_arg_name, k_invalid_array_arg, k_invalid_charset, k_invalid_form_data, k_invalid_post_type, k_missing_post_type, k_team_added_to_org, k_request_timeout],
   fun s hs => by
    simp only [set_purposeKnownCodes, not_or, List.not_mem_nil,
      List.mem_cons, or_false] at hs
    obtain ⟨k_channel_not_found, k_not_in_channel, k_is_archived, k_too_long, k_user_is_restricted, k_not_authed, k_invalid_auth, k_account_inactive, k_invalid_arg_name, k_invalid_array_arg, k_invalid_charset, k_invalid_form_data, k_invalid_post_type, k_missing_post_type, k_team_added_to_org, k_request_timeout⟩ := hs
    simp [SetPurposeError.fromStr, k_channel_not_found, k_not_in_channel, k_is_archived, k_too_long, k_user_is_restricted, k_not_authed, k_invalid_auth, k_account_inactive, k_invalid_arg_name, k_invalid_array_arg, k_invalid_charset, k_invalid_form_data, k_invalid_post_type, k_missing_post_type, k_team_added_to_org, k_request_timeout],
   fun s hs => by
    simp only [set_topicKnownCodes, not_or, List.not_mem_nil,
      List.mem_cons, or_false] at hs
    obtain ⟨k_channel_not_found, k_not_in_channel, k_is_archived, k_too_long, k_user_is_restricted, k_not_authed, k_invalid_auth, k_account_inactive, k_invalid_arg_name, k_invalid_array_arg, k_invalid_charset, k_invalid_form_data, k_invalid_post_type, k_missing_post_type, k_team_added_to_org, k_request_timeout⟩ := hs
    simp [SetTopicError.fromStr, k_channel_not_found, k_not_in_channel, k_is_archived, k_too_long, k_user_is_restricted, k_not_authed, k_invalid_auth, k_account_inactive, k_invalid_arg_name, k_invalid_array_arg, k_invalid_charset, k_invalid_form_data, k_invalid_post_type, k_missing_post_type, k_team_added_to_org, k_request_timeout],
   fun s hs => by
    simp only [unarchiveKnownCodes, not_or, List.not_mem_nil,
      List.mem_cons, or_false] at hs
    obtain ⟨k_channel_not_found, k_not_archived, k_not_authed, k_invalid_auth, k_account_inactive, k_user_is_bot, k_user_is_restricted, k_invalid_arg_name, k_invalid_array_arg, k_invalid_charset, k_invalid_form_data, k_invalid_post_type, k_missing_post_type, k_team_added_to_org, k_request_timeout⟩ := hs
    simp [UnarchiveError.fromStr, k_channel_not_found, k_not_archived, k_not_authed, k_invalid_auth, k_account_inactive, k_user_is_bot, k_user_is_restricted, k_invalid_arg_name, k_invalid_array_arg, k_invalid_charset, k_invalid_form_data, k_invalid_post_type, k_missing_post_type, k_team_added_to_org, k_request_timeout],
   fun r hok h => by
    rcases h with h | h <;> simp [ArchiveResponse.intoResult, ArchiveError.fromStr, hok, h],
   fun r hok h => by
    rcases h with h | h <;> simp [CreateResponse.intoResult, CreateError.fromStr, hok, h],
   fun r hok h => by
    rcases h with h | h <;> simp [HistoryResponse.intoResult, HistoryError.fromStr, hok, h],
   fun r hok h => by
    rcases h with h | h <;> simp [InfoResponse.intoResult, InfoError.fromStr, hok, h],
   fun r hok h => by
    rcases h with h | h <;> simp [InviteResponse.intoResult, InviteError.fromStr, hok, h],
   fun r hok h => by
    rcases h with h | h <;> simp [JoinResponse.intoResult, JoinError.fromStr, hok, h],
   fun r hok h => by
    rcases h with h | h <;> simp [KickResponse.intoResult, KickError.fromStr, hok, h],
   fun r hok h => by
    rcases h with h | h <;> simp [LeaveResponse.intoResult, LeaveError.fromStr, hok, h],
   fun r hok h => by
    rcases h with h | h <;> simp [ListResponse.intoResult, ListError.fromStr, hok, h],
   fun r hok h => by
    rcases h with h | h <;> simp [MarkResponse.intoResult, MarkError.fromStr, hok, h],
   fun r hok h => by
    rcases h with h | h <;> simp [RenameResponse.intoResult, RenameError.fromStr, hok, h],
   fun r hok h => by
    rcases h with h | h <;> simp [RepliesResponse.intoResult, RepliesError.fromStr, hok, h],
   fun r hok h => by
    rcases h with h | h <;> simp [SetPurposeResponse.intoResult, SetPurposeError.fromStr, hok, h],
   fun r hok h => by
    rcases h with h | h <;> simp [SetTopicResponse.intoResult, SetTopicError.fromStr, hok, h],
   fun r hok h => by
    rcases h with h | h <;> simp [UnarchiveResponse.intoResult, UnarchiveError.fromStr, hok, h]⟩

/-- Witness for C2: the future code of the spec example resolves to `Unknown`,
and a failed response without an error field resolves to `Unknown ""`. -/
theorem claim_C2_witness :
    (ArchiveError.fromStr "some_future_code_xyz" : ArchiveError Unit) =
      ArchiveError.Unknown "some_future_code_xyz" ∧
    (ArchiveResponse.intoResult ⟨none, false⟩ :
        Except (ArchiveError Unit) ArchiveResponse) =
      Except.error (ArchiveError.Unknown "") :=
  ⟨claim_C2.1 "some_future_code_xyz" (by decide),
   claim_C2.2.2.2.2.2.2.2.2.2.2.2.2.2.2.2.1 ⟨none, false⟩ rfl (Or.inl rfl)⟩

/-- Evaluation fact used by C3: the `ok: true` body decodes for channels.archive. -/
theorem archiveDecode_ok_true :
    ArchiveResponse.decode jsonOkTrueBody = Except.ok ⟨none, true⟩ := rfl

/-- Evaluation fact used by C3: the `ok: true` body decodes for channels.create. -/
theorem createDecode_ok_true :
    CreateResponse.decode jsonOkTrueBody = Except.ok ⟨none, none, true⟩ := rfl

/-- Evaluation fact used by C3: the `ok: true` body decodes for channels.history. -/
theorem historyDecode_ok_true :
    HistoryResponse.decode jsonOkTrueBody = Except.ok ⟨none, none, none, none, true⟩ := rfl

/-- Evaluation fact used by C3: the `ok: true` body decodes for channels.info. -/
theorem infoDecode_ok_true :
    InfoResponse.decode jsonOkTrueBody = Except.ok ⟨none, none, true⟩ := rfl

/-- Evaluation fact used by C3: the `ok: true` body decodes for channels.invite. -/
theorem inviteDecode_ok_true :
    InviteResponse.decode jsonOkTrueBody = Except.ok ⟨none, none, true⟩ := rfl

/-- Evaluation fact used by C3: the `ok: true` body decodes for channels.join. -/
theorem joinDecode_ok_true :
    JoinResponse.decode jsonOkTrueBody = Except.ok ⟨none, none, true⟩ := rfl

/-- Evaluation fact used by C3: the `ok: true` body decodes for channels.kick. -/
theorem kickDecode_ok_true :
    KickResponse.decode jsonOkTrueBody = Except.ok ⟨none, true⟩ := rfl

/-- Evaluation fact used by C3: the `ok: true` body decodes for channels.leave. -/
theorem leaveDecode_ok_true :
    LeaveResponse.decode jsonOkTrueBody = Except.ok ⟨none, true⟩ := rfl

/-- Evaluation fact used by C3: the `ok: true` body decodes for channels.list. -/
theorem listDecode_ok_true :
    ListResponse.decode jsonOkTrueBody = Except.ok ⟨none, none, true⟩ := rfl

/-- Evaluation fact used by C3: the `ok: true` body decodes for channels.mark. -/
theorem markDecode_ok_true :
    MarkResponse.decode jsonOkTrueBody = Except.ok ⟨none, true⟩ := rfl

/-- Evaluation fact used by C3: the `ok: true` body decodes for channels.rename. -/
theorem renameDecode_ok_true :
    RenameResponse.decode jsonOkTrueBody = Except.ok ⟨none, none, true⟩ := rfl

/-- Evaluation fact used by C3: the `ok: true` body decodes for channels.replies. -/
theorem repliesDecode_ok_true :
    RepliesResponse.decode jsonOkTrueBody = Except.ok ⟨none, none, true, none⟩ := rfl

/-- Evaluation fact used by C3: the `ok: true` body decodes for channels.setPurpose. -/
theorem set_purposeDecode_ok_true :
    SetPurposeResponse.decode jsonOkTrueBody = Except.ok ⟨none, true, none⟩ := rfl

/-- Evaluation fact used by C3: the `ok: true` body decodes for channels.setTopic. -/
theorem set_topicDecode_ok_true :
    SetTopicResponse.decode jsonOkTrueBody = Except.ok ⟨none, true, none⟩ := rfl

/-- Evaluation fact used by C3: the `ok: true` body decodes for channels.unarchive. -/
theorem unarchiveDecode_ok_true :
    UnarchiveResponse.decode jsonOkTrueBody = Except.ok ⟨none, true⟩ := rfl

/-- Claim C3: documented codes map to their variants (`channel_not_found` to
`ChannelNotFound` for archive, `already_in_channel` to `AlreadyInChannel` for
invite); a body with `ok: true` and no error field decodes, for every
endpoint, to a success value with `ok = true`; and the end-to-end invite
scenario returns the `AlreadyInChannel` variant. -/
theorem claim_C3 :
    ((ArchiveError.fromStr "channel_not_found" : ArchiveError Unit) =
      ArchiveError.ChannelNotFound) ∧
    ((InviteError.fromStr "already_in_channel" : InviteError Unit) =
      InviteError.AlreadyInChannel) ∧
    (ArchiveResponse.decode jsonOkTrueBody = Except.ok ⟨none, true⟩) ∧
    (CreateResponse.decode jsonOkTrueBody = Except.ok ⟨none, none, true⟩) ∧
    (HistoryResponse.decode jsonOkTrueBody = Except.ok ⟨none, none, none, none, true⟩) ∧
    (InfoResponse.decode jsonOkTrueBody = Except.ok ⟨none, none, true⟩) ∧
    (InviteResponse.decode jsonOkTrueBody = Except.ok ⟨none, none, true⟩) ∧
    (JoinResponse.decode jsonOkTrueBody = Except.ok ⟨none, none, true⟩) ∧
    (KickResponse.decode jsonOkTrueBody = Except.ok ⟨none, true⟩) ∧
    (LeaveResponse.decode jsonOkTrueBody = Except.ok ⟨none, true⟩) ∧
    (ListResponse.decode jsonOkTrueBody = Except.ok ⟨none, none, true⟩) ∧
    (MarkResponse.decode jsonOkTrueBody = Except.ok ⟨none, true⟩) ∧
    (RenameResponse.decode jsonOkTrueBody = Except.ok ⟨none, none, true⟩) ∧
    (RepliesResponse.decode jsonOkTrueBody = Except.ok ⟨none, none, true, none⟩) ∧
    (SetPurposeResponse.decode jsonOkTrueBody = Except.ok ⟨none, true, none⟩) ∧
    (SetTopicResponse.decode jsonOkTrueBody = Except.ok ⟨none, true, none⟩) ∧
    (UnarchiveResponse.decode jsonOkTrueBody = Except.ok ⟨none, true⟩) ∧
    ((invite inviteScenarioClient "token" ⟨"C1", "U1"⟩).1 =
      Except.error InviteError.AlreadyInChannel) :=
  ⟨rfl, rfl, archiveDecode_ok_true, createDecode_ok_true, historyDecode_ok_true, infoDecode_ok_true, inviteDecode_ok_true, joinDecode_ok_true, kickDecode_ok_true, leaveDecode_ok_true, listDecode_ok_true, markDecode_ok_true, renameDecode_ok_true, repliesDecode_ok_true, set_purposeDecode_ok_true, set_topicDecode_ok_true, unarchiveDecode_ok_true, rfl⟩

/-- Claim C4: for every endpoint, a transport error `e` makes the call return
exactly `Client e`, after exactly one logged `send` and with a result that is
independent of the response decoder (so no parsing or code resolution). -/
theorem claim_C4 :
    (∀ (E : Type) (client : MockTransport E) (token : String)
      (request : ArchiveRequest) (e : E),
      client.respond (get_slack_url_for_method "channels.archive")
          (archiveParams token request) = Except.error e →
      archive client token request =
        (Except.error (ArchiveError.Client e),
         ⟨client.respond,
          client.calls ++ [(get_slack_url_for_method "channels.archive",
            archiveParams token request)]⟩) ∧
      ∀ dec, archiveWith dec client token request = archive client token request) ∧
    (∀ (E : Type) (client : MockTransport E) (token : String)
      (request : CreateRequest) (e : E),
      client.respond (get_slack_url_for_method "channels.create")
          (createParams token request) = Except.error e →
      create client token request =
        (Except.error (CreateError.Client e),
         ⟨client.respond,
          client.calls ++ [(get_slack_url_for_method "channels.create",
            createParams token request)]⟩) ∧
      ∀ dec, createWith dec client token request = create client token request) ∧
    (∀ (E : Type) (client : MockTransport E) (token : String)
      (request : HistoryRequest) (e : E),
      client.respond (get_slack_url_for_method "channels.history")
          (historyParams token request) = Except.error e →
      history client token request =
        (Except.error (HistoryError.Client e),
         ⟨client.respond,
          client.calls ++ [(get_slack_url_for_method "channels.history",
            historyParams token request)]⟩) ∧
      ∀ dec, historyWith dec client token request = history client token request) ∧
    (∀ (E : Type) (client : MockTransport E) (token : String)
      (request : InfoRequest) (e : E),
      client.respond (get_slack_url_for_method "channels.info")
          (infoParams token request) = Except.error e →
      info client token request =
        (Except.error (InfoError.Client e),
         ⟨client.respond,
          client.calls ++ [(get_slack_url_for_method "channels.info",
            infoParams token request)]⟩) ∧
      ∀ dec, infoWith dec client token request = info client token request) ∧
    (∀ (E : Type) (client : MockTransport E) (token : String)
      (request : InviteRequest) (e : E),
      client.respond (get_slack_url_for_method "channels.invite")
          (inviteParams token request) = Except.error e →
      invite client token request =
        (Except.error (InviteError.Client e),
         ⟨client.respond,
          client.calls ++ [(get_slack_url_for_method "channels.invite",
            inviteParams token request)]⟩) ∧
      ∀ dec, inviteWith dec client token request = invite client token request) ∧
    (∀ (E : Type) (client : MockTransport E) (token : String)
      (request : JoinRequest) (e : E),
      client.respond (get_slack_url_for_method "channels.join")
          (joinParams token request) = Except.error e →
      join client token request =
        (Except.error (JoinError.Client e),
         ⟨client.respond,
          client.calls ++ [(get_slack_url_for_method "channels.join",
            joinParams token request)]⟩) ∧
      ∀ dec, joinWith dec client token request = join client token request) ∧
    (∀ (E : Type) (client : MockTransport E) (token : String)
      (request : KickRequest) (e : E),
      client.respond (get_slack_url_for_method "channels.kick")
          (kickParams token request) = Except.error e →
      kick client token request =
        (Except.error (KickError.Client e),
         ⟨client.respond,
          client.calls ++ [(get_slack_url_for_method "channels.kick",
            kickParams token request)]⟩) ∧
      ∀ dec, kickWith dec client token request = kick client token request) ∧
    (∀ (E : Type) (client : MockTransport E) (token : String)
      (request : LeaveRequest) (e : E),
      client.respond (get_slack_url_for_method "channels.leave")
          (leaveParams token request) = Except.error e →
      leave client token request =
        (Except.error (LeaveError.Client e),
         ⟨client.respond,
          client.calls ++ [(get_slack_url_for_method "channels.leave",
            leaveParams token request)]⟩) ∧
      ∀ dec, leaveWith dec client token request = leave client token request) ∧
    (∀ (E : Type) (client : MockTransport E) (token : String)
      (request : ListRequest) (e : E),
      client.respond (get_slack_url_for_method "channels.list")
          (listParams token request) = Except.error e →
      list client token request =
        (Except.error (ListError.Client e),
         ⟨client.respond,
          client.calls ++ [(get_slack_url_for_method "channels.list",
            listParams token request)]⟩) ∧
      ∀ dec, listWith dec client token request = list client token request) ∧
    (∀ (E : Type) (client : MockTransport E) (token : String)
      (request : MarkRequest) (e : E),
      client.respond (get_slack_url_for_method "channels.mark")
          (markParams token request) = Except.error e →
      mark client token request =
        (Except.error (MarkError.Client e),
         ⟨client.respond,
          client.calls ++ [(get_slack_url_for_method "channels.mark",
            markParams token request)]⟩) ∧
      ∀ dec, markWith dec client token request = mark client token request) ∧
    (∀ (E : Type) (client : MockTransport E) (token : String)
      (request : RenameRequest) (e : E),
      client.respond (get_slack_url_for_method "channels.rename")
          (renameParams token request) = Except.error e →
      rename client token request =
        (Except.error (RenameError.Client e),
         ⟨client.respond,
          client.calls ++ [(get_slack_url_for_method "channels.rename",
            renameParams token request)]⟩) ∧
      ∀ dec, renameWith dec client token request = rename client token request) ∧
    (∀ (E : Type) (client : MockTransport E) (token : String)
      (request : RepliesRequest) (e : E),
      client.respond (get_slack_url_for_method "channels.replies")
          (repliesParams token request) = Except.error e →
      replies client token request =
        (Except.error (RepliesError.Client e),
         ⟨client.respond,
          client.calls ++ [(get_slack_url_for_method "channels.replies",
            repliesParams token request)]⟩) ∧
      ∀ dec, repliesWith dec client token request = replies client token request) ∧
    (∀ (E : Type) (client : MockTransport E) (token : String)
      (request : SetPurposeRequest) (e : E),
      client.respond (get_slack_url_for_method "channels.setPurpose")
          (set_purposeParams token request) = Except.error e →
      set_purpose client token request =
        (Except.error (SetPurposeError.Client e),
         ⟨client.respond,
          client.calls ++ [(get_slack_url_for_method "channels.setPurpose",
            set_purposeParams token request)]⟩) ∧
      ∀ dec, set_purposeWith dec client token request = set_purpose client token request) ∧
    (∀ (E : Type) (client : MockTransport E) (token : String)
      (request : SetTopicRequest) (e : E),
      client.respond (get_slack_url_for_method "channels.setTopic")
          (set_topicParams token request) = Except.error e →
      set_topic client token request =
        (Except.error (SetTopicError.Client e),
         ⟨client.respond,
          client.calls ++ [(get_slack_url_for_method "channels.setTopic",
            set_topicParams token request)]⟩) ∧
      ∀ dec, set_topicWith dec client token request = set_topic client token request) ∧
    (∀ (E : Type) (client : MockTransport E) (token : String)
      (request : UnarchiveRequest) (e : E),
      client.respond (get_slack_url_for_method "channels.unarchive")
          (unarchiveParams token request) = Except.error e →
      unarchive client token request =
        (Except.error (UnarchiveError.Client e),
         ⟨client.respond,
          client.calls ++ [(get_slack_url_for_method "channels.unarchive",
            unarchiveParams token request)]⟩) ∧
      ∀ dec, unarchiveWith dec client token request = unarchive client token request) :=
  ⟨fun E client token request e h =>
    ⟨by simp [archive, archiveWith, MockTransport.send, Except.mapError, Except.bind, h],
     fun dec => by
      simp [archive, archiveWith, MockTransport.send, Except.mapError, Except.bind, h]⟩,
   fun E client token request e h =>
    ⟨by simp [create, createWith, MockTransport.send, Except.mapError, Except.bind, h],
     fun dec => by
      simp [create, createWith, MockTransport.send, Except.mapError, Except.bind, h]⟩,
   fun E client token request e h =>
    ⟨by simp [history, historyWith, MockTransport.send, Except.mapError, Except.bind, h],
     fun dec => by
      simp [history, historyWith, MockTransport.send, Except.mapError, Except.bind, h]⟩,
   fun E client token request e h =>
    ⟨by simp [info, infoWith, MockTransport.send, Except.mapError, Except.bind, h],
     fun dec => by
      simp [info, infoWith, MockTransport.send, Except.mapError, Except.bind, h]⟩,
   fun E client token request e h =>
    ⟨by simp [invite, inviteWith, MockTransport.send, Except.mapError, Except.bind, h],
     fun dec => by
      simp [invite, inviteWith, MockTransport.send, Except.mapError, Except.bind, h]⟩,
   fun E client token request e h =>
    ⟨by simp [join, joinWith, MockTransport.send, Except.mapError, Except.bind, h],
     fun dec => by
      simp [join, joinWith, MockTransport.send, Except.mapError, Except.bind, h]⟩,
   fun E client token request e h =>
    ⟨by simp [kick, kickWith, MockTransport.send, Except.mapError, Except.bind, h],
     fun dec => by
      simp [kick, kickWith, MockTransport.send, Except.mapError, Except.bind, h]⟩,
   fun E client token request e h =>
    ⟨by simp [leave, leaveWith, MockTransport.send, Except.mapError, Except.bind, h],
     fun dec => by
      simp [leave, leaveWith, MockTransport.send, Except.mapError, Except.bind, h]⟩,
   fun E client token request e h =>
    ⟨by simp [list, listWith, MockTransport.send, Except.mapError, Except.bind, h],
     fun dec => by
      simp [list, listWith, MockTransport.send, Except.mapError, Except.bind, h]⟩,
   fun E client token request e h =>
    ⟨by simp [mark, markWith, MockTransport.send, Except.mapError, Except.bind, h],
     fun dec => by
      simp [mark, markWith, MockTransport.send, Except.mapError, Except.bind, h]⟩,
   fun E client token request e h =>
    ⟨by simp [rename, renameWith, MockTransport.send, Except.mapError, Except.bind, h],
     fun dec => by
      simp [rename, renameWith, MockTransport.send, Except.mapError, Except.bind, h]⟩,
   fun E client token request e h =>
    ⟨by simp [replies, repliesWith, MockTransport.send, Except.mapError, Except.bind, h],
     fun dec => by
      simp [replies, repliesWith, MockTransport.send, Except.mapError, Except.bind, h]⟩,
   fun E client token request e h =>
    ⟨by simp [set_purpose, set_purposeWith, MockTransport.send, Except.mapError, Except.bind, h],
     fun dec => by
      simp [set_purpose, set_purposeWith, MockTransport.send, Except.mapError, Except.bind, h]⟩,
   fun E client token request e h =>
    ⟨by simp [set_topic, set_topicWith, MockTransport.send, Except.mapError, Except.bind, h],
     fun dec => by
      simp [set_topic, set_topicWith, MockTransport.send, Except.mapError, Except.bind, h]⟩,
   fun E client token request e h =>
    ⟨by simp [unarchive, unarchiveWith, MockTransport.send, Except.mapError, Except.bind, h],
     fun dec => by
      simp [unarchive, unarchiveWith, MockTransport.send, Except.mapError, Except.bind, h]⟩⟩

/-- Witness for C4: a transport that always fails makes `archive` return the
`Client` variant after a single logged send. -/
theorem claim_C4_witness :
    archive (⟨fun _ _ => Except.error (), []⟩ : MockTransport Unit) "t" ⟨"c"⟩ =
      (Except.error (ArchiveError.Client ()),
       ⟨fun _ _ => Except.error (),
        [(get_slack_url_for_method "channels.archive", archiveParams "t" ⟨"c"⟩)]⟩) :=
  (claim_C4.1 Unit ⟨fun _ _ => Except.error (), []⟩ "t" ⟨"c"⟩ () rfl).1

/-- Claim C5: for every endpoint, a body the decoder rejects makes the call
return `MalformedResponse` carrying the decode failure, never a default; the
non-JSON example body indeed fails to parse. -/
theorem claim_C5 :
    (∀ (E : Type) (client : MockTransport E) (token : String)
      (request : ArchiveRequest) (body msg : String),
      client.respond (get_slack_url_for_method "channels.archive")
          (archiveParams token request) = Except.ok body →
      ArchiveResponse.decode body = Except.error msg →
      (archive client token request).1 = Except.error (ArchiveError.MalformedResponse msg)) ∧
    (∀ (E : Type) (client : MockTransport E) (token : String)
      (request : CreateRequest) (body msg : String),
      client.respond (get_slack_url_for_method "channels.create")
          (createParams token request) = Except.ok body →
      CreateResponse.decode body = Except.error msg →
      (create client token request).1 = Except.error (CreateError.MalformedResponse msg)) ∧
    (∀ (E : Type) (client : MockTransport E) (token : String)
      (request : HistoryRequest) (body msg : String),
      client.respond (get_slack_url_for_method "channels.history")
          (historyParams token request) = Except.ok body →
      HistoryResponse.decode body = Except.error msg →
      (history client token request).1 = Except.error (HistoryError.MalformedResponse msg)) ∧
    (∀ (E : Type) (client : MockTransport E) (token : String)
      (request : InfoRequest) (body msg : String),
      client.respond (get_slack_url_for_method "channels.info")
          (infoParams token request) = Except.ok body →
      InfoResponse.decode body = Except.error msg →
      (info client token request).1 = Except.error (InfoError.MalformedResponse msg)) ∧
    (∀ (E : Type) (client : MockTransport E) (token : String)
      (request : InviteRequest) (body msg : String),
      client.respond (get_slack_url_for_method "channels.invite")
          (inviteParams token request) = Except.ok body →
      InviteResponse.decode body = Except.error msg →
      (invite client token request).1 = Except.error (InviteError.MalformedResponse msg)) ∧
    (∀ (E : Type) (client : MockTransport E) (token : String)
      (request : JoinRequest) (body msg : String),
      client.respond (get_slack_url_for_method "channels.join")
          (joinParams token request) = Except.ok body →
      JoinResponse.decode body = Except.error msg →
      (join client token request).1 = Except.error (JoinError.MalformedResponse msg)) ∧
    (∀ (E : Type) (client : MockTransport E) (token : String)
      (request : KickRequest) (body msg : String),
      client.respond (get_slack_url_for_method "channels.kick")
          (kickParams token request) = Except.ok body →
      KickResponse.decode body = Except.error msg →
      (kick client token request).1 = Except.error (KickError.MalformedResponse msg)) ∧
    (∀ (E : Type) (client : MockTransport E) (token : String)
      (request : LeaveRequest) (body msg : String),
      client.respond (get_slack_url_for_method "channels.leave")
          (leaveParams token request) = Except.ok body →
      LeaveResponse.decode body = Except.error msg →
      (leave client token request).1 = Except.error (LeaveError.MalformedResponse msg)) ∧
    (∀ (E : Type) (client : MockTransport E) (token : String)
      (request : ListRequest) (body msg : String),
      client.respond (get_slack_url_for_method "channels.list")
          (listParams token request) = Except.ok body →
      ListResponse.decode body = Except.error msg →
      (list client token request).1 = Except.error (ListError.MalformedResponse msg)) ∧
    (∀ (E : Type) (client : MockTransport E) (token : String)
      (request : MarkRequest) (body msg : String),
      client.respond (get_slack_url_for_method "channels.mark")
          (markParams token request) = Except.ok body →
      MarkResponse.decode body = Except.error msg →
      (mark client token request).1 = Except.error (MarkError.MalformedResponse msg)) ∧
    (∀ (E : Type) (client : MockTransport E) (token : String)
      (request : RenameRequest) (body msg : String),
      client.respond (get_slack_url_for_method "channels.rename")
          (renameParams token request) = Except.ok body →
      RenameResponse.decode body = Except.error msg →
      (rename client token request).1 = Except.error (RenameError.MalformedResponse msg)) ∧
    (∀ (E : Type) (client : MockTransport E) (token : String)
      (request : RepliesRequest) (body msg : String),
      client.respond (get_slack_url_for_method "channels.replies")
          (repliesParams token request) = Except.ok body →
      RepliesResponse.decode body = Except.error msg →
      (replies client token request).1 = Except.error (RepliesError.MalformedResponse msg)) ∧
    (∀ (E : Type) (client : MockTransport E) (token : String)
      (request : SetPurposeRequest) (body msg : String),
      client.respond (get_slack_url_for_method "channels.setPurpose")
          (set_purposeParams token request) = Except.ok body →
      SetPurposeResponse.decode body = Except.error msg →
      (set_purpose client token request).1 = Except.error (SetPurposeError.MalformedResponse msg)) ∧
    (∀ (E : Type) (client : MockTransport E) (token : String)
      (request : SetTopicRequest) (body msg : String),
      client.respond (get_slack_url_for_method "channels.setTopic")
          (set_topicParams token request) = Except.ok body →
      SetTopicResponse.decode body = Except.error msg →
      (set_topic client token request).1 = Except.error (SetTopicError.MalformedResponse msg)) ∧
    (∀ (E : Type) (client : MockTransport E) (token : String)
      (request : UnarchiveRequest) (body msg : String),
      client.respond (get_slack_url_for_method "channels.unarchive")
          (unarchiveParams token request) = Except.ok body →
      UnarchiveResponse.decode body = Except.error msg →
      (unarchive client token request).1 = Except.error (UnarchiveError.MalformedResponse msg)) ∧
    (Json.parse htmlBody = none) :=
  ⟨fun E client token request body msg h1 h2 => by
    simp [archive, archiveWith, MockTransport.send, Except.mapError, Except.bind, h1, h2],
   fun E client token request body msg h1 h2 => by
    simp [create, createWith, MockTransport.send, Except.mapError, Except.bind, h1, h2],
   fun E client token request body msg h1 h2 => by
    simp [history, historyWith, MockTransport.send, Except.mapError, Except.bind, h1, h2],
   fun E client token request body msg h1 h2 => by
    simp [info, infoWith, MockTransport.send, Except.mapError, Except.bind, h1, h2],
   fun E client token request body msg h1 h2 => by
    simp [invite, inviteWith, MockTransport.send, Except.mapError, Except.bind, h1, h2],
   fun E client token request body msg h1 h2 => by
    simp [join, joinWith, MockTransport.send, Except.mapError, Except.bind, h1, h2],
   fun E client token request body msg h1 h2 => by
    simp [kick, kickWith, MockTransport.send, Except.mapError, Except.bind, h1, h2],
   fun E client token request body msg h1 h2 => by
    simp [leave, leaveWith, MockTransport.send, Except.mapError, Except.bind, h1, h2],
   fun E client token request body msg h1 h2 => by
    simp [list, listWith, MockTransport.send, Except.mapError, Except.bind, h1, h2],
   fun E client token request body msg h1 h2 => by
    simp [mark, markWith, MockTransport.send, Except.mapError, Except.bind, h1, h2],
   fun E client token request body msg h1 h2 => by
    simp [rename, renameWith, MockTransport.send, Except.mapError, Except.bind, h1, h2],
   fun E client token request body msg h1 h2 => by
    simp [replies, repliesWith, MockTransport.send, Except.mapError, Except.bind, h1, h2],
   fun E client token request body msg h1 h2 => by
    simp [set_purpose, set_purposeWith, MockTransport.send, Except.mapError, Except.bind, h1, h2],
   fun E client token request body msg h1 h2 => by
    simp [set_topic, set_topicWith, MockTransport.send, Except.mapError, Except.bind, h1, h2],
   fun E client token request body msg h1 h2 => by
    simp [unarchive, unarchiveWith, MockTransport.send, Except.mapError, Except.bind, h1, h2],
   rfl⟩

/-- Witness for C5: sending against a transport that answers with HTML makes
`archive` return the `MalformedResponse` variant. -/
theorem claim_C5_witness :
    (archive (⟨fun _ _ => Except.ok htmlBody, []⟩ : MockTransport Unit) "t" ⟨"c"⟩).1 =
      Except.error (ArchiveError.MalformedResponse "invalid JSON") :=
  claim_C5.1 Unit ⟨fun _ _ => Except.ok htmlBody, []⟩ "t" ⟨"c"⟩ htmlBody "invalid JSON" rfl rfl

/-- Claim C6: for every endpoint, with no optional field set the parameter list
is exactly the token followed by the required fields in declared order, with no
optional-field names and no duplicate names. -/
theorem claim_C6 :
    (∀ (t channel : String),
      archiveParams t ⟨channel⟩ = [("token", t), ("channel", channel)] ∧
      (List.map Prod.fst (archiveParams t ⟨channel⟩)).Nodup) ∧
    (∀ (t name : String),
      createParams t ⟨name, none⟩ = [("token", t), ("name", name)] ∧
      (List.map Prod.fst (createParams t ⟨name, none⟩)).Nodup) ∧
    (∀ (t channel : String),
      historyParams t ⟨channel, none, none, none, none, none⟩ = [("token", t), ("channel", channel)] ∧
      (List.map Prod.fst (historyParams t ⟨channel, none, none, none, none, none⟩)).Nodup) ∧
    (∀ (t channel : String),
      infoParams t ⟨channel⟩ = [("token", t), ("channel", channel)] ∧
      (List.map Prod.fst (infoParams t ⟨channel⟩)).Nodup) ∧
    (∀ (t channel user : String),
      inviteParams t ⟨channel, user⟩ = [("token", t), ("channel", channel), ("user", user)] ∧
      (List.map Prod.fst (inviteParams t ⟨channel, user⟩)).Nodup) ∧
    (∀ (t name : String),
      joinParams t ⟨name, none⟩ = [("token", t), ("name", name)] ∧
      (List.map Prod.fst (joinParams t ⟨name, none⟩)).Nodup) ∧
    (∀ (t channel user : String),
      kickParams t ⟨channel, user⟩ = [("token", t), ("channel", channel), ("user", user)] ∧
      (List.map Prod.fst (kickParams t ⟨channel, user⟩)).Nodup) ∧
    (∀ (t channel : String),
      leaveParams t ⟨channel⟩ = [("token", t), ("channel", channel)] ∧
      (List.map Prod.fst (leaveParams t ⟨channel⟩)).Nodup) ∧
    (∀ (t : String),
      listParams t ⟨none, none⟩ = [("token", t)] ∧
      (List.map Prod.fst (listParams t ⟨none, none⟩)).Nodup) ∧
    (∀ (t channel ts : String),
      markParams t ⟨channel, ts⟩ = [("token", t), ("channel", channel), ("ts", ts)] ∧
      (List.map Prod.fst (markParams t ⟨channel, ts⟩)).Nodup) ∧
    (∀ (t channel name : String),
      renameParams t ⟨channel, name, none⟩ = [("token", t), ("channel", channel), ("name", name)] ∧
      (List.map Prod.fst (renameParams t ⟨channel, name, none⟩)).Nodup) ∧
    (∀ (t channel thread_ts : String),
      repliesParams t ⟨channel, thread_ts⟩ = [("token", t), ("channel", channel), ("thread_ts", thread_ts)] ∧
      (List.map Prod.fst (repliesParams t ⟨channel, thread_ts⟩)).Nodup) ∧
    (∀ (t channel purpose : String),
      set_purposeParams t ⟨channel, purpose⟩ = [("token", t), ("channel", channel), ("purpose", purpose)] ∧
      (List.map Prod.fst (set_purposeParams t ⟨channel, purpose⟩)).Nodup) ∧
    (∀ (t channel topic : String),
      set_topicParams t ⟨channel, topic⟩ = [("token", t), ("channel", channel), ("topic", topic)] ∧
      (List.map Prod.fst (set_topicParams t ⟨channel, topic⟩)).Nodup) ∧
    (∀ (t channel : String),
      unarchiveParams t ⟨channel⟩ = [("token", t), ("channel", channel)] ∧
      (List.map Prod.fst (unarchiveParams t ⟨channel⟩)).Nodup) :=
  ⟨fun t channel => ⟨rfl, by simp [archiveParams, List.nodup_cons]⟩,
   fun t name => ⟨rfl, by simp [createParams, List.nodup_cons]⟩,
   fun t channel => ⟨rfl, by simp [historyParams, List.nodup_cons]⟩,
   fun t channel => ⟨rfl, by simp [infoParams, List.nodup_cons]⟩,
   fun t channel user => ⟨rfl, by simp [inviteParams, List.nodup_cons]⟩,
   fun t name => ⟨rfl, by simp [joinParams, List.nodup_cons]⟩,
   fun t channel user => ⟨rfl, by simp [kickParams, List.nodup_cons]⟩,
   fun t channel => ⟨rfl, by simp [leaveParams, List.nodup_cons]⟩,
   fun t => ⟨rfl, by simp [listParams, List.nodup_cons]⟩,
   fun t channel ts => ⟨rfl, by simp [markParams, List.nodup_cons]⟩,
   fun t channel name => ⟨rfl, by simp [renameParams, List.nodup_cons]⟩,
   fun t channel thread_ts => ⟨rfl, by simp [repliesParams, List.nodup_cons]⟩,
   fun t channel purpose => ⟨rfl, by simp [set_purposeParams, List.nodup_cons]⟩,
   fun t channel topic => ⟨rfl, by simp [set_topicParams, List.nodup_cons]⟩,
   fun t channel => ⟨rfl, by simp [unarchiveParams, List.nodup_cons]⟩⟩

/-- Claim C7: every optional boolean request field appears as its wire name with
value "1" when set to true, "0" when set to false, and not at all when unset
(characterized as a membership equivalence over the whole parameter list). -/
theorem claim_C7 :
    (∀ (t n v : String) (o : Option Bool),
      (("validate", v) ∈ createParams t ⟨n, o⟩) ↔
        (o = some true ∧ v = "1") ∨ (o = some false ∧ v = "0")) ∧
    (∀ (t n v : String) (o : Option Bool),
      (("validate", v) ∈ joinParams t ⟨n, o⟩) ↔
        (o = some true ∧ v = "1") ∨ (o = some false ∧ v = "0")) ∧
    (∀ (t c n v : String) (o : Option Bool),
      (("validate", v) ∈ renameParams t ⟨c, n, o⟩) ↔
        (o = some true ∧ v = "1") ∨ (o = some false ∧ v = "0")) ∧
    (∀ (t v : String) (a b : Option Bool),
      (("exclude_archived", v) ∈ listParams t ⟨a, b⟩) ↔
        (a = some true ∧ v = "1") ∨ (a = some false ∧ v = "0")) ∧
    (∀ (t v : String) (a b : Option Bool),
      (("exclude_members", v) ∈ listParams t ⟨a, b⟩) ↔
        (b = some true ∧ v = "1") ∨ (b = some false ∧ v = "0")) ∧
    (∀ (t c : String) (l o : Option String) (n : Option Nat) (i u : Option Bool)
      (v : String),
      (("inclusive", v) ∈ historyParams t ⟨c, l, o, i, n, u⟩) ↔
        (i = some true ∧ v = "1") ∨ (i = some false ∧ v = "0")) ∧
    (∀ (t c : String) (l o : Option String) (n : Option Nat) (i u : Option Bool)
      (v : String),
      (("unreads", v) ∈ historyParams t ⟨c, l, o, i, n, u⟩) ↔
        (u = some true ∧ v = "1") ∨ (u = some false ∧ v = "0")) :=
  ⟨fun t n v o => by
    rcases o with _ | x
    · simp [createParams]
    · cases x <;> simp [createParams],
   fun t n v o => by
    rcases o with _ | x
    · simp [joinParams]
    · cases x <;> simp [joinParams],
   fun t c n v o => by
    rcases o with _ | x
    · simp [renameParams]
    · cases x <;> simp [renameParams],
   fun t v a b => by
    rcases a with _ | x
    · rcases b with _ | y <;> simp [listParams]
    · cases x <;> rcases b with _ | y <;> simp [listParams],
   fun t v a b => by
    rcases b with _ | x
    · rcases a with _ | y <;> simp [listParams]
    · cases x <;> rcases a with _ | y <;> simp [listParams],
   fun t c l o n i u v => by
    rcases i with _ | b
    · rcases l with _ | l <;> rcases o with _ | o <;> rcases n with _ | n <;>
        rcases u with _ | u <;> simp [historyParams]
    · cases b <;> rcases l with _ | l <;> rcases o with _ | o <;>
        rcases n with _ | n <;> rcases u with _ | u <;> simp [historyParams],
   fun t c l o n i u v => by
    rcases u with _ | b
    · rcases l with _ | l <;> rcases o with _ | o <;> rcases n with _ | n <;>
        rcases i with _ | i <;> simp [historyParams]
    · cases b <;> rcases l with _ | l <;> rcases o with _ | o <;>
        rcases n with _ | n <;> rcases i with _ | i <;> simp [historyParams]⟩

/-- Claim C8: for every endpoint, a JSON object without an `ok` field decodes
to a response with `ok = false`, which is then routed through the error path. -/
theorem claim_C8 :
    (∀ (fields : List (String × Json)) (r : ArchiveResponse),
      jsonLookup fields "ok" = none →
      ArchiveResponse.fromJson (Json.obj fields) = Except.ok r →
      r.ok = false ∧ ∃ err, (ArchiveResponse.intoResult r : Except (ArchiveError Unit) ArchiveResponse) = Except.error err) ∧
    (∀ (fields : List (String × Json)) (r : CreateResponse),
      jsonLookup fields "ok" = none →
      CreateResponse.fromJson (Json.obj fields) = Except.ok r →
      r.ok = false ∧ ∃ err, (CreateResponse.intoResult r : Except (CreateError Unit) CreateResponse) = Except.error err) ∧
    (∀ (fields : List (String × Json)) (r : HistoryResponse),
      jsonLookup fields "ok" = none →
      HistoryResponse.fromJson (Json.obj fields) = Except.ok r →
      r.ok = false ∧ ∃ err, (HistoryResponse.intoResult r : Except (HistoryError Unit) HistoryResponse) = Except.error err) ∧
    (∀ (fields : List (String × Json)) (r : InfoResponse),
      jsonLookup fields "ok" = none →
      InfoResponse.fromJson (Json.obj fields) = Except.ok r →
      r.ok = false ∧ ∃ err, (InfoResponse.intoResult r : Except (InfoError Unit) InfoResponse) = Except.error err) ∧
    (∀ (fields : List (String × Json)) (r : InviteResponse),
      jsonLookup fields "ok" = none →
      InviteResponse.fromJson (Json.obj fields) = Except.ok r →
      r.ok = false ∧ ∃ err, (InviteResponse.intoResult r : Except (InviteError Unit) InviteResponse) = Except.error err) ∧
    (∀ (fields : List (String × Json)) (r : JoinResponse),
      jsonLookup fields "ok" = none →
      JoinResponse.fromJson (Json.obj fields) = Except.ok r →
      r.ok = false ∧ ∃ err, (JoinResponse.intoResult r : Except (JoinError Unit) JoinResponse) = Except.error err) ∧
    (∀ (fields : List (String × Json)) (r : KickResponse),
      jsonLookup fields "ok" = none →
      KickResponse.fromJson (Json.obj fields) = Except.ok r →
      r.ok = false ∧ ∃ err, (KickResponse.intoResult r : Except (KickError Unit) KickResponse) = Except.error err) ∧
    (∀ (fields : List (String × Json)) (r : LeaveResponse),
      jsonLookup fields "ok" = none →
      LeaveResponse.fromJson (Json.obj fields) = Except.ok r →
      r.ok = false ∧ ∃ err, (LeaveResponse.intoResult r : Except (LeaveError Unit) LeaveResponse) = Except.error err) ∧
    (∀ (fields : List (String × Json)) (r : ListResponse),
      jsonLookup fields "ok" = none →
      ListResponse.fromJson (Json.obj fields) = Except.ok r →
      r.ok = false ∧ ∃ err, (ListResponse.intoResult r : Except (ListError Unit) ListResponse) = Except.error err) ∧
    (∀ (fields : List (String × Json)) (r : MarkResponse),
      jsonLookup fields "ok" = none →
      MarkResponse.fromJson (Json.obj fields) = Except.ok r →
      r.ok = false ∧ ∃ err, (MarkResponse.intoResult r : Except (MarkError Unit) MarkResponse) = Except.error err) ∧
    (∀ (fields : List (String × Json)) (r : RenameResponse),
      jsonLookup fields "ok" = none →
      RenameResponse.fromJson (Json.obj fields) = Except.ok r →
      r.ok = false ∧ ∃ err, (RenameResponse.intoResult r : Except (RenameError Unit) RenameResponse) = Except.error err) ∧
    (∀ (fields : List (String × Json)) (r : RepliesResponse),
      jsonLookup fields "ok" = none →
      RepliesResponse.fromJson (Json.obj fields) = Except.ok r →
      r.ok = false ∧ ∃ err, (RepliesResponse.intoResult r : Except (RepliesError Unit) RepliesResponse) = Except.error err) ∧
    (∀ (fields : List (String × Json)) (r : SetPurposeResponse),
      jsonLookup fields "ok" = none →
      SetPurposeResponse.fromJson (Json.obj fields) = Except.ok r →
      r.ok = false ∧ ∃ err, (SetPurposeResponse.intoResult r : Except (SetPurposeError Unit) SetPurposeResponse) = Except.error err) ∧
    (∀ (fields : List (String × Json)) (r : SetTopicResponse),
      jsonLookup fields "ok" = none →
      SetTopicResponse.fromJson (Json.obj fields) = Except.ok r →
      r.ok = false ∧ ∃ err, (SetTopicResponse.intoResult r : Except (SetTopicError Unit) SetTopicResponse) = Except.error err) ∧
    (∀ (fields : List (String × Json)) (r : UnarchiveResponse),
      jsonLookup fields "ok" = none →
      UnarchiveResponse.fromJson (Json.obj fields) = Except.ok r →
      r.ok = false ∧ ∃ err, (UnarchiveResponse.intoResult r : Except (UnarchiveError Unit) UnarchiveResponse) = Except.error err) :=
  ⟨fun fields r hok hdec => by
    unfold ArchiveResponse.fromJson at hdec
    repeat' split at hdec
    all_goals try (exact Except.noConfusion hdec)
    rename_i x0 flds hobj x1 v1 h1 x2 v2 h2
    simp only [Json.expectObj, Except.ok.injEq] at hobj
    subst hobj
    rw [hok] at h2
    simp only [decodeBoolDefaultFalse, Except.ok.injEq] at h2
    subst h2
    simp only [Except.ok.injEq] at hdec
    subst hdec
    exact ⟨rfl, _, rfl⟩,
   fun fields r hok hdec => by
    unfold CreateResponse.fromJson at hdec
    repeat' split at hdec
    all_goals try (exact Except.noConfusion hdec)
    rename_i x0 flds hobj x1 v1 h1 x2 v2 h2 x3 v3 h3
    simp only [Json.expectObj, Except.ok.injEq] at hobj
    subst hobj
    rw [hok] at h3
    simp only [decodeBoolDefaultFalse, Except.ok.injEq] at h3
    subst h3
    simp only [Except.ok.injEq] at hdec
    subst hdec
    exact ⟨rfl, _, rfl⟩,
   fun fields r hok hdec => by
    unfold HistoryResponse.fromJson at hdec
    repeat' split at hdec
    all_goals try (exact Except.noConfusion hdec)
    rename_i x0 flds hobj x1 v1 h1 x2 v2 h2 x3 v3 h3 x4 v4 h4 x5 v5 h5
    simp only [Json.expectObj, Except.ok.injEq] at hobj
    subst hobj
    rw [hok] at h5
    simp only [decodeBoolDefaultFalse, Except.ok.injEq] at h5
    subst h5
    simp only [Except.ok.injEq] at hdec
    subst hdec
    exact ⟨rfl, _, rfl⟩,
   fun fields r hok hdec => by
    unfold InfoResponse.fromJson at hdec
    repeat' split at hdec
    all_goals try (exact Except.noConfusion hdec)
    rename_i x0 flds hobj x1 v1 h1 x2 v2 h2 x3 v3 h3
    simp only [Json.expectObj, Except.ok.injEq] at hobj
    subst hobj
    rw [hok] at h3
    simp only [decodeBoolDefaultFalse, Except.ok.injEq] at h3
    subst h3
    simp only [Except.ok.injEq] at hdec
    subst hdec
    exact ⟨rfl, _, rfl⟩,
   fun fields r hok hdec => by
    unfold InviteResponse.fromJson at hdec
    repeat' split at hdec
    all_goals try (exact Except.noConfusion hdec)
    rename_i x0 flds hobj x1 v1 h1 x2 v2 h2 x3 v3 h3
    simp only [Json.expectObj, Except.ok.injEq] at hobj
    subst hobj
    rw [hok] at h3
    simp only [decodeBoolDefaultFalse, Except.ok.injEq] at h3
    subst h3
    simp only [Except.ok.injEq] at hdec
    subst hdec
    exact ⟨rfl, _, rfl⟩,
   fun fields r hok hdec => by
    unfold JoinResponse.fromJson at hdec
    repeat' split at hdec
    all_goals try (exact Except.noConfusion hdec)
    rename_i x0 flds hobj x1 v1 h1 x2 v2 h2 x3 v3 h3
    simp only [Json.expectObj, Except.ok.injEq] at hobj
    subst hobj
    rw [hok] at h3
    simp only [decodeBoolDefaultFalse, Except.ok.injEq] at h3
    subst h3
    simp only [Except.ok.injEq] at hdec
    subst hdec
    exact ⟨rfl, _, rfl⟩,
   fun fields r hok hdec => by
    unfold KickResponse.fromJson at hdec
    repeat' split at hdec
    all_goals try (exact Except.noConfusion hdec)
    rename_i x0 flds hobj x1 v1 h1 x2 v2 h2
    simp only [Json.expectObj, Except.ok.injEq] at hobj
    subst hobj
    rw [hok] at h2
    simp only [decodeBoolDefaultFalse, Except.ok.injEq] at h2
    subst h2
    simp only [Except.ok.injEq] at hdec
    subst hdec
    exact ⟨rfl, _, rfl⟩,
   fun fields r hok hdec => by
    unfold LeaveResponse.fromJson at hdec
    repeat' split at hdec
    all_goals try (exact Except.noConfusion hdec)
    rename_i x0 flds hobj x1 v1 h1 x2 v2 h2
    simp only [Json.expectObj, Except.ok.injEq] at hobj
    subst hobj
    rw [hok] at h2
    simp only [decodeBoolDefaultFalse, Except.ok.injEq] at h2
    subst h2
    simp only [Except.ok.injEq] at hdec
    subst hdec
    exact ⟨rfl, _, rfl⟩,
   fun fields r hok hdec => by
    unfold ListResponse.fromJson at hdec
    repeat' split at hdec
    all_goals try (exact Except.noConfusion hdec)
    rename_i x0 flds hobj x1 v1 h1 x2 v2 h2 x3 v3 h3
    simp only [Json.expectObj, Except.ok.injEq] at hobj
    subst hobj
    rw [hok] at h3
    simp only [decodeBoolDefaultFalse, Except.ok.injEq] at h3
    subst h3
    simp only [Except.ok.injEq] at hdec
    subst hdec
    exact ⟨rfl, _, rfl⟩,
   fun fields r hok hdec => by
    unfold MarkResponse.fromJson at hdec
    repeat' split at hdec
    all_goals try (exact Except.noConfusion hdec)
    rename_i x0 flds hobj x1 v1 h1 x2 v2 h2
    simp only [Json.expectObj, Except.ok.injEq] at hobj
    subst hobj
    rw [hok] at h2
    simp only [decodeBoolDefaultFalse, Except.ok.injEq] at h2
    subst h2
    simp only [Except.ok.injEq] at hdec
    subst hdec
    exact ⟨rfl, _, rfl⟩,
   fun fields r hok hdec => by
    unfold RenameResponse.fromJson at hdec
    repeat' split at hdec
    all_goals try (exact Except.noConfusion hdec)
    rename_i x0 flds hobj x1 v1 h1 x2 v2 h2 x3 v3 h3
    simp only [Json.expectObj, Except.ok.injEq] at hobj
    subst hobj
    rw [hok] at h3
    simp only [decodeBoolDefaultFalse, Except.ok.injEq] at h3
    subst h3
    simp only [Except.ok.injEq] at hdec
    subst hdec
    exact ⟨rfl, _, rfl⟩,
   fun fields r hok hdec => by
    unfold RepliesResponse.fromJson at hdec
    repeat' split at hdec
    all_goals try (exact Except.noConfusion hdec)
    rename_i x0 flds hobj x1 v1 h1 x2 v2 h2 x3 v3 h3 x4 v4 h4
    simp only [Json.expectObj, Except.ok.injEq] at hobj
    subst hobj
    rw [hok] at h3
    simp only [decodeBoolDefaultFalse, Except.ok.injEq] at h3
    subst h3
    simp only [Except.ok.injEq] at hdec
    subst hdec
    exact ⟨rfl, _, rfl⟩,
   fun fields r hok hdec => by
    unfold SetPurposeResponse.fromJson at hdec
    repeat' split at hdec
    all_goals try (exact Except.noConfusion hdec)
    rename_i x0 flds hobj x1 v1 h1 x2 v2 h2 x3 v3 h3
    simp only [Json.expectObj, Except.ok.injEq] at hobj
    subst hobj
    rw [hok] at h2
    simp only [decodeBoolDefaultFalse, Except.ok.injEq] at h2
    subst h2
    simp only [Except.ok.injEq] at hdec
    subst hdec
    exact ⟨rfl, _, rfl⟩,
   fun fields r hok hdec => by
    unfold SetTopicResponse.fromJson at hdec
    repeat' split at hdec
    all_goals try (exact Except.noConfusion hdec)
    rename_i x0 flds hobj x1 v1 h1 x2 v2 h2 x3 v3 h3
    simp only [Json.expectObj, Except.ok.injEq] at hobj
    subst hobj
    rw [hok] at h2
    simp only [decodeBoolDefaultFalse, Except.ok.injEq] at h2
    subst h2
    simp only [Except.ok.injEq] at hdec
    subst hdec
    exact ⟨rfl, _, rfl⟩,
   fun fields r hok hdec => by
    unfold UnarchiveResponse.fromJson at hdec
    repeat' split at hdec
    all_goals try (exact Except.noConfusion hdec)
    rename_i x0 flds hobj x1 v1 h1 x2 v2 h2
    simp only [Json.expectObj, Except.ok.injEq] at hobj
    subst hobj
    rw [hok] at h2
    simp only [decodeBoolDefaultFalse, Except.ok.injEq] at h2
    subst h2
    simp only [Except.ok.injEq] at hdec
    subst hdec
    exact ⟨rfl, _, rfl⟩⟩

/-- Witness for C8: an object with only an error field decodes with `ok = false`
and is routed to the error path. -/
theorem claim_C8_witness :
    (⟨some "x", false⟩ : ArchiveResponse).ok = false ∧
    ∃ err, (ArchiveResponse.intoResult ⟨some "x", false⟩ :
        Except (ArchiveError Unit) ArchiveResponse) = Except.error err :=
  claim_C8.1 [("error", Json.str "x")] ⟨some "x", false⟩ rfl rfl

set_option maxRecDepth 8192 in
/-- Table soundness used by C9: every archive table entry maps back through
`fromStr` and describes itself as its own code joined to its text. -/
theorem archiveTable_described :
    ∀ p ∈ archiveDescTable,
      (ArchiveError.fromStr p.2.1 : ArchiveError Unit) = p.1 ∧
      ArchiveError.description (fun _ => "") p.1 = p.2.1 ++ ": " ++ p.2.2 := by
  decide

set_option maxRecDepth 8192 in
/-- Table soundness used by C9: every create table entry maps back through
`fromStr` and describes itself as its own code joined to its text. -/
theorem createTable_described :
    ∀ p ∈ createDescTable,
      (CreateError.fromStr p.2.1 : CreateError Unit) = p.1 ∧
      CreateError.description (fun _ => "") p.1 = p.2.1 ++ ": " ++ p.2.2 := by
  decide

set_option maxRecDepth 8192 in
/-- Table soundness used by C9: every history table entry maps back through
`fromStr` and describes itself as its own code joined to its text. -/
theorem historyTable_described :
    ∀ p ∈ historyDescTable,
      (HistoryError.fromStr p.2.1 : HistoryError Unit) = p.1 ∧
      HistoryError.description (fun _ => "") p.1 = p.2.1 ++ ": " ++ p.2.2 := by
  decide

set_option maxRecDepth 8192 in
/-- Table soundness used by C9: every info table entry maps back through
`fromStr` and describes itself as its own code joined to its text. -/
theorem infoTable_described :
    ∀ p ∈ infoDescTable,
      (InfoError.fromStr p.2.1 : InfoError Unit) = p.1 ∧
      InfoError.description (fun _ => "") p.1 = p.2.1 ++ ": " ++ p.2.2 := by
  decide

set_option maxRecDepth 8192 in
/-- Table soundness used by C9: every invite table entry maps back through
`fromStr` and describes itself as its own code joined to its text. -/
theorem inviteTable_described :
    ∀ p ∈ inviteDescTable,
      (InviteError.fromStr p.2.1 : InviteError Unit) = p.1 ∧
      InviteError.description (fun _ => "") p.1 = p.2.1 ++ ": " ++ p.2.2 := by
  decide

set_option maxRecDepth 8192 in
/-- Table soundness used by C9: every join table entry maps back through
`fromStr` and describes itself as its own code joined to its text. -/
theorem joinTable_described :
    ∀ p ∈ joinDescTable,
      (JoinError.fromStr p.2.1 : JoinError Unit) = p.1 ∧
      JoinError.description (fun _ => "") p.1 = p.2.1 ++ ": " ++ p.2.2 := by
  decide

set_option maxRecDepth 8192 in
/-- Table soundness used by C9: every kick table entry maps back through
`fromStr` and describes itself as its own code joined to its text. -/
theorem kickTable_described :
    ∀ p ∈ kickDescTable,
      (KickError.fromStr p.2.1 : KickError Unit) = p.1 ∧
      KickError.description (fun _ => "") p.1 = p.2.1 ++ ": " ++ p.2.2 := by
  decide

set_option maxRecDepth 8192 in
/-- Table soundness used by C9: every leave table entry maps back through
`fromStr` and describes itself as its own code joined to its text. -/
theorem leaveTable_described :
    ∀ p ∈ leaveDescTable,
      (LeaveError.fromStr p.2.1 : LeaveError Unit) = p.1 ∧
      LeaveError.description (fun _ => "") p.1 = p.2.1 ++ ": " ++ p.2.2 := by
  decide

set_option maxRecDepth 8192 in
/-- Table soundness used by C9: every list table entry maps back through
`fromStr` and describes itself as its own code joined to its text. -/
theorem listTable_described :
    ∀ p ∈ listDescTable,
      (ListError.fromStr p.2.1 : ListError Unit) = p.1 ∧
      ListError.description (fun _ => "") p.1 = p.2.1 ++ ": " ++ p.2.2 := by
  decide

set_option maxRecDepth 8192 in
/-- Table soundness used by C9: every mark table entry maps back through
`fromStr` and describes itself as its own code joined to its text. -/
theorem markTable_described :
    ∀ p ∈ markDescTable,
      (MarkError.fromStr p.2.1 : MarkError Unit) = p.1 ∧
      MarkError.description (fun _ => "") p.1 = p.2.1 ++ ": " ++ p.2.2 := by
  decide

set_option maxRecDepth 8192 in
/-- Table soundness used by C9: every rename table entry maps back through
`fromStr` and describes itself as its own code joined to its text. -/
theorem renameTable_described :
    ∀ p ∈ renameDescTable,
      (RenameError.fromStr p.2.1 : RenameError Unit) = p.1 ∧
      RenameError.description (fun _ => "") p.1 = p.2.1 ++ ": " ++ p.2.2 := by
  decide

set_option maxRecDepth 8192 in
/-- Table soundness used by C9: every replies table entry maps back through
`fromStr` and describes itself as its own code joined to its text. -/
theorem repliesTable_described :
    ∀ p ∈ repliesDescTable,
      (RepliesError.fromStr p.2.1 : RepliesError Unit) = p.1 ∧
      RepliesError.description (fun _ => "") p.1 = p.2.1 ++ ": " ++ p.2.2 := by
  decide

set_option maxRecDepth 8192 in
/-- Table soundness used by C9: every set_purpose table entry maps back through
`fromStr` and describes itself as its own code joined to its text. -/
theorem set_purposeTable_described :
    ∀ p ∈ set_purposeDescTable,
      (SetPurposeError.fromStr p.2.1 : SetPurposeError Unit) = p.1 ∧
      SetPurposeError.description (fun _ => "") p.1 = p.2.1 ++ ": " ++ p.2.2 := by
  decide

set_option maxRecDepth 8192 in
/-- Table soundness used by C9: every set_topic table entry maps back through
`fromStr` and describes itself as its own code joined to its text. -/
theorem set_topicTable_described :
    ∀ p ∈ set_topicDescTable,
      (SetTopicError.fromStr p.2.1 : SetTopicError Unit) = p.1 ∧
      SetTopicError.description (fun _ => "") p.1 = p.2.1 ++ ": " ++ p.2.2 := by
  decide

set_option maxRecDepth 8192 in
/-- Table soundness used by C9: every unarchive table entry maps back through
`fromStr` and describes itself as its own code joined to its text. -/
theorem unarchiveTable_described :
    ∀ p ∈ unarchiveDescTable,
      (UnarchiveError.fromStr p.2.1 : UnarchiveError Unit) = p.1 ∧
      UnarchiveError.description (fun _ => "") p.1 = p.2.1 ++ ": " ++ p.2.2 := by
  decide

/-- Claim C9: for every endpoint, each domain-error variant describes itself as
its own wire code, a colon and the documented text; `Display` writes exactly
`description()`; and the `Unknown` variant displays the raw code string. -/
theorem claim_C9 :
    (∀ p ∈ archiveDescTable,
      (ArchiveError.fromStr p.2.1 : ArchiveError Unit) = p.1 ∧
      ArchiveError.description (fun _ => "") p.1 = p.2.1 ++ ": " ++ p.2.2) ∧
    (∀ p ∈ createDescTable,
      (CreateError.fromStr p.2.1 : CreateError Unit) = p.1 ∧
      CreateError.description (fun _ => "") p.1 = p.2.1 ++ ": " ++ p.2.2) ∧
    (∀ p ∈ historyDescTable,
      (HistoryError.fromStr p.2.1 : HistoryError Unit) = p.1 ∧
      HistoryError.description (fun _ => "") p.1 = p.2.1 ++ ": " ++ p.2.2) ∧
    (∀ p ∈ infoDescTable,
      (InfoError.fromStr p.2.1 : InfoError Unit) = p.1 ∧
      InfoError.description (fun _ => "") p.1 = p.2.1 ++ ": " ++ p.2.2) ∧
    (∀ p ∈ inviteDescTable,
      (InviteError.fromStr p.2.1 : InviteError Unit) = p.1 ∧
      InviteError.description (fun _ => "") p.1 = p.2.1 ++ ": " ++ p.2.2) ∧
    (∀ p ∈ joinDescTable,
      (JoinError.fromStr p.2.1 : JoinError Unit) = p.1 ∧
      JoinError.description (fun _ => "") p.1 = p.2.1 ++ ": " ++ p.2.2) ∧
    (∀ p ∈ kickDescTable,
      (KickError.fromStr p.2.1 : KickError Unit) = p.1 ∧
      KickError.description (fun _ => "") p.1 = p.2.1 ++ ": " ++ p.2.2) ∧
    (∀ p ∈ leaveDescTable,
      (LeaveError.fromStr p.2.1 : LeaveError Unit) = p.1 ∧
      LeaveError.description (fun _ => "") p.1 = p.2.1 ++ ": " ++ p.2.2) ∧
    (∀ p ∈ listDescTable,
      (ListError.fromStr p.2.1 : ListError Unit) = p.1 ∧
      ListError.description (fun _ => "") p.1 = p.2.1 ++ ": " ++ p.2.2) ∧
    (∀ p ∈ markDescTable,
      (MarkError.fromStr p.2.1 : MarkError Unit) = p.1 ∧
      MarkError.description (fun _ => "") p.1 = p.2.1 ++ ": " ++ p.2.2) ∧
    (∀ p ∈ renameDescTable,
      (RenameError.fromStr p.2.1 : RenameError Unit) = p.1 ∧
      RenameError.description (fun _ => "") p.1 = p.2.1 ++ ": " ++ p.2.2) ∧
    (∀ p ∈ repliesDescTable,
      (RepliesError.fromStr p.2.1 : RepliesError Unit) = p.1 ∧
      RepliesError.description (fun _ => "") p.1 = p.2.1 ++ ": " ++ p.2.2) ∧
    (∀ p ∈ set_purposeDescTable,
      (SetPurposeError.fromStr p.2.1 : SetPurposeError Unit) = p.1 ∧
      SetPurposeError.description (fun _ => "") p.1 = p.2.1 ++ ": " ++ p.2.2) ∧
    (∀ p ∈ set_topicDescTable,
      (SetTopicError.fromStr p.2.1 : SetTopicError Unit) = p.1 ∧
      SetTopicError.description (fun _ => "") p.1 = p.2.1 ++ ": " ++ p.2.2) ∧
    (∀ p ∈ unarchiveDescTable,
      (UnarchiveError.fromStr p.2.1 : UnarchiveError Unit) = p.1 ∧
      UnarchiveError.description (fun _ => "") p.1 = p.2.1 ++ ": " ++ p.2.2) ∧
    (∀ (E : Type) (descE : E → String) (err : ArchiveError E),
      ArchiveError.displayString descE err = ArchiveError.description descE err) ∧
    (∀ (E : Type) (descE : E → String) (err : CreateError E),
      CreateError.displayString descE err = CreateError.description descE err) ∧
    (∀ (E : Type) (descE : E → String) (err : HistoryError E),
      HistoryError.displayString descE err = HistoryError.description descE err) ∧
    (∀ (E : Type) (descE : E → String) (err : InfoError E),
      InfoError.displayString descE err = InfoError.description descE err) ∧
    (∀ (E : Type) (descE : E → String) (err : InviteError E),
      InviteError.displayString descE err = InviteError.description descE err) ∧
    (∀ (E : Type) (descE : E → String) (err : JoinError E),
      JoinError.displayString descE err = JoinError.description descE err) ∧
    (∀ (E : Type) (descE : E → String) (err : KickError E),
      KickError.displayString descE err = KickError.description descE err) ∧
    (∀ (E : Type) (descE : E → String) (err : LeaveError E),
      LeaveError.displayString descE err = LeaveError.description descE err) ∧
    (∀ (E : Type) (descE : E → String) (err : ListError E),
      ListError.displayString descE err = ListError.description descE err) ∧
    (∀ (E : Type) (descE : E → String) (err : MarkError E),
      MarkError.displayString descE err = MarkError.description descE err) ∧
    (∀ (E : Type) (descE : E → String) (err : RenameError E),
      RenameError.displayString descE err = RenameError.description descE err) ∧
    (∀ (E : Type) (descE : E → String) (err : RepliesError E),
      RepliesError.displayString descE err = RepliesError.description descE err) ∧
    (∀ (E : Type) (descE : E → String) (err : SetPurposeError E),
      SetPurposeError.displayString descE err = SetPurposeError.description descE err) ∧
    (∀ (E : Type) (descE : E → String) (err : SetTopicError E),
      SetTopicError.displayString descE err = SetTopicError.description descE err) ∧
    (∀ (E : Type) (descE : E → String) (err : UnarchiveError E),
      UnarchiveError.displayString descE err = UnarchiveError.description descE err) ∧
    (∀ s, ArchiveError.displayString (fun _ => "") (ArchiveError.Unknown s : ArchiveError Unit) = s) ∧
    (∀ s, CreateError.displayString (fun _ => "") (CreateError.Unknown s : CreateError Unit) = s) ∧
    (∀ s, HistoryError.displayString (fun _ => "") (HistoryError.Unknown s : HistoryError Unit) = s) ∧
    (∀ s, InfoError.displayString (fun _ => "") (InfoError.Unknown s : InfoError Unit) = s) ∧
    (∀ s, InviteError.displayString (fun _ => "") (InviteError.Unknown s : InviteError Unit) = s) ∧
    (∀ s, JoinError.displayString (fun _ => "") (JoinError.Unknown s : JoinError Unit) = s) ∧
    (∀ s, KickError.displayString (fun _ => "") (KickError.Unknown s : KickError Unit) = s) ∧
    (∀ s, LeaveError.displayString (fun _ => "") (LeaveError.Unknown s : LeaveError Unit) = s) ∧
    (∀ s, ListError.displayString (fun _ => "") (ListError.Unknown s : ListError Unit) = s) ∧
    (∀ s, MarkError.displayString (fun _ => "") (MarkError.Unknown s : MarkError Unit) = s) ∧
    (∀ s, RenameError.displayString (fun _ => "") (RenameError.Unknown s : RenameError Unit) = s) ∧
    (∀ s, RepliesError.displayString (fun _ => "") (RepliesError.Unknown s : RepliesError Unit) = s) ∧
    (∀ s, SetPurposeError.displayString (fun _ => "") (SetPurposeError.Unknown s : SetPurposeError Unit) = s) ∧
    (∀ s, SetTopicError.displayString (fun _ => "") (SetTopicError.Unknown s : SetTopicError Unit) = s) ∧
    (∀ s, UnarchiveError.displayString (fun _ => "") (UnarchiveError.Unknown s : UnarchiveError Unit) = s) :=
  ⟨archiveTable_described,
   createTable_described,
   historyTable_described,
   infoTable_described,
   inviteTable_described,
   joinTable_described,
   kickTable_described,
   leaveTable_described,
   listTable_described,
   markTable_described,
   renameTable_described,
   repliesTable_described,
   set_purposeTable_described,
   set_topicTable_described,
   unarchiveTable_described,
   fun _Tar _dar _ear => rfl,
   fun _Tcr _dcr _ecr => rfl,
   fun _Thi _dhi _ehi => rfl,
   fun _Tin _din _ein => rfl,
   fun _Tin _din _ein => rfl,
   fun _Tjo _djo _ejo => rfl,
   fun _Tki _dki _eki => rfl,
   fun _Tle _dle _ele => rfl,
   fun _Tli _dli _eli => rfl,
   fun _Tma _dma _ema => rfl,
   fun _Tre _dre _ere => rfl,
   fun _Tre _dre _ere => rfl,
   fun _Tse _dse _ese => rfl,
   fun _Tse _dse _ese => rfl,
   fun _Tun _dun _eun => rfl,
   fun _uar => rfl,
   fun _ucr => rfl,
   fun _uhi => rfl,
   fun _uin => rfl,
   fun _uin => rfl,
   fun _ujo => rfl,
   fun _uki => rfl,
   fun _ule => rfl,
   fun _uli => rfl,
   fun _uma => rfl,
   fun _ure => rfl,
   fun _ure => rfl,
   fun _use => rfl,
   fun _use => rfl,
   fun _uun => rfl⟩

/-- Witness for C9: the archive table maps `channel_not_found` to its variant,
whose description is the code, a colon and the documented text. -/
theorem claim_C9_witness :
    (ArchiveError.fromStr "channel_not_found" : ArchiveError Unit) =
      ArchiveError.ChannelNotFound ∧
    ArchiveError.description (fun _ => "")
        (ArchiveError.ChannelNotFound : ArchiveError Unit) =
      "channel_not_found" ++ ": " ++ "Value passed for channel was invalid." :=
  claim_C9.1 (ArchiveError.ChannelNotFound, "channel_not_found",
    "Value passed for channel was invalid.") (by decide)

/-- Claim C10: `history` serializes any `count` below 2^32 (with no local range
check, so 0 and values above 1000 included) as its decimal string, omits the
parameter when `count` is unset, and always proceeds to exactly one send. -/
theorem claim_C10 :
    (∀ (t c : String) (n : Nat), n < 4294967296 →
      historyParams t ⟨c, none, none, none, some n, none⟩ =
        [("token", t), ("channel", c), ("count", toString n)]) ∧
    (∀ t c : String,
      historyParams t ⟨c, none, none, none, none, none⟩ =
        [("token", t), ("channel", c)]) ∧
    (∀ (E : Type) (client : MockTransport E) (t : String) (r : HistoryRequest),
      (history client t r).2 =
        ⟨client.respond,
         client.calls ++ [(get_slack_url_for_method "channels.history",
           historyParams t r)]⟩) :=
  ⟨fun t c n _ => rfl, fun t c => rfl,
   fun E client t r => by simp [history, historyWith, MockTransport.send]⟩

/-- Witness for C10: the out-of-range count 1001 and the boundary count 0 are
both serialized verbatim. -/
theorem claim_C10_witness :
    historyParams "xoxb-1" ⟨"C123", none, none, none, some 1001, none⟩ =
      [("token", "xoxb-1"), ("channel", "C123"), ("count", "1001")] ∧
    historyParams "xoxb-1" ⟨"C123", none, none, none, some 0, none⟩ =
      [("token", "xoxb-1"), ("channel", "C123"), ("count", "0")] :=
  ⟨by rw [claim_C10.1 "xoxb-1" "C123" 1001 (by decide)]; decide,
   by rw [claim_C10.1 "xoxb-1" "C123" 0 (by decide)]; decide⟩

